import Mathlib

/-!
# dbtester: control configuration (`config_dbtester.go`)

A shallow embedding of `ReadConfig` (from the point where the YAML file has been
unmarshalled into a `Config`) and of `Config.ToRequest`, followed by the
properties of the request/config model.

Conventions of the embedding:

* Go `int64` fields are `Int`; the only arithmetic on them is comparison.
* Go `int` is 64 bits wide: `idx + 1` wraps with `wrapInt64`, and the
  conversion `uint32(x)` is `toUint32`.
* A Go `map[string]T` is an association list `List (String × T)`; a map produced
  by the YAML decoder has pairwise distinct keys.  `range` visits the entries in
  list order (Go leaves the order unspecified).
* A Go `(*T, error)` result is a pair of options for `ToRequest`, which can
  return a non-nil request together with an error, and an `Except` for
  `ReadConfig`, which returns `nil` with every error.
* The path fields of the configuration (joined with the path prefix at lines
  81-91, 110-134 and 289-294 of the source) are not carried: no statement below
  reads them and none of those lines can fail.
-/

namespace Dbtester

/-! ## Go maps as association lists -/

/-- Go `v, ok := m[k]`: the value stored under `k`, if any. -/
def mapLookup {α : Type} : List (String × α) → String → Option α
  | [], _ => none
  | (k', v) :: rest, k => if k' = k then some v else mapLookup rest k

/-- Go `m[k] = v`: overwrite the entry of `k` when present, add one otherwise. -/
def mapSet {α : Type} : List (String × α) → String → α → List (String × α)
  | [], k, v => [(k, v)]
  | (k', v') :: rest, k, v =>
    if k' = k then (k', v) :: rest else (k', v') :: mapSet rest k v

/-- The keys of a map, in iteration order. -/
def mapKeys {α : Type} (m : List (String × α)) : List String :=
  m.map Prod.fst

/-! ## Machine integers -/

/-- Wrap-around of a Go `int` (64 bits, two's complement). -/
def wrapInt64 (x : Int) : Int :=
  (x + 2 ^ 63) % 2 ^ 64 - 2 ^ 63

/-- Go conversion `uint32(x)` of a signed integer. -/
def toUint32 (x : Int) : Nat :=
  (x % 2 ^ 32).toNat

/-! ## `dbtesterpb` declarations used by the configuration code -/

/-- Modelled from the spec: the enum `dbtesterpb.DatabaseID` (its declaration is
not among the sources).  The constructors are the eight `DatabaseID_*` constants
that `config_dbtester.go` names; they form the fixed known-identity set. -/
inductive DatabaseID
  | etcd__other
  | etcd__tip
  | etcd__v3_2
  | etcd__v3_3
  | zookeeper__r3_5_3_beta
  | consul__v1_0_2
  | zetcd__beta
  | cetcd__beta
  deriving DecidableEq, Repr

/-- Modelled from the spec: `DatabaseID.String()`, the protobuf name of the
enum constant. -/
def DatabaseID.String : DatabaseID → String
  | .etcd__other => "etcd__other"
  | .etcd__tip => "etcd__tip"
  | .etcd__v3_2 => "etcd__v3_2"
  | .etcd__v3_3 => "etcd__v3_3"
  | .zookeeper__r3_5_3_beta => "zookeeper__r3_5_3_beta"
  | .consul__v1_0_2 => "consul__v1_0_2"
  | .zetcd__beta => "zetcd__beta"
  | .cetcd__beta => "cetcd__beta"

/-- Modelled from the spec: the generated table `dbtesterpb.DatabaseID_value`
from enum names to enum values, read with the two-result form `v, ok := m[k]`. -/
def DatabaseID_value (id : String) : Option DatabaseID :=
  if id = "etcd__other" then some .etcd__other
  else if id = "etcd__tip" then some .etcd__tip
  else if id = "etcd__v3_2" then some .etcd__v3_2
  else if id = "etcd__v3_3" then some .etcd__v3_3
  else if id = "zookeeper__r3_5_3_beta" then some .zookeeper__r3_5_3_beta
  else if id = "consul__v1_0_2" then some .consul__v1_0_2
  else if id = "zetcd__beta" then some .zetcd__beta
  else if id = "cetcd__beta" then some .cetcd__beta
  else none

/-- Modelled from the spec: the zero value of the enum, which the one-result
map read `DatabaseID_value[k]` yields for a name that is not in the table.  A
proto3 enum starts at zero; `etcd__other` is the first identity. -/
def DatabaseID_zero : DatabaseID := .etcd__other

/-- Modelled from the spec: `dbtesterpb.IsValidDatabaseID`, membership in the
fixed known-identity set. -/
def IsValidDatabaseID (id : String) : Bool :=
  (DatabaseID_value id).isSome

/-- Modelled from the spec: `dbtesterpb.Operation`, the operation kind of a
request; the configuration code only copies it. -/
inductive Operation
  | Start
  | Stop
  | Heartbeat
  deriving DecidableEq, Repr

/-- Modelled from the spec: `dbtesterpb.Flag_Etcd_Other`, the etcd-family
tunable block `{snapshotCount, quotaSizeBytes}`. -/
structure Flag_Etcd_Other where
  SnapshotCount : Int
  QuotaSizeBytes : Int
  deriving DecidableEq, Repr

/-- The message `Flag_Etcd_Tip` of `flag_etcd.pb.go`. -/
structure Flag_Etcd_Tip where
  SnapshotCount : Int
  QuotaSizeBytes : Int
  deriving DecidableEq, Repr

/-- The message `Flag_Etcd_V3_2` of `flag_etcd.pb.go`. -/
structure Flag_Etcd_V3_2 where
  SnapshotCount : Int
  QuotaSizeBytes : Int
  deriving DecidableEq, Repr

/-- The message `Flag_Etcd_V3_3` of `flag_etcd.pb.go`. -/
structure Flag_Etcd_V3_3 where
  SnapshotCount : Int
  QuotaSizeBytes : Int
  deriving DecidableEq, Repr

/-- Modelled from the spec: `dbtesterpb.Flag_Zookeeper_R3_5_3Beta`, the
ZooKeeper tunable block; the fields are those `ToRequest` copies. -/
structure Flag_Zookeeper_R3_5_3Beta where
  JavaDJuteMaxBuffer : String
  JavaXms : String
  JavaXmx : String
  MyID : Nat
  ClientPort : Int
  TickTime : Int
  InitLimit : Int
  SyncLimit : Int
  SnapCount : Int
  MaxClientConnections : Int
  deriving DecidableEq, Repr

/-- Modelled from the spec: the fields of
`dbtesterpb.ConfigClientMachineBenchmarkOptions` read by the configuration
code. -/
structure ConfigClientMachineBenchmarkOptions where
  ConnectionNumber : Int
  ClientNumber : Int
  deriving DecidableEq, Repr

/-- Modelled from the spec: the field of
`dbtesterpb.ConfigClientMachineBenchmarkSteps` read by the configuration code. -/
structure ConfigClientMachineBenchmarkSteps where
  Step4UploadLogs : Bool
  deriving DecidableEq, Repr

/-- Modelled from the spec: the fields of `dbtesterpb.ConfigClientMachineInitial`
that `ReadConfig` and `ToRequest` read or write, path fields apart. -/
structure ConfigClientMachineInitial where
  GoogleCloudProjectName : String
  GoogleCloudStorageKeyPath : String
  GoogleCloudStorageKey : String
  GoogleCloudStorageBucketName : String
  GoogleCloudStorageSubDirectory : String
  deriving DecidableEq, Repr

/-- Modelled from the spec: `dbtesterpb.ConfigClientMachineAgentControl`, one
entry of the agent-control map.  The tunable blocks are struct values: the
source reads and assigns their fields without a nil check. -/
structure ConfigClientMachineAgentControl where
  DatabaseID : String
  DatabaseDescription : String
  DatabaseTag : String
  PeerIPs : List String
  PeerIPsString : String
  AgentPortToConnect : Int
  AgentEndpoints : List String
  DatabasePortToConnect : Int
  DatabaseEndpoints : List String
  Flag_Etcd_Other : Flag_Etcd_Other
  Flag_Etcd_Tip : Flag_Etcd_Tip
  Flag_Etcd_V3_2 : Flag_Etcd_V3_2
  Flag_Etcd_V3_3 : Flag_Etcd_V3_3
  Flag_Zookeeper_R3_5_3Beta : Flag_Zookeeper_R3_5_3Beta
  ConfigClientMachineBenchmarkOptions : ConfigClientMachineBenchmarkOptions
  ConfigClientMachineBenchmarkSteps : ConfigClientMachineBenchmarkSteps
  deriving DecidableEq, Repr

/-- Modelled from the spec: `dbtesterpb.Request`, the controller-to-agent
instruction.  The tunable blocks are pointers (`none` is nil); the blocks
carried are the ones `ToRequest` can assign. -/
structure Request where
  Operation : Operation
  TriggerLogUpload : Bool
  DatabaseID : DatabaseID
  DatabaseTag : String
  PeerIPsString : String
  IPIndex : Nat
  CurrentClientNumber : Int
  ConfigClientMachineInitial : Option ConfigClientMachineInitial
  Flag_Etcd_Other : Option Flag_Etcd_Other
  Flag_Etcd_Tip : Option Flag_Etcd_Tip
  Flag_Etcd_V3_2 : Option Flag_Etcd_V3_2
  Flag_Etcd_V3_3 : Option Flag_Etcd_V3_3
  Flag_Zookeeper_R3_5_3Beta : Option Flag_Zookeeper_R3_5_3Beta
  deriving DecidableEq, Repr

/-! ## The configuration -/

/-- The struct `Config` of `config_dbtester.go`, without the logger, the
analyze-machine part and the path fields. -/
structure Config where
  TestTitle : String
  TestDescription : String
  ConfigClientMachineInitial : ConfigClientMachineInitial
  AllDatabaseIDList : List String
  DatabaseIDToConfigClientMachineAgentControl :
    List (String × ConfigClientMachineAgentControl)
  deriving DecidableEq, Repr

/-- The errors `ReadConfig` and `ToRequest` build with `fmt.Errorf`, one
constructor per format string, carrying the formatted arguments. -/
inductive ConfigError
  /-- The message `databaseID %q is unknown`. -/
  | unknownDatabaseID (id : String)
  /-- The message `%q got connected %d != clients %d`. -/
  | connectedClientsMismatch (id : String) (connected clients : Int)
  /-- The message `got %q config, but no etcd config is given`. -/
  | noEtcdConfig (id : String)
  /-- An error of `os.ReadFile` on the given path. -/
  | readFile (path : String)
  /-- The message `database ID %q is not defined`. -/
  | notDefined (id : String)
  /-- The message `maximum etcd quota is 8 GB (%d), got %d`. -/
  | quotaExceeded (maximum got : Int)
  /-- The message `unknown %v`. -/
  | unknownRequestID (did : DatabaseID)
  deriving DecidableEq, Repr

/-! ## `MakeTag` -/

/-- Go `strings.Replace(s, old, new, -1)` for a non-empty `old`, on the list of
characters: occurrences are replaced left to right without overlap.  `skip`
counts the characters of a matched occurrence still to be consumed. -/
def replaceFrom (old new : List Char) : Nat → List Char → List Char
  | _, [] => []
  | skip + 1, _ :: cs => replaceFrom old new skip cs
  | 0, c :: cs =>
    if old.isPrefixOf (c :: cs) then new ++ replaceFrom old new (old.length - 1) cs
    else c :: replaceFrom old new 0 cs

/-- Go `strings.Replace(s, old, new, -1)` for a non-empty `old`. -/
def stringsReplace (s old new : String) : String :=
  ⟨replaceFrom old.data new.data 0 s.data⟩

/-- Go `strings.ToLower`, exact on ASCII text (other characters are kept). -/
def stringsToLower (s : String) : String :=
  ⟨s.data.map Char.toLower⟩

/-- The function `MakeTag`: converts a database description to a database tag. -/
def MakeTag (desc : String) : String :=
  let s := stringsToLower desc
  let s := stringsReplace s "go " "go"
  let s := stringsReplace s "java " "java"
  let s := stringsReplace s "(" ""
  let s := stringsReplace s ")" ""
  stringsReplace s " " "-"

/-! ## `Config.ToRequest` -/

/-- The constant `maxEtcdQuotaSize`. -/
def maxEtcdQuotaSize : Int := 8000000000

/-- The method `Config.ToRequest`: converts the configuration to a request for
the database `databaseID`, operation `op` and host index `idx`.  The result is
the pair `(req, err)` of the named results. -/
def ToRequest (cfg : Config) (databaseID : String) (op : Operation) (idx : Int) :
    Option Request × Option ConfigError :=
  match mapLookup cfg.DatabaseIDToConfigClientMachineAgentControl databaseID with
  | none => (none, some (.notDefined databaseID))
  | some gcfg =>
    let did : DatabaseID := (DatabaseID_value databaseID).getD DatabaseID_zero
    let req : Request :=
      { Operation := op
        TriggerLogUpload := gcfg.ConfigClientMachineBenchmarkSteps.Step4UploadLogs
        DatabaseID := did
        DatabaseTag := gcfg.DatabaseTag
        PeerIPsString := gcfg.PeerIPsString
        IPIndex := toUint32 idx
        CurrentClientNumber := gcfg.ConfigClientMachineBenchmarkOptions.ClientNumber
        ConfigClientMachineInitial := some
          { GoogleCloudProjectName := cfg.ConfigClientMachineInitial.GoogleCloudProjectName
            GoogleCloudStorageKeyPath := ""
            GoogleCloudStorageKey := cfg.ConfigClientMachineInitial.GoogleCloudStorageKey
            GoogleCloudStorageBucketName :=
              cfg.ConfigClientMachineInitial.GoogleCloudStorageBucketName
            GoogleCloudStorageSubDirectory :=
              cfg.ConfigClientMachineInitial.GoogleCloudStorageSubDirectory }
        Flag_Etcd_Other := none
        Flag_Etcd_Tip := none
        Flag_Etcd_V3_2 := none
        Flag_Etcd_V3_3 := none
        Flag_Zookeeper_R3_5_3Beta := none }
    match req.DatabaseID with
    | .etcd__other =>
      if gcfg.Flag_Etcd_Other.QuotaSizeBytes > maxEtcdQuotaSize then
        (some req, some (.quotaExceeded maxEtcdQuotaSize gcfg.Flag_Etcd_Other.QuotaSizeBytes))
      else
        (some { req with
            Flag_Etcd_Other := some
              { SnapshotCount := gcfg.Flag_Etcd_Other.SnapshotCount
                QuotaSizeBytes := gcfg.Flag_Etcd_Other.QuotaSizeBytes } }, none)
    | .etcd__tip =>
      if gcfg.Flag_Etcd_Tip.QuotaSizeBytes > maxEtcdQuotaSize then
        (some req, some (.quotaExceeded maxEtcdQuotaSize gcfg.Flag_Etcd_Tip.QuotaSizeBytes))
      else
        (some { req with
            Flag_Etcd_Tip := some
              { SnapshotCount := gcfg.Flag_Etcd_Tip.SnapshotCount
                QuotaSizeBytes := gcfg.Flag_Etcd_Tip.QuotaSizeBytes } }, none)
    | .etcd__v3_2 =>
      if gcfg.Flag_Etcd_V3_2.QuotaSizeBytes > maxEtcdQuotaSize then
        (some req, some (.quotaExceeded maxEtcdQuotaSize gcfg.Flag_Etcd_V3_2.QuotaSizeBytes))
      else
        (some { req with
            Flag_Etcd_V3_2 := some
              { SnapshotCount := gcfg.Flag_Etcd_V3_2.SnapshotCount
                QuotaSizeBytes := gcfg.Flag_Etcd_V3_2.QuotaSizeBytes } }, none)
    | .etcd__v3_3 =>
      if gcfg.Flag_Etcd_V3_3.QuotaSizeBytes > maxEtcdQuotaSize then
        (some req, some (.quotaExceeded maxEtcdQuotaSize gcfg.Flag_Etcd_V3_3.QuotaSizeBytes))
      else
        (some { req with
            Flag_Etcd_V3_3 := some
              { SnapshotCount := gcfg.Flag_Etcd_V3_3.SnapshotCount
                QuotaSizeBytes := gcfg.Flag_Etcd_V3_3.QuotaSizeBytes } }, none)
    | .zookeeper__r3_5_3_beta =>
      (some { req with
          Flag_Zookeeper_R3_5_3Beta := some
            { JavaDJuteMaxBuffer := gcfg.Flag_Zookeeper_R3_5_3Beta.JavaDJuteMaxBuffer
              JavaXms := gcfg.Flag_Zookeeper_R3_5_3Beta.JavaXms
              JavaXmx := gcfg.Flag_Zookeeper_R3_5_3Beta.JavaXmx
              MyID := toUint32 (wrapInt64 (idx + 1))
              ClientPort := gcfg.Flag_Zookeeper_R3_5_3Beta.ClientPort
              TickTime := gcfg.Flag_Zookeeper_R3_5_3Beta.TickTime
              InitLimit := gcfg.Flag_Zookeeper_R3_5_3Beta.InitLimit
              SyncLimit := gcfg.Flag_Zookeeper_R3_5_3Beta.SyncLimit
              SnapCount := gcfg.Flag_Zookeeper_R3_5_3Beta.SnapCount
              MaxClientConnections :=
                gcfg.Flag_Zookeeper_R3_5_3Beta.MaxClientConnections } }, none)
    | .consul__v1_0_2 => (some req, none)
    | .zetcd__beta => (some req, none)
    | .cetcd__beta => (some req, none)

/-! ## `ReadConfig` -/

/-- Lines 75-79 of `ReadConfig`: every element of `AllDatabaseIDList` must be a
valid database ID. -/
def checkAllDatabaseIDList : List String → Except ConfigError Unit
  | [] => .ok ()
  | id :: rest =>
    if !IsValidDatabaseID id then .error (.unknownDatabaseID id)
    else checkAllDatabaseIDList rest

/-- Go `fmt.Sprintf("%s:%d", host, port)`. -/
def hostPort (host : String) (port : Int) : String :=
  host ++ ":" ++ toString port

/-- Lines 98-106 of `ReadConfig`: the derived fields of one agent-control
entry. -/
def fillGroup (databaseID : String) (group : ConfigClientMachineAgentControl) :
    ConfigClientMachineAgentControl :=
  { group with
    DatabaseID := databaseID
    DatabaseTag := MakeTag group.DatabaseDescription
    PeerIPsString := "___".intercalate group.PeerIPs
    DatabaseEndpoints := group.PeerIPs.map fun ip => hostPort ip group.DatabasePortToConnect
    AgentEndpoints := group.PeerIPs.map fun ip => hostPort ip group.AgentPortToConnect }

/-- Lines 93-108 of `ReadConfig`: the loop over the agent-control map, which
rejects an unknown key and stores the filled entry back under its key. -/
def fillGroups : List (String × ConfigClientMachineAgentControl) →
    Except ConfigError (List (String × ConfigClientMachineAgentControl))
  | [] => .ok []
  | (databaseID, group) :: rest =>
    if !IsValidDatabaseID databaseID then .error (.unknownDatabaseID databaseID)
    else
      match fillGroups rest with
      | .error e => .error e
      | .ok rest' => .ok ((databaseID, fillGroup databaseID group) :: rest')

/-- Lines 136-144 of `ReadConfig`: outside the etcd family the connection
number must equal the client number. -/
def checkConnectionsClients : List (String × ConfigClientMachineAgentControl) →
    Except ConfigError Unit
  | [] => .ok ()
  | (databaseID, ctrl) :: rest =>
    if databaseID ≠ DatabaseID.etcd__other.String ∧
        databaseID ≠ DatabaseID.etcd__tip.String ∧
        databaseID ≠ DatabaseID.etcd__v3_2.String ∧
        databaseID ≠ DatabaseID.etcd__v3_3.String ∧
        ctrl.ConfigClientMachineBenchmarkOptions.ConnectionNumber ≠
          ctrl.ConfigClientMachineBenchmarkOptions.ClientNumber then
      .error (.connectedClientsMismatch databaseID
        ctrl.ConfigClientMachineBenchmarkOptions.ConnectionNumber
        ctrl.ConfigClientMachineBenchmarkOptions.ClientNumber)
    else checkConnectionsClients rest

/-- The constant `defaultAgentPort`. -/
def defaultAgentPort : Int := 3500
/-- The constant `defaultEtcdClientPort`. -/
def defaultEtcdClientPort : Int := 2379
/-- The constant `defaultZookeeperClientPort`. -/
def defaultZookeeperClientPort : Int := 2181
/-- The constant `defaultConsulClientPort`. -/
def defaultConsulClientPort : Int := 8500
/-- The constant `defaultEtcdSnapshotCount`. -/
def defaultEtcdSnapshotCount : Int := 100000
/-- The constant `defaultEtcdQuotaSizeBytes`. -/
def defaultEtcdQuotaSizeBytes : Int := 8000000000
/-- The constant `defaultZookeeperSnapCount`. -/
def defaultZookeeperSnapCount : Int := 100000
/-- The constant `defaultZookeeperTickTime`. -/
def defaultZookeeperTickTime : Int := 2000
/-- The constant `defaultZookeeperInitLimit`. -/
def defaultZookeeperInitLimit : Int := 5
/-- The constant `defaultZookeeperSyncLimit`. -/
def defaultZookeeperSyncLimit : Int := 5
/-- The constant `defaultZookeeperMaxClientConnections`. -/
def defaultZookeeperMaxClientConnections : Int := 5000

/-- The statement `if v.AgentPortToConnect == 0 { v.AgentPortToConnect = defaultAgentPort }`. -/
def setAgentPort (v : ConfigClientMachineAgentControl) : ConfigClientMachineAgentControl :=
  if v.AgentPortToConnect = 0 then { v with AgentPortToConnect := defaultAgentPort } else v

/-- The statement `if v.DatabasePortToConnect == 0 { v.DatabasePortToConnect = d }`. -/
def setDatabasePort (d : Int) (v : ConfigClientMachineAgentControl) :
    ConfigClientMachineAgentControl :=
  if v.DatabasePortToConnect = 0 then { v with DatabasePortToConnect := d } else v

/-- Lines 168-173 of `ReadConfig`: the two flag statements of the `etcd__other` block. -/
def setFlagsEtcdOther (v : ConfigClientMachineAgentControl) : ConfigClientMachineAgentControl :=
  let v := if v.Flag_Etcd_Other.SnapshotCount = 0 then
    { v with Flag_Etcd_Other :=
        { v.Flag_Etcd_Other with SnapshotCount := defaultEtcdSnapshotCount } } else v
  if v.Flag_Etcd_Other.QuotaSizeBytes = 0 then
    { v with Flag_Etcd_Other :=
        { v.Flag_Etcd_Other with QuotaSizeBytes := defaultEtcdQuotaSizeBytes } } else v

/-- Lines 183-188 of `ReadConfig`: the two flag statements of the `etcd__tip` block. -/
def setFlagsEtcdTip (v : ConfigClientMachineAgentControl) : ConfigClientMachineAgentControl :=
  let v := if v.Flag_Etcd_Tip.SnapshotCount = 0 then
    { v with Flag_Etcd_Tip :=
        { v.Flag_Etcd_Tip with SnapshotCount := defaultEtcdSnapshotCount } } else v
  if v.Flag_Etcd_Tip.QuotaSizeBytes = 0 then
    { v with Flag_Etcd_Tip :=
        { v.Flag_Etcd_Tip with QuotaSizeBytes := defaultEtcdQuotaSizeBytes } } else v

/-- Lines 198-203 of `ReadConfig`: the two flag statements of the `etcd__v3_2` block. -/
def setFlagsEtcdV3_2 (v : ConfigClientMachineAgentControl) : ConfigClientMachineAgentControl :=
  let v := if v.Flag_Etcd_V3_2.SnapshotCount = 0 then
    { v with Flag_Etcd_V3_2 :=
        { v.Flag_Etcd_V3_2 with SnapshotCount := defaultEtcdSnapshotCount } } else v
  if v.Flag_Etcd_V3_2.QuotaSizeBytes = 0 then
    { v with Flag_Etcd_V3_2 :=
        { v.Flag_Etcd_V3_2 with QuotaSizeBytes := defaultEtcdQuotaSizeBytes } } else v

/-- Lines 213-218 of `ReadConfig`: the two flag statements of the `etcd__v3_3` block. -/
def setFlagsEtcdV3_3 (v : ConfigClientMachineAgentControl) : ConfigClientMachineAgentControl :=
  let v := if v.Flag_Etcd_V3_3.SnapshotCount = 0 then
    { v with Flag_Etcd_V3_3 :=
        { v.Flag_Etcd_V3_3 with SnapshotCount := defaultEtcdSnapshotCount } } else v
  if v.Flag_Etcd_V3_3.QuotaSizeBytes = 0 then
    { v with Flag_Etcd_V3_3 :=
        { v.Flag_Etcd_V3_3 with QuotaSizeBytes := defaultEtcdQuotaSizeBytes } } else v

/-- Lines 162-173 of `ReadConfig`: the body of the `etcd__other` block. -/
def defaultsEtcdOther (v : ConfigClientMachineAgentControl) :
    ConfigClientMachineAgentControl :=
  setFlagsEtcdOther (setDatabasePort defaultEtcdClientPort (setAgentPort v))

/-- Lines 177-188 of `ReadConfig`: the body of the `etcd__tip` block. -/
def defaultsEtcdTip (v : ConfigClientMachineAgentControl) :
    ConfigClientMachineAgentControl :=
  setFlagsEtcdTip (setDatabasePort defaultEtcdClientPort (setAgentPort v))

/-- Lines 192-203 of `ReadConfig`: the body of the `etcd__v3_2` block. -/
def defaultsEtcdV3_2 (v : ConfigClientMachineAgentControl) :
    ConfigClientMachineAgentControl :=
  setFlagsEtcdV3_2 (setDatabasePort defaultEtcdClientPort (setAgentPort v))

/-- Lines 207-218 of `ReadConfig`: the body of the `etcd__v3_3` block. -/
def defaultsEtcdV3_3 (v : ConfigClientMachineAgentControl) :
    ConfigClientMachineAgentControl :=
  setFlagsEtcdV3_3 (setDatabasePort defaultEtcdClientPort (setAgentPort v))

/-- Line 229 of `ReadConfig`: the ZooKeeper client port is assigned from the
database port, without a zero test. -/
def setZookeeperClientPort (v : ConfigClientMachineAgentControl) :
    ConfigClientMachineAgentControl :=
  { v with Flag_Zookeeper_R3_5_3Beta :=
      { v.Flag_Zookeeper_R3_5_3Beta with ClientPort := v.DatabasePortToConnect } }

/-- Lines 230-232 (and again 233-235) of `ReadConfig`. -/
def setZookeeperTickTime (v : ConfigClientMachineAgentControl) :
    ConfigClientMachineAgentControl :=
  if v.Flag_Zookeeper_R3_5_3Beta.TickTime = 0 then
    { v with Flag_Zookeeper_R3_5_3Beta :=
        { v.Flag_Zookeeper_R3_5_3Beta with TickTime := defaultZookeeperTickTime } } else v

/-- Lines 236-238 of `ReadConfig`. -/
def setZookeeperInitLimit (v : ConfigClientMachineAgentControl) :
    ConfigClientMachineAgentControl :=
  if v.Flag_Zookeeper_R3_5_3Beta.InitLimit = 0 then
    { v with Flag_Zookeeper_R3_5_3Beta :=
        { v.Flag_Zookeeper_R3_5_3Beta with InitLimit := defaultZookeeperInitLimit } } else v

/-- Lines 239-241 of `ReadConfig`. -/
def setZookeeperSyncLimit (v : ConfigClientMachineAgentControl) :
    ConfigClientMachineAgentControl :=
  if v.Flag_Zookeeper_R3_5_3Beta.SyncLimit = 0 then
    { v with Flag_Zookeeper_R3_5_3Beta :=
        { v.Flag_Zookeeper_R3_5_3Beta with SyncLimit := defaultZookeeperSyncLimit } } else v

/-- Lines 242-244 of `ReadConfig`. -/
def setZookeeperSnapCount (v : ConfigClientMachineAgentControl) :
    ConfigClientMachineAgentControl :=
  if v.Flag_Zookeeper_R3_5_3Beta.SnapCount = 0 then
    { v with Flag_Zookeeper_R3_5_3Beta :=
        { v.Flag_Zookeeper_R3_5_3Beta with SnapCount := defaultZookeeperSnapCount } } else v

/-- Lines 245-247 of `ReadConfig`. -/
def setZookeeperMaxClientConnections (v : ConfigClientMachineAgentControl) :
    ConfigClientMachineAgentControl :=
  if v.Flag_Zookeeper_R3_5_3Beta.MaxClientConnections = 0 then
    { v with Flag_Zookeeper_R3_5_3Beta :=
        { v.Flag_Zookeeper_R3_5_3Beta with
          MaxClientConnections := defaultZookeeperMaxClientConnections } } else v

/-- Lines 223-247 of `ReadConfig`: the body of the ZooKeeper block, statement by
statement (innermost first); the tick time is tested twice, as in the source. -/
def defaultsZookeeper (v : ConfigClientMachineAgentControl) :
    ConfigClientMachineAgentControl :=
  setZookeeperMaxClientConnections (setZookeeperSnapCount (setZookeeperSyncLimit
    (setZookeeperInitLimit (setZookeeperTickTime (setZookeeperTickTime
      (setZookeeperClientPort
        (setDatabasePort defaultZookeeperClientPort (setAgentPort v))))))))

/-- Lines 252-257 of `ReadConfig`: the body of the Consul block. -/
def defaultsConsul (v : ConfigClientMachineAgentControl) :
    ConfigClientMachineAgentControl :=
  setDatabasePort defaultConsulClientPort (setAgentPort v)

/-- The statement shape `if v, ok := m[k]; ok { v = f(v); m[k] = v }`. -/
def updateIfPresent (m : List (String × ConfigClientMachineAgentControl)) (k : String)
    (f : ConfigClientMachineAgentControl → ConfigClientMachineAgentControl) :
    List (String × ConfigClientMachineAgentControl) :=
  match mapLookup m k with
  | some v => mapSet m k (f v)
  | none => m

/-- Lines 161-259 of `ReadConfig`: the six defaulting blocks, in source order. -/
def applyDefaults (m : List (String × ConfigClientMachineAgentControl)) :
    List (String × ConfigClientMachineAgentControl) :=
  let m := updateIfPresent m DatabaseID.etcd__other.String defaultsEtcdOther
  let m := updateIfPresent m DatabaseID.etcd__tip.String defaultsEtcdTip
  let m := updateIfPresent m DatabaseID.etcd__v3_2.String defaultsEtcdV3_2
  let m := updateIfPresent m DatabaseID.etcd__v3_3.String defaultsEtcdV3_3
  let m := updateIfPresent m DatabaseID.zookeeper__r3_5_3_beta.String defaultsZookeeper
  let m := updateIfPresent m DatabaseID.consul__v1_0_2.String defaultsConsul
  m

/-- The test `!okOther && !okTip && !ok32 && !ok33` of lines 263-267 and
272-276: no etcd-family ID is a key of the map. -/
def noEtcdKey (m : List (String × ConfigClientMachineAgentControl)) : Bool :=
  !(mapLookup m DatabaseID.etcd__other.String).isSome &&
  !(mapLookup m DatabaseID.etcd__tip.String).isSome &&
  !(mapLookup m DatabaseID.etcd__v3_2.String).isSome &&
  !(mapLookup m DatabaseID.etcd__v3_3.String).isSome

/-- Lines 261-279 of `ReadConfig`: `zetcd__beta` and `cetcd__beta` need an etcd
configuration, since they are backed by etcd. -/
def checkEtcdDependency (m : List (String × ConfigClientMachineAgentControl)) :
    Except ConfigError Unit :=
  if (mapLookup m DatabaseID.zetcd__beta.String).isSome && noEtcdKey m then
    .error (.noEtcdConfig DatabaseID.zetcd__beta.String)
  else if (mapLookup m DatabaseID.cetcd__beta.String).isSome && noEtcdKey m then
    .error (.noEtcdConfig DatabaseID.cetcd__beta.String)
  else .ok ()

/-- Lines 281-287 of `ReadConfig`: the cloud-storage key is read from its file
unless the configuration is read for analysis.  `readFile` is `os.ReadFile`,
`none` when it fails. -/
def loadStorageKey (readFile : String → Option String) (analyze : Bool)
    (c : ConfigClientMachineInitial) : Except ConfigError ConfigClientMachineInitial :=
  if c.GoogleCloudStorageKeyPath ≠ "" ∧ !analyze then
    match readFile c.GoogleCloudStorageKeyPath with
    | none => .error (.readFile c.GoogleCloudStorageKeyPath)
    | some bts => .ok { c with GoogleCloudStorageKey := bts }
  else .ok c

/-- The function `ReadConfig`, from the configuration `cfg` that
`yaml.Unmarshal` produced from the file: validation, derived fields, defaults
and the dependency check, in source order. -/
def ReadConfig (readFile : String → Option String) (cfg : Config) (analyze : Bool) :
    Except ConfigError Config :=
  match checkAllDatabaseIDList cfg.AllDatabaseIDList with
  | .error e => .error e
  | .ok _ =>
    match fillGroups cfg.DatabaseIDToConfigClientMachineAgentControl with
    | .error e => .error e
    | .ok filled =>
      match checkConnectionsClients filled with
      | .error e => .error e
      | .ok _ =>
        let defaulted := applyDefaults filled
        match checkEtcdDependency defaulted with
        | .error e => .error e
        | .ok _ =>
          match loadStorageKey readFile analyze cfg.ConfigClientMachineInitial with
          | .error e => .error e
          | .ok initial =>
            .ok { cfg with
              ConfigClientMachineInitial := initial
              DatabaseIDToConfigClientMachineAgentControl := defaulted }

/-! # The stress phase (`control/step2_stress_database.go`)

Conventions of this part:

* A channel is observed through the list of events the generator performs on
  it, in program order: `send r` for `inflightReqs <- r` and `close` for
  `close(inflightReqs)`.  Waiting on the rate limiter performs no event.
* `float64` values are modelled by the rationals they denote.
* A loop that the source does not bound (`for { ... }`) takes a fuel argument
  and returns `none` when the fuel is used up before the loop has left.
-/

namespace Control

/-- Modelled from the spec: the fields of `cfg.Step2` that the stress phase
reads. -/
structure Step2 where
  BenchType : String
  TotalRequests : Int
  RequestsPerSecond : Int
  KeySize : Int
  ValueSize : Int
  SameKey : Bool
  StaleRead : Bool
  Clients : Int
  Connections : Int
  ConnectionsClientsMax : Int
  ConnectionsClientsDelta : Int
  deriving DecidableEq, Repr

/-- Modelled from the spec: the fields of the control `Config` that the stress
phase reads. -/
structure Config where
  Database : String
  DatabaseEndpoints : List String
  Step2 : Step2
  deriving DecidableEq, Repr

/-- A Go `[]byte`. -/
abbrev Bytes := List Nat

/-- The struct `values`. -/
structure values where
  bytes : List Bytes
  strings : List String
  sampleSize : Nat
  deriving DecidableEq, Repr

/-- Modelled from the spec: the operation `etcdv2Op` of an etcd v2 request. -/
structure etcdv2Op where
  key : String := ""
  value : String := ""
  deriving DecidableEq, Repr

/-- An option of a `clientv3` operation, as far as the generators build one. -/
inductive OpOption
  | WithRange (endKey : String)
  | WithSerializable
  deriving DecidableEq, Repr

/-- The `clientv3.Op` values the generators build: the zero operation,
`clientv3.OpGet(key, opts...)` and `clientv3.OpPut(key, val)`. -/
inductive etcdv3Op
  | zero
  | OpGet (key : String) (opts : List OpOption)
  | OpPut (key val : String)
  deriving DecidableEq, Repr

/-- Modelled from the spec: the operation `zkOp` of a ZooKeeper request. -/
structure zkOp where
  key : String := ""
  value : Bytes := []
  staleRead : Bool := false
  deriving DecidableEq, Repr

/-- Modelled from the spec: the operation `consulOp` of a Consul request. -/
structure consulOp where
  key : String := ""
  value : Bytes := []
  staleRead : Bool := false
  deriving DecidableEq, Repr

/-- Modelled from the spec: the struct `request`, one operation field per
backend kind; a field that a composite literal does not name keeps its zero
value. -/
structure request where
  etcdv2Op : etcdv2Op := {}
  etcdv3Op : etcdv3Op := .zero
  zkOp : zkOp := {}
  consulOp : consulOp := {}
  deriving DecidableEq, Repr

/-- An event on the channel `inflightReqs`. -/
inductive ChanEvent
  | send (r : request)
  | close
  deriving DecidableEq, Repr

/-- Lines 671-701: the `switch cfg.Database` of one iteration of `generateReads`;
`none` when no case matches and nothing is sent. -/
def readRequest (cfg : Config) (key : String) : Option request :=
  if cfg.Database = "etcdv2" then
    some { etcdv2Op := { key := key } }
  else if cfg.Database = "etcdv3" then
    let opts := [OpOption.WithRange ""]
    let opts := if cfg.Step2.StaleRead then opts ++ [OpOption.WithSerializable] else opts
    some { etcdv3Op := .OpGet key opts }
  else if cfg.Database = "zookeeper" ∨ cfg.Database = "zetcd" then
    let op : zkOp := { key := key }
    let op := if cfg.Step2.StaleRead then { op with staleRead := true } else op
    some { zkOp := op }
  else if cfg.Database = "consul" ∨ cfg.Database = "cetcd" then
    let op : consulOp := { key := key }
    let op := if cfg.Step2.StaleRead then { op with staleRead := true } else op
    some { consulOp := op }
  else none

/-- The function `generateReads`: `TotalRequests` iterations, each sending the
request of its `switch`, and the deferred `close` at the end. -/
def generateReads (cfg : Config) (key : String) : List ChanEvent :=
  ((List.range cfg.Step2.TotalRequests.toNat).filterMap fun _ =>
    (readRequest cfg key).map ChanEvent.send) ++ [ChanEvent.close]

/-- Lines 718-724: the key of iteration `i` of `generateWrites`.  The helpers
`sequentialKey` and `sameKey` are not among the sources and are parameters. -/
def writeKey (sequentialKey : Int → Int → String) (sameKey : Int → String) (cfg : Config)
    (i : Nat) : String :=
  let k := sequentialKey cfg.Step2.KeySize i
  if cfg.Step2.SameKey then sameKey cfg.Step2.KeySize else k

/-- Lines 718-739: one iteration of `generateWrites`; `none` when no case of the
`switch` matches and nothing is sent.  The index `i % sampleSize` is in range
for every `values` built by `newValues` (one sample). -/
def writeRequest (sequentialKey : Int → Int → String) (sameKey : Int → String) (cfg : Config)
    (vals : values) (i : Nat) : Option request :=
  let k := writeKey sequentialKey sameKey cfg i
  let v := vals.bytes.getD (i % vals.sampleSize) []
  let vs := vals.strings.getD (i % vals.sampleSize) ""
  if cfg.Database = "etcdv2" then
    some { etcdv2Op := { key := k, value := vs } }
  else if cfg.Database = "etcdv3" then
    some { etcdv3Op := .OpPut k vs }
  else if cfg.Database = "zookeeper" ∨ cfg.Database = "zetcd" then
    some { zkOp := { key := "/" ++ k, value := v } }
  else if cfg.Database = "consul" ∨ cfg.Database = "cetcd" then
    some { consulOp := { key := k, value := v } }
  else none

/-- The function `generateWrites`: `TotalRequests` iterations, each sending the
request of its `switch`, and the deferred `close` at the end. -/
def generateWrites (sequentialKey : Int → Int → String) (sameKey : Int → String)
    (cfg : Config) (vals : values) : List ChanEvent :=
  ((List.range cfg.Step2.TotalRequests.toNat).filterMap fun i =>
    (writeRequest sequentialKey sameKey cfg vals i).map ChanEvent.send) ++ [ChanEvent.close]

/-- The database names that the `switch cfg.Database` statements handle. -/
def knownDatabase (db : String) : Prop :=
  db = "etcdv2" ∨ db = "etcdv3" ∨ db = "zookeeper" ∨ db = "zetcd" ∨ db = "consul" ∨
    db = "cetcd"

instance (db : String) : Decidable (knownDatabase db) := by
  unfold knownDatabase; infer_instance

/-- The requests sent on the channel, in order. -/
def sentRequests : List ChanEvent → List request
  | [] => []
  | .send r :: rest => r :: sentRequests rest
  | .close :: rest => sentRequests rest

/-- The operation fields of a `request`. -/
inductive Variant
  | etcdv2Op
  | etcdv3Op
  | zkOp
  | consulOp
  deriving DecidableEq, Repr

/-- The operation fields of a request that are populated, that is, differ from
their zero value. -/
def request.populated (r : request) : List Variant :=
  (if r.etcdv2Op = {} then [] else [Variant.etcdv2Op]) ++
    (if r.etcdv3Op = .zero then [] else [Variant.etcdv3Op]) ++
    (if r.zkOp = {} then [] else [Variant.zkOp]) ++
    (if r.consulOp = {} then [] else [Variant.consulOp])

/-! ## Reports -/

/-- Modelled from the spec: the fields of `report.Stats` that the report writers
read; durations and latencies are in seconds. -/
structure Stats where
  Total : ℚ
  Slowest : ℚ
  Fastest : ℚ
  Average : ℚ
  Stddev : ℚ
  RPS : ℚ
  ErrorDist : List (String × Int)
  Lats : List ℚ

/-- The function `saveDataLatencyDistributionSummary`: the columns of the
one-row summary frame, each with the number that `%4.4f` then formats, in the
order they are added. -/
def saveDataLatencyDistributionSummary (st : Stats) : List (String × ℚ) :=
  [("TOTAL-SECONDS", st.Total),
   ("SLOWEST-LATENCY-MS", 1000 * st.Slowest),
   ("FASTEST-LATENCY-MS", 1000 * st.Fastest),
   ("AVERAGE-LATENCY-MS", 1000 * st.Average),
   ("STDDEV-LATENCY-MS", 1000 * st.Stddev),
   ("REQUESTS-PER-SECOND", 1000 * st.RPS)] ++
  st.ErrorDist.map fun p => ("ERROR: " ++ p.1.quote, (p.2 : ℚ))

/-- The value of the column `name` of a one-row frame. -/
def columnValue (frame : List (String × ℚ)) (name : String) : Option ℚ :=
  (frame.find? fun p => p.1 = name).map Prod.snd

/-- The line `fmt.Printf("Requests/sec: %4.4f\n", st.RPS)` of `printStats`: the
number printed as requests per second. -/
def printStatsRPS (st : Stats) : ℚ := st.RPS

/-- The state of the first loop of `saveDataLatencyDistributionAll`: `min`,
`max` and the map `rm` from bucket to count. -/
structure Buckets where
  min : Int
  max : Int
  rm : Int → Option Int

/-- Lines 220-222: `min := int64(math.MaxInt64)`, `max := int64(-100000)` and the
empty map. -/
def Buckets.init : Buckets :=
  { min := 2 ^ 63 - 1, max := -100000, rm := fun _ => none }

/-- Lines 231-242: one iteration of the first loop, for the bucket `v` of the
latency.  The count is at most the number of latencies and cannot overflow. -/
def Buckets.add (b : Buckets) (v : Int) : Buckets :=
  { rm := match b.rm v with
      | none => fun k => if k = v then some 1 else b.rm k
      | some c => fun k => if k = v then some (c + 1) else b.rm k
    min := if b.min > v then v else b.min
    max := if b.max < v then v else b.max }

/-- Lines 220-243: the first loop of `saveDataLatencyDistributionAll`.  The
`float64` computation `int64(math.Trunc(ms/10) * 10)` of line 231 is the
parameter `bucket`. -/
def collectBuckets (bucket : ℚ → Int) (lats : List ℚ) : Buckets :=
  lats.foldl (fun b lt => b.add (bucket lt)) Buckets.init

/-- Lines 247-259: the row loop `for { ... }` of `saveDataLatencyDistributionAll`,
from the label `cur`; a row is the pair of the `LATENCY-MS` label and the
`COUNT`.  The result is `none` when the fuel runs out before the `break`. -/
def emitRows (rm : Int → Option Int) (max : Int) : Nat → Int → Option (List (Int × Int))
  | 0, _ => none
  | fuel + 1, cur =>
    let row := (cur, match rm cur with
      | some v => v
      | none => 0)
    let cur' := wrapInt64 (cur + 10)
    if wrapInt64 (cur' - 10) = max then some [row]
    else (emitRows rm max fuel cur').map fun rows => row :: rows

/-- The function `saveDataLatencyDistributionAll`: the rows of the histogram
frame, or `none` when the row loop has not left within `fuel` iterations. -/
def saveDataLatencyDistributionAll (bucket : ℚ → Int) (fuel : Nat) (st : Stats) :
    Option (List (Int × Int)) :=
  let b := collectBuckets bucket st.Lats
  emitRows b.rm b.max fuel b.min

/-- A `Stats` value with the given latencies and every other field zero. -/
def statsOfLats (lats : List ℚ) : Stats :=
  { Total := 0, Slowest := 0, Fastest := 0, Average := 0, Stddev := 0, RPS := 0,
    ErrorDist := [], Lats := lats }

/-! ## The seed write of the read phases -/

/-- The loop `for i := 0; i < 7; i++ { ...; if err != nil { continue }; break }`
of the read phase, with `n` iterations left, at index `i` and with the current
`err`; `write i` is the error of attempt `i`, `none` when it succeeds.  The
result is the number of attempts made and the final `err`. -/
def retryLoop (write : Nat → Option String) : Nat → Nat → Option String →
    Nat × Option String
  | 0, i, err => (i, err)
  | n + 1, i, _ =>
    match write i with
    | some e => retryLoop write n (i + 1) (some e)
    | none => (i + 1, none)

/-- The outcome of a seed write: the number of write attempts made and whether
the process exits with status 1. -/
structure SeedOutcome where
  attempts : Nat
  fatal : Bool
  deriving DecidableEq, Repr

/-- Lines 392-469: the seed write of the `read` phase, `switch cfg.Database`
with one retry loop per backend followed by `if err != nil { os.Exit(1) }`.
The four loops differ only in the client call that `write` stands for; creating
the clients (`mustCreate...`) is not part of the outcome. -/
def readSeedWrite (cfg : Config) (write : Nat → Option String) : SeedOutcome :=
  if cfg.Database = "etcdv2" ∨ cfg.Database = "etcdv3" ∨
      (cfg.Database = "zookeeper" ∨ cfg.Database = "zetcd") ∨
      (cfg.Database = "consul" ∨ cfg.Database = "cetcd") then
    let r := retryLoop write 7 0 none
    { attempts := r.1, fatal := r.2.isSome }
  else { attempts := 0, fatal := false }

/-- Lines 476-502: the seed write of the `read-oneshot` phase, one write per
backend followed by `if err != nil { os.Exit(1) }`. -/
def readOneshotSeedWrite (cfg : Config) (write : Nat → Option String) : SeedOutcome :=
  if cfg.Database = "etcdv2" ∨ cfg.Database = "etcdv3" ∨
      (cfg.Database = "zookeeper" ∨ cfg.Database = "zetcd") ∨
      (cfg.Database = "consul" ∨ cfg.Database = "cetcd") then
    { attempts := 1, fatal := (write 0).isSome }
  else { attempts := 0, fatal := false }

/-! ## The write phase of `step2StressDatabase`

The phase is observed through the calls it makes, in program order, and through
the session (`benchmark`) it leaves.  The workers of a batch and its generator
run concurrently in the source; the model records a batch at the point where
`wg.Wait()` has returned, when every request the generator sent has been
handled.  Creating connections (`mustCreate...` and the ZooKeeper seed write of
`newWriteHandlers`) is taken to succeed, and the report writers that follow
`finishReports` are the subject of the section on reports. -/

/-- The struct `report.Result` as far as the phase determines it: the error of
one handled request. -/
structure Result where
  Err : Option String
  deriving DecidableEq, Repr

/-- The progress bar `pb.ProgressBar`: the total it was created with, the count
it shows and whether `Finish` was called. -/
structure ProgressBar where
  Total : Int
  current : Int
  finished : Bool
  deriving DecidableEq, Repr

/-- A `chan request`: its capacity and the requests queued in it. -/
structure Chan where
  capacity : Int
  queue : List request
  deriving DecidableEq, Repr

/-- Go `make(chan request, n)`: a fresh, empty channel; `none` when the size is
negative and `make` panics. -/
def makeChan (n : Int) : Option Chan :=
  if n < 0 then none else some { capacity := n, queue := [] }

/-- A handler slice `[]ReqHandler`: the call of `newWriteHandlers` that built it
and its length. -/
structure Handlers where
  call : Nat
  len : Int
  deriving DecidableEq, Repr

/-- The function `newWriteHandlers`, for its call number `call`: the slice
`make([]ReqHandler, cfg.Step2.Clients)` and the callback `done`, which is
non-nil in the cases `"etcdv3"` and `"zookeeper", "zetcd"` only and closes the
connections of this call; `none` when `Clients` is negative and `make`
panics. -/
def newWriteHandlers (cfg : Config) (call : Nat) : Option (Handlers × Option Nat) :=
  if cfg.Step2.Clients < 0 then none
  else
    some ({ call := call, len := cfg.Step2.Clients },
      if cfg.Database = "etcdv3" ∨ cfg.Database = "zookeeper" ∨ cfg.Database = "zetcd" then
        some call
      else none)

/-- The struct `benchmark`.  `report` holds the results already recorded by the
aggregator, `reportDone` tells whether the channel `b.reportDone` is non-nil,
`stats` holds the results that the received `Stats` summarise (`none`: the zero
`Stats`), `reqGen` is the configuration that the generator closure passes to
`generateWrites`, and `reqDone` names the handler set whose connections the
callback closes (`none`: nil).  The wait group and the mutex carry no data. -/
structure benchmark where
  cfg : Config
  bar : ProgressBar
  report : List Result
  reportDone : Bool
  stats : Option (List Result)
  reqHandlers : Handlers
  reqGen : Config
  reqDone : Option Nat
  inflightReqs : Chan
  deriving DecidableEq, Repr

/-- The function `newBenchmark`. -/
def newBenchmark (cfg : Config) (reqHandlers : Handlers) (reqDone : Option Nat)
    (reqGen : Config) : Option benchmark :=
  (makeChan cfg.Step2.Clients).map fun ch =>
    { cfg := cfg
      bar := { Total := cfg.Step2.TotalRequests, current := 0, finished := false }
      report := []
      reportDone := false
      stats := none
      reqHandlers := reqHandlers
      reqGen := reqGen
      reqDone := reqDone
      inflightReqs := ch }

/-- The method `benchmark.reset`. -/
def benchmark.reset (b : benchmark) (clientsN : Int) (reqHandlers : Handlers)
    (reqDone : Option Nat) (reqGen : Config) : Option benchmark :=
  (makeChan clientsN).map fun ch =>
    { b with reqHandlers := reqHandlers, reqDone := reqDone, reqGen := reqGen,
             inflightReqs := ch }

/-- A call the phase makes. -/
inductive PhaseEvent
  | newWriteHandlers (call : Nat) (clients : Int)
  | bcastReq (clients : Int)
  | startRequests (call : Nat) (clients : Int) (totalRequests : Int)
  | reqDone (call : Nat)
  | reset (clients : Int) (call : Nat)
  | finishReports
  deriving DecidableEq, Repr

/-- How the phase ends: `step2StressDatabase` goes on past the phase
(`returned none`) or returns an error, the goroutine waits for ever on a nil
channel, or it panics. -/
inductive PhaseEnd
  | returned (err : Option String)
  | blocked
  | panicked
  deriving DecidableEq, Repr

/-- A run of the phase: the calls made, how it ended and the session it left
(`none` when none was built). -/
structure Run where
  trace : List PhaseEvent
  outcome : PhaseEnd
  session : Option benchmark
  deriving DecidableEq, Repr

/-- The run `r` after the calls `evs`. -/
def Run.after (evs : List PhaseEvent) (r : Run) : Run :=
  { r with trace := evs ++ r.trace }

/-- The method `benchmark.startRequests`: one worker per handler and the
generator are started, and `b.reportDone` is set. -/
def benchmark.startRequests (b : benchmark) : List PhaseEvent × benchmark :=
  ([.startRequests b.reqHandlers.call b.reqHandlers.len b.reqGen.Step2.TotalRequests],
    { b with reportDone := true })

/-- The results of one batch: every request the generator sends is handled by a
worker, which records the error `rh` returns; with no worker nothing is
handled. -/
def batchResults (gen : Config → List ChanEvent) (rh : request → Option String)
    (b : benchmark) : List Result :=
  if b.reqHandlers.len ≤ 0 then []
  else (sentRequests (gen b.reqGen)).map fun r => { Err := rh r }

/-- The method `benchmark.waitRequestsEnd`, at the point where it returns: the
workers have recorded their results and moved the bar, and `b.reqDone` has run
if it is non-nil. -/
def benchmark.waitRequestsEnd (gen : Config → List ChanEvent)
    (rh : request → Option String) (b : benchmark) : List PhaseEvent × benchmark :=
  let rs := batchResults gen rh b
  let b1 : benchmark :=
    { b with report := b.report ++ rs,
             bar := { b.bar with current := wrapInt64 (b.bar.current + rs.length) } }
  match b.reqDone with
  | some call => ([.reqDone call], b1)
  | none => ([], b1)

/-- The method `benchmark.finishReports`: the results channel is closed, the
bar finished, and the `Stats` received from `b.reportDone`; the receive blocks
for ever when `b.reportDone` is nil. -/
def benchmark.finishReports (b : benchmark) : Run :=
  let b1 : benchmark := { b with bar := { b.bar with finished := true } }
  if b.reportDone then
    { trace := [.finishReports], outcome := .returned none,
      session := some { b1 with stats := some b.report } }
  else { trace := [.finishReports], outcome := .blocked, session := some b1 }

/-- The function `generateReport` up to `b.waitAll()`. -/
def generateReport (gen : Config → List ChanEvent) (rh : request → Option String)
    (cfg : Config) (h : Handlers) (reqDone : Option Nat) (reqGen : Config) : Run :=
  match newBenchmark cfg h reqDone reqGen with
  | none => { trace := [], outcome := .panicked, session := none }
  | some b =>
    let s := b.startRequests
    let w := s.2.waitRequestsEnd gen rh
    (w.2.finishReports).after (s.1 ++ w.1)

/-- Lines 356-359: `copied.Step2.Clients += copied.Step2.ConnectionsClientsDelta`
followed by the cap at `ConnectionsClientsMax`. -/
def nextClients (c delta max : Int) : Int :=
  let c1 := wrapInt64 (c + delta)
  if c1 > max then max else c1

/-- Lines 356-359 on the configuration `copied`. -/
def advanceClients (copied : Config) : Config :=
  { copied with
    Step2 :=
      { copied.Step2 with
        Clients := nextClients copied.Step2.Clients copied.Step2.ConnectionsClientsDelta
          copied.Step2.ConnectionsClientsMax } }

/-- Lines 341-368: the loop `for reqCompleted >= cfg.Step2.TotalRequests`, from
iteration number `iter` on, and the `b.finishReports()` after it.  `bcastReq`
gives the error of the heartbeat broadcast of each iteration. -/
def elasticLoop (gen : Config → List ChanEvent) (rh : request → Option String)
    (bcastReq : Nat → Option String) (cfg : Config) :
    Nat → Nat → Config → benchmark → Int → Option Run
  | 0, _, _, _, _ => none
  | fuel + 1, iter, copied, b, reqCompleted =>
    if reqCompleted ≥ cfg.Step2.TotalRequests then
      match bcastReq iter with
      | some err =>
        some { trace := [.bcastReq copied.Step2.Clients], outcome := .returned (some err),
               session := some b }
      | none =>
        let s := b.startRequests
        let w := s.2.waitRequestsEnd gen rh
        let copied1 := advanceClients copied
        let evs := PhaseEvent.bcastReq copied.Step2.Clients :: (s.1 ++ w.1)
        match newWriteHandlers copied1 (iter + 1) with
        | none => some { trace := evs, outcome := .panicked, session := some w.2 }
        | some (h, done) =>
          match w.2.reset copied1.Step2.Clients h done copied1 with
          | none =>
            some { trace := evs ++ [.newWriteHandlers (iter + 1) copied1.Step2.Clients],
                   outcome := .panicked, session := some w.2 }
          | some b1 =>
            (elasticLoop gen rh bcastReq cfg fuel (iter + 1) copied1 b1
                (wrapInt64 (reqCompleted + 100000))).map
              (Run.after (evs ++ [.newWriteHandlers (iter + 1) copied1.Step2.Clients,
                .reset copied1.Step2.Clients (iter + 1)]))
    else some b.finishReports

/-- Lines 324-372: the case `"write"` of `step2StressDatabase` up to the end of
the stress itself. -/
def writePhase (gen : Config → List ChanEvent) (rh : request → Option String)
    (bcastReq : Nat → Option String) (cfg : Config) (fuel : Nat) : Option Run :=
  if cfg.Step2.ConnectionsClientsMax = 0 then
    match newWriteHandlers cfg 0 with
    | none => some { trace := [], outcome := .panicked, session := none }
    | some (h, done) =>
      some ((generateReport gen rh cfg h done cfg).after
        [.newWriteHandlers 0 cfg.Step2.Clients])
  else
    let copied : Config := { cfg with Step2 := { cfg.Step2 with TotalRequests := 100000 } }
    match newWriteHandlers copied 0 with
    | none => some { trace := [], outcome := .panicked, session := none }
    | some (h, done) =>
      match newBenchmark copied h done copied with
      | none =>
        some { trace := [.newWriteHandlers 0 copied.Step2.Clients], outcome := .panicked,
               session := none }
      | some b =>
        (elasticLoop gen rh bcastReq cfg fuel 0 copied b 0).map
          (Run.after [.newWriteHandlers 0 copied.Step2.Clients])

/-- A stress configuration of the elastic write phase. -/
def elasticConfig (db : String) (total clients delta max : Int) : Config :=
  { Database := db
    DatabaseEndpoints := []
    Step2 :=
      { BenchType := "write", TotalRequests := total, RequestsPerSecond := 0, KeySize := 0,
        ValueSize := 0, SameKey := false, StaleRead := false, Clients := clients,
        Connections := clients, ConnectionsClientsMax := max,
        ConnectionsClientsDelta := delta } }

/-- A session with two recorded results and one queued request. -/
def sampleBenchmark : benchmark :=
  { cfg := elasticConfig "etcdv3" 300000 50 50 200
    bar := { Total := 100000, current := 2, finished := false }
    report := [{ Err := none }, { Err := some "timeout" }]
    reportDone := true
    stats := none
    reqHandlers := { call := 0, len := 50 }
    reqGen := elasticConfig "etcdv3" 100000 50 50 200
    reqDone := some 0
    inflightReqs := { capacity := 50, queue := [{ etcdv3Op := .OpPut "k" "v" }] } }

/-! ## Observations on a run of the write phase -/

/-- The handler set that a call of `newWriteHandlers` builds. -/
def PhaseEvent.built : PhaseEvent → Option Nat
  | .newWriteHandlers call _ => some call
  | _ => none

/-- The handler set whose teardown callback the event runs. -/
def PhaseEvent.tornDown : PhaseEvent → Option Nat
  | .reqDone call => some call
  | _ => none

/-- Whether the event is a call of `b.startRequests`, the start of a batch. -/
def PhaseEvent.isStartRequests : PhaseEvent → Bool
  | .startRequests _ _ _ => true
  | _ => false

/-- Whether the event is a call of `b.reset`. -/
def PhaseEvent.isReset : PhaseEvent → Bool
  | .reset _ _ => true
  | _ => false

/-- Whether the event is a heartbeat broadcast. -/
def PhaseEvent.isBcastReq : PhaseEvent → Bool
  | .bcastReq _ => true
  | _ => false

/-- Whether the event is a call of `b.finishReports`. -/
def PhaseEvent.isFinishReports : PhaseEvent → Bool
  | .finishReports => true
  | _ => false

/-- The databases for which `newWriteHandlers` returns a non-nil `done`. -/
def hasTeardown (db : String) : Prop :=
  db = "etcdv3" ∨ db = "zookeeper" ∨ db = "zetcd"

instance (db : String) : Decidable (hasTeardown db) := by
  unfold hasTeardown; infer_instance

/-- A heartbeat broadcast that fails in iteration `k` and in no other. -/
def failsAt (k : Nat) : Nat → Option String :=
  fun i => if i = k then some "unavailable" else none

/-- What a run shows of the control flow: the calls made and how it ended. -/
def Run.observed (r : Run) : List PhaseEvent × PhaseEnd :=
  (r.trace, r.outcome)

/-- The events of one complete iteration of the elastic loop. -/
def iterationEvents (iter : Nat) (copied : Config) (b : benchmark) : List PhaseEvent :=
  (PhaseEvent.bcastReq copied.Step2.Clients ::
      .startRequests b.reqHandlers.call b.reqHandlers.len b.reqGen.Step2.TotalRequests ::
      (match b.reqDone with
        | some call => [.reqDone call]
        | none => [])) ++
    [.newWriteHandlers (iter + 1) (advanceClients copied).Step2.Clients,
      .reset (advanceClients copied).Step2.Clients (iter + 1)]

/-- Two sessions that agree on what the control flow reads: the handlers, the
generator, the teardown callback and `reportDone`. -/
def sameControl (b b' : benchmark) : Prop :=
  b.reqHandlers = b'.reqHandlers ∧ b.reqGen = b'.reqGen ∧ b.reqDone = b'.reqDone ∧
    b.reportDone = b'.reportDone

/-- The number of batches after which `reqCompleted`, raised by 100000 per
batch, first exceeds the 64-bit range and wraps to a negative value. -/
def batchesToWrap : Nat := 92233720368548

/-- A stress configuration for the database `db` with `n` total requests, the
other fields zero. -/
def configFor (db : String) (n : Int) (sameKey staleRead : Bool) : Config :=
  { Database := db
    DatabaseEndpoints := []
    Step2 :=
      { BenchType := "", TotalRequests := n, RequestsPerSecond := 0, KeySize := 0,
        ValueSize := 0, SameKey := sameKey, StaleRead := staleRead, Clients := 0,
        Connections := 0, ConnectionsClientsMax := 0, ConnectionsClientsDelta := 0 } }

/-- A sample `sequentialKey`: the decimal index. -/
def sampleSequentialKey : Int → Int → String := fun _ i => toString i

/-- A sample `sameKey`: one fixed key. -/
def sampleSameKey : Int → String := fun _ => "a"

/-- A seed write whose first attempt fails and whose later attempts succeed. -/
def failsOnce : Nat → Option String := fun i => if i = 0 then some "timeout" else none

/-- A sample `values`, of the shape `newValues` builds. -/
def sampleValues : values :=
  { bytes := [[1, 2]], strings := ["v"], sampleSize := 1 }

end Control

/-! # The wire format of the etcd flag messages (`dbtesterpb/flag_etcd.pb.go`)

Conventions of this part:

* A `[]byte` is a list of numbers below 256; a `uint64` is a number below
  `2 ^ 64`; `int` and `int64` are integers with the 64-bit wrap-around
  `wrapInt64`.
* An access `dAtA[i]` outside the slice makes the run panic, which the model
  reports (`none` on the writing side, `Outcome.panic` on the reading side).
* The methods `Marshal`, `MarshalTo`, `Size` and `Unmarshal` of the three message
  types have the same text up to the receiver type and the wording of two error
  messages; each is modelled once on the two fields, and the methods of each
  type are instances of it.
* Loops take a counter as in the stress part; where the source bounds the loop
  by the width of its data the counter is fixed and never used up. -/

namespace Pb

/-- Go conversion `uint64(x)` of an `int64`. -/
def toUint64 (x : Int) : Nat :=
  (x % 2 ^ 64).toNat

/-- Go conversion `int64(x)` or `int(x)` of a `uint64`: the signed reading of
the 64-bit pattern. -/
def toInt64 (n : Nat) : Int :=
  wrapInt64 n

/-- Go conversion `int32(x)` of a `uint64`. -/
def toInt32 (n : Nat) : Int :=
  ((n : Int) + 2 ^ 31) % 2 ^ 32 - 2 ^ 31

/-- The assignment `dAtA[i] = b`; `none` when the index is out of range. -/
def setByte (dAtA : List Nat) (i : Int) (b : Nat) : Option (List Nat) :=
  if 0 ≤ i ∧ i < dAtA.length then some (dAtA.set i.toNat b) else none

/-- The loop `for v >= 1<<7` of `encodeVarintFlagEtcd` and the write after it.
Each iteration removes seven bits of `v`, so the counter, started at 64, is not
used up for a `uint64`. -/
def encodeVarintLoop : Nat → List Nat → Int → Nat → Option (List Nat × Int)
  | 0, _, _, _ => none
  | fuel + 1, dAtA, offset, v =>
    if v ≥ 1 <<< 7 then
      match setByte dAtA offset (((v &&& 0x7f) ||| 0x80) % 256) with
      | none => none
      | some d => encodeVarintLoop fuel d (wrapInt64 (offset + 1)) (v >>> 7)
    else
      match setByte dAtA offset (v % 256) with
      | none => none
      | some d => some (d, wrapInt64 (offset + 1))

/-- The function `encodeVarintFlagEtcd`: the buffer after the writes and the
offset returned; `none` when a write is out of range. -/
def encodeVarintFlagEtcd (dAtA : List Nat) (offset : Int) (v : Nat) :
    Option (List Nat × Int) :=
  encodeVarintLoop 64 dAtA offset v

/-- The loop `for { n++; x >>= 7; if x == 0 { break } }` of `sovFlagEtcd`, with
the same counter. -/
def sovLoop : Nat → Nat → Int → Option Int
  | 0, _, _ => none
  | fuel + 1, x, n =>
    let n := n + 1
    let x := x >>> 7
    if x = 0 then some n else sovLoop fuel x n

/-- The function `sovFlagEtcd` on a `uint64`. -/
def sovFlagEtcd (x : Nat) : Option Int :=
  sovLoop 64 x 0

/-- The method `Size`, on the two fields. -/
def sizeFields (snapshotCount quotaSizeBytes : Int) : Option Int :=
  let n : Int := 0
  let n1 : Option Int :=
    if snapshotCount ≠ 0 then (sovFlagEtcd (toUint64 snapshotCount)).map fun s => n + (1 + s)
    else some n
  n1.bind fun n =>
    if quotaSizeBytes ≠ 0 then (sovFlagEtcd (toUint64 quotaSizeBytes)).map fun s => n + (1 + s)
    else some n

/-- One `if` of `MarshalTo`: the tag byte and the varint of a non-zero field. -/
def marshalField (tag : Nat) (field : Int) (dAtA : List Nat) (i : Int) :
    Option (List Nat × Int) :=
  if field ≠ 0 then
    (setByte dAtA i tag).bind fun d =>
      encodeVarintFlagEtcd d (wrapInt64 (i + 1)) (toUint64 field)
  else some (dAtA, i)

/-- The method `MarshalTo`, on the two fields: the buffer after the writes and
the count returned; `none` when a write is out of range. -/
def marshalToFields (snapshotCount quotaSizeBytes : Int) (dAtA : List Nat) :
    Option (List Nat × Int) :=
  (marshalField 0x8 snapshotCount dAtA 0).bind fun r =>
    marshalField 0x10 quotaSizeBytes r.1 r.2

/-- Go `make([]byte, size)`; `none` when the size is negative. -/
def makeBytes (size : Int) : Option (List Nat) :=
  if size < 0 then none else some (List.replicate size.toNat 0)

/-- Go `dAtA[:n]`; `none` when `n` is out of range. -/
def sliceTo (dAtA : List Nat) (n : Int) : Option (List Nat) :=
  if 0 ≤ n ∧ n ≤ dAtA.length then some (dAtA.take n.toNat) else none

/-- The method `Marshal`, on the two fields; `MarshalTo` returns no error. -/
def marshalFields (snapshotCount quotaSizeBytes : Int) : Option (List Nat) :=
  (sizeFields snapshotCount quotaSizeBytes).bind fun size =>
    (makeBytes size).bind fun dAtA =>
      (marshalToFields snapshotCount quotaSizeBytes dAtA).bind fun r => sliceTo r.1 r.2

/-- An error returned by `Unmarshal` or `skipFlagEtcd`. -/
inductive UnmarshalError
  | ErrIntOverflowFlagEtcd
  | ErrInvalidLengthFlagEtcd
  | ErrUnexpectedEOF
  | endGroupForNonGroup
  | illegalTag (fieldNum : Int) (wire : Nat)
  | wrongWireType (wireType : Nat) (field : String)
  | illegalWireType (wireType : Nat)
  deriving DecidableEq, Repr

/-- A run-time panic. -/
inductive Panic
  | indexOutOfRange (i : Int)
  | sliceOutOfRange (i : Int)
  | unreachable
  deriving DecidableEq, Repr

/-- How a call ends: with a value and a nil error, with an error, or in a
panic. -/
inductive Outcome (α : Type)
  | ok (a : α)
  | error (e : UnmarshalError)
  | panic (p : Panic)
  deriving DecidableEq, Repr

/-- The loop `for shift := uint(0); ; shift += 7` that reads one varint from
`dAtA` at `iNdEx`.  The accumulator is held as its 64-bit pattern; the
accumulators of type `int64` and `int` are the signed reading of it.  The
eleventh iteration returns at the test of `shift`. -/
def varintLoop (dAtA : List Nat) (l : Int) : Nat → Nat → Int → Nat → Outcome (Int × Nat)
  | 0, _, _, _ => .error .ErrIntOverflowFlagEtcd
  | fuel + 1, shift, iNdEx, acc =>
    if shift ≥ 64 then .error .ErrIntOverflowFlagEtcd
    else if iNdEx ≥ l then .error .ErrUnexpectedEOF
    else
      match (if 0 ≤ iNdEx then dAtA[iNdEx.toNat]? else none) with
      | none => .panic (.indexOutOfRange iNdEx)
      | some b =>
        let iNdEx := wrapInt64 (iNdEx + 1)
        let acc := acc ||| (((b &&& 0x7F) <<< shift) % 2 ^ 64)
        if b < 0x80 then .ok (iNdEx, acc) else varintLoop dAtA l fuel (shift + 7) iNdEx acc

/-- One varint read from `dAtA` at `iNdEx`: the index after it and the value. -/
def readVarint (dAtA : List Nat) (l : Int) (iNdEx : Int) : Outcome (Int × Nat) :=
  varintLoop dAtA l 11 0 iNdEx 0

/-- The loop of `case 0` of `skipFlagEtcd`, which steps over one varint. -/
def skipVarintLoop (dAtA : List Nat) (l : Int) : Nat → Nat → Int → Outcome Int
  | 0, _, _ => .error .ErrIntOverflowFlagEtcd
  | fuel + 1, shift, iNdEx =>
    if shift ≥ 64 then .error .ErrIntOverflowFlagEtcd
    else if iNdEx ≥ l then .error .ErrUnexpectedEOF
    else
      let iNdEx := wrapInt64 (iNdEx + 1)
      let j := wrapInt64 (iNdEx - 1)
      match (if 0 ≤ j then dAtA[j.toNat]? else none) with
      | none => .panic (.indexOutOfRange j)
      | some b => if b < 0x80 then .ok iNdEx else skipVarintLoop dAtA l fuel (shift + 7) iNdEx

/-- Go `dAtA[i:]`. -/
def sliceFrom (dAtA : List Nat) (i : Int) : Outcome (List Nat) :=
  if 0 ≤ i ∧ i ≤ dAtA.length then .ok (dAtA.drop i.toNat) else .panic (.sliceOutOfRange i)

mutual

/-- The function `skipFlagEtcd`: the number of bytes of the field at the start
of `dAtA`.  Every case of the `switch` returns, so the body of
`for iNdEx < l` runs at most once; with an empty slice it does not run and the
function panics. -/
def skipFlagEtcd : Nat → List Nat → Option (Outcome Int)
  | 0, _ => none
  | fuel + 1, dAtA =>
    let l : Int := dAtA.length
    if (0 : Int) < l then
      match readVarint dAtA l 0 with
      | .error e => some (.error e)
      | .panic p => some (.panic p)
      | .ok (iNdEx, wire) =>
        let wireType := wire &&& 0x7
        if wireType = 0 then some (skipVarintLoop dAtA l 11 0 iNdEx)
        else if wireType = 1 then some (.ok (wrapInt64 (iNdEx + 8)))
        else if wireType = 2 then
          match readVarint dAtA l iNdEx with
          | .error e => some (.error e)
          | .panic p => some (.panic p)
          | .ok (iNdEx, length) =>
            let iNdEx := wrapInt64 (iNdEx + toInt64 length)
            if toInt64 length < 0 then some (.error .ErrInvalidLengthFlagEtcd)
            else some (.ok iNdEx)
        else if wireType = 3 then skipGroup fuel dAtA l iNdEx
        else if wireType = 4 then some (.ok iNdEx)
        else if wireType = 5 then some (.ok (wrapInt64 (iNdEx + 4)))
        else some (.error (.illegalWireType wireType))
    else some (.panic .unreachable)

/-- The loop `for { ... }` of `case 3` of `skipFlagEtcd`, with the
`return iNdEx, nil` after it. -/
def skipGroup : Nat → List Nat → Int → Int → Option (Outcome Int)
  | 0, _, _, _ => none
  | fuel + 1, dAtA, l, iNdEx =>
    let start := iNdEx
    match readVarint dAtA l iNdEx with
    | .error e => some (.error e)
    | .panic p => some (.panic p)
    | .ok (iNdEx, innerWire) =>
      let innerWireType := innerWire &&& 0x7
      if innerWireType = 4 then some (.ok iNdEx)
      else
        match sliceFrom dAtA start with
        | .error e => some (.error e)
        | .panic p => some (.panic p)
        | .ok rest =>
          match skipFlagEtcd fuel rest with
          | none => none
          | some (.error e) => some (.error e)
          | some (.panic p) => some (.panic p)
          | some (.ok next) => skipGroup fuel dAtA l (wrapInt64 (start + next))

end

/-- The `default` case of the `switch fieldNum` of `Unmarshal`: the index after
the unknown field that starts at `preIndex`. -/
def skipUnknown (fuel : Nat) (dAtA : List Nat) (l : Int) (preIndex : Int) :
    Option (Outcome Int) :=
  let iNdEx := preIndex
  match sliceFrom dAtA iNdEx with
  | .error e => some (.error e)
  | .panic p => some (.panic p)
  | .ok rest =>
    match skipFlagEtcd fuel rest with
    | none => none
    | some (.error e) => some (.error e)
    | some (.panic p) => some (.panic p)
    | some (.ok skippy) =>
      if skippy < 0 then some (.error .ErrInvalidLengthFlagEtcd)
      else if wrapInt64 (iNdEx + skippy) > l then some (.error .ErrUnexpectedEOF)
      else some (.ok (wrapInt64 (iNdEx + skippy)))

/-- The loop `for iNdEx < l` of `Unmarshal` and the test after it, on the two
fields `m = (SnapshotCount, QuotaSizeBytes)`.  `skipFuel` is the counter handed
to `skipFlagEtcd`. -/
def unmarshalLoop (skipFuel : Nat) (dAtA : List Nat) (l : Int) :
    Nat → Int → Int × Int → Option (Outcome (Int × Int))
  | 0, _, _ => none
  | fuel + 1, iNdEx, m =>
    if iNdEx < l then
      let preIndex := iNdEx
      match readVarint dAtA l iNdEx with
      | .error e => some (.error e)
      | .panic p => some (.panic p)
      | .ok (iNdEx, wire) =>
        let fieldNum := toInt32 (wire >>> 3)
        let wireType := wire &&& 0x7
        if wireType = 4 then some (.error .endGroupForNonGroup)
        else if fieldNum ≤ 0 then some (.error (.illegalTag fieldNum wire))
        else if fieldNum = 1 then
          if wireType ≠ 0 then some (.error (.wrongWireType wireType "SnapshotCount"))
          else
            match readVarint dAtA l iNdEx with
            | .error e => some (.error e)
            | .panic p => some (.panic p)
            | .ok (iNdEx, v) => unmarshalLoop skipFuel dAtA l fuel iNdEx (toInt64 v, m.2)
        else if fieldNum = 2 then
          if wireType ≠ 0 then some (.error (.wrongWireType wireType "QuotaSizeBytes"))
          else
            match readVarint dAtA l iNdEx with
            | .error e => some (.error e)
            | .panic p => some (.panic p)
            | .ok (iNdEx, v) => unmarshalLoop skipFuel dAtA l fuel iNdEx (m.1, toInt64 v)
        else
          match skipUnknown skipFuel dAtA l preIndex with
          | none => none
          | some (.error e) => some (.error e)
          | some (.panic p) => some (.panic p)
          | some (.ok iNdEx) => unmarshalLoop skipFuel dAtA l fuel iNdEx m
    else if iNdEx > l then some (.error .ErrUnexpectedEOF)
    else some (.ok m)

/-- The method `Unmarshal`, on the two fields of the receiver: the fields after
a return without error.  `none` when the counter `fuel` is used up. -/
def unmarshalFields (fuel : Nat) (m : Int × Int) (dAtA : List Nat) :
    Option (Outcome (Int × Int)) :=
  unmarshalLoop fuel dAtA dAtA.length fuel 0 m

/-- The continuation bit `0x80` on every digit but the last; no digit at all is
the value zero, whose encoding is the single byte 0. -/
def continuationBits : List Nat → List Nat
  | [] => [0]
  | [d] => [d]
  | d :: e :: ds => (d + 0x80) :: continuationBits (e :: ds)

/-- The base-128 varint of `v` in the words of the wire format: the digits of
`v` in base 128, least significant first, each but the last with the
continuation bit set. -/
def base128Varint (v : Nat) : List Nat :=
  continuationBits (Nat.digits 128 v)

/-- The encoding of one field in the words of the wire format: nothing for the
value zero, otherwise the tag byte and the varint of the value as `uint64`. -/
def fieldBytes (tag : Nat) (x : Int) : List Nat :=
  if x = 0 then [] else tag :: base128Varint (toUint64 x)

/-- What `Unmarshal` stores for the field with tag byte `tag`. -/
def storeField (tag : Nat) (v : Nat) (m : Int × Int) : Int × Int :=
  if tag = 0x8 then (toInt64 v, m.2) else (m.1, toInt64 v)

end Pb

/-- The method `Size` of `Flag_Etcd_Tip`. -/
def Flag_Etcd_Tip.Size (m : Flag_Etcd_Tip) : Option Int :=
  Pb.sizeFields m.SnapshotCount m.QuotaSizeBytes

/-- The method `MarshalTo` of `Flag_Etcd_Tip`. -/
def Flag_Etcd_Tip.MarshalTo (m : Flag_Etcd_Tip) (dAtA : List Nat) : Option (List Nat × Int) :=
  Pb.marshalToFields m.SnapshotCount m.QuotaSizeBytes dAtA

/-- The method `Marshal` of `Flag_Etcd_Tip`. -/
def Flag_Etcd_Tip.Marshal (m : Flag_Etcd_Tip) : Option (List Nat) :=
  Pb.marshalFields m.SnapshotCount m.QuotaSizeBytes

/-- The method `Unmarshal` of `Flag_Etcd_Tip`. -/
def Flag_Etcd_Tip.Unmarshal (fuel : Nat) (m : Flag_Etcd_Tip) (dAtA : List Nat) :
    Option (Pb.Outcome Flag_Etcd_Tip) :=
  (Pb.unmarshalFields fuel (m.SnapshotCount, m.QuotaSizeBytes) dAtA).map fun o =>
    match o with
    | .ok r => .ok { SnapshotCount := r.1, QuotaSizeBytes := r.2 }
    | .error e => .error e
    | .panic p => .panic p

/-- The method `Size` of `Flag_Etcd_V3_2`. -/
def Flag_Etcd_V3_2.Size (m : Flag_Etcd_V3_2) : Option Int :=
  Pb.sizeFields m.SnapshotCount m.QuotaSizeBytes

/-- The method `MarshalTo` of `Flag_Etcd_V3_2`. -/
def Flag_Etcd_V3_2.MarshalTo (m : Flag_Etcd_V3_2) (dAtA : List Nat) :
    Option (List Nat × Int) :=
  Pb.marshalToFields m.SnapshotCount m.QuotaSizeBytes dAtA

/-- The method `Marshal` of `Flag_Etcd_V3_2`. -/
def Flag_Etcd_V3_2.Marshal (m : Flag_Etcd_V3_2) : Option (List Nat) :=
  Pb.marshalFields m.SnapshotCount m.QuotaSizeBytes

/-- The method `Unmarshal` of `Flag_Etcd_V3_2`. -/
def Flag_Etcd_V3_2.Unmarshal (fuel : Nat) (m : Flag_Etcd_V3_2) (dAtA : List Nat) :
    Option (Pb.Outcome Flag_Etcd_V3_2) :=
  (Pb.unmarshalFields fuel (m.SnapshotCount, m.QuotaSizeBytes) dAtA).map fun o =>
    match o with
    | .ok r => .ok { SnapshotCount := r.1, QuotaSizeBytes := r.2 }
    | .error e => .error e
    | .panic p => .panic p

/-- The method `Size` of `Flag_Etcd_V3_3`. -/
def Flag_Etcd_V3_3.Size (m : Flag_Etcd_V3_3) : Option Int :=
  Pb.sizeFields m.SnapshotCount m.QuotaSizeBytes

/-- The method `MarshalTo` of `Flag_Etcd_V3_3`. -/
def Flag_Etcd_V3_3.MarshalTo (m : Flag_Etcd_V3_3) (dAtA : List Nat) :
    Option (List Nat × Int) :=
  Pb.marshalToFields m.SnapshotCount m.QuotaSizeBytes dAtA

/-- The method `Marshal` of `Flag_Etcd_V3_3`. -/
def Flag_Etcd_V3_3.Marshal (m : Flag_Etcd_V3_3) : Option (List Nat) :=
  Pb.marshalFields m.SnapshotCount m.QuotaSizeBytes

/-- The method `Unmarshal` of `Flag_Etcd_V3_3`. -/
def Flag_Etcd_V3_3.Unmarshal (fuel : Nat) (m : Flag_Etcd_V3_3) (dAtA : List Nat) :
    Option (Pb.Outcome Flag_Etcd_V3_3) :=
  (Pb.unmarshalFields fuel (m.SnapshotCount, m.QuotaSizeBytes) dAtA).map fun o =>
    match o with
    | .ok r => .ok { SnapshotCount := r.1, QuotaSizeBytes := r.2 }
    | .error e => .error e
    | .panic p => .panic p

/-- A 12-byte input: field 1 with value 1, then field 3 of wire type 2 whose
length is `2 ^ 63 - 11`. -/
def hugeLengthInput : List Nat :=
  [0x08, 0x01, 0x1A, 0xF5, 0xFF, 0xFF, 0xFF, 0xFF, 0xFF, 0xFF, 0xFF, 0x7F]

/-! ## Sample configurations -/

/-- The zero value of an agent-control entry: what the YAML decoder leaves when
the file sets none of its fields. -/
def zeroControl : ConfigClientMachineAgentControl :=
  { DatabaseID := ""
    DatabaseDescription := ""
    DatabaseTag := ""
    PeerIPs := []
    PeerIPsString := ""
    AgentPortToConnect := 0
    AgentEndpoints := []
    DatabasePortToConnect := 0
    DatabaseEndpoints := []
    Flag_Etcd_Other := { SnapshotCount := 0, QuotaSizeBytes := 0 }
    Flag_Etcd_Tip := { SnapshotCount := 0, QuotaSizeBytes := 0 }
    Flag_Etcd_V3_2 := { SnapshotCount := 0, QuotaSizeBytes := 0 }
    Flag_Etcd_V3_3 := { SnapshotCount := 0, QuotaSizeBytes := 0 }
    Flag_Zookeeper_R3_5_3Beta :=
      { JavaDJuteMaxBuffer := "", JavaXms := "", JavaXmx := "", MyID := 0, ClientPort := 0,
        TickTime := 0, InitLimit := 0, SyncLimit := 0, SnapCount := 0,
        MaxClientConnections := 0 }
    ConfigClientMachineBenchmarkOptions := { ConnectionNumber := 0, ClientNumber := 0 }
    ConfigClientMachineBenchmarkSteps := { Step4UploadLogs := false } }

/-- A configuration whose agent-control map is `m` and whose other fields are
zero. -/
def configOf (m : List (String × ConfigClientMachineAgentControl)) : Config :=
  { TestTitle := ""
    TestDescription := ""
    ConfigClientMachineInitial :=
      { GoogleCloudProjectName := "", GoogleCloudStorageKeyPath := "",
        GoogleCloudStorageKey := "", GoogleCloudStorageBucketName := "",
        GoogleCloudStorageSubDirectory := "" }
    AllDatabaseIDList := m.map Prod.fst
    DatabaseIDToConfigClientMachineAgentControl := m }

/-- An `etcd__v3_3` entry whose quota is `q`, the other fields zero. -/
def controlV3_3 (q : Int) : ConfigClientMachineAgentControl :=
  { zeroControl with Flag_Etcd_V3_3 := { SnapshotCount := 0, QuotaSizeBytes := q } }

/-- An entry with connection number `c` and client number `n`, the other fields
zero. -/
def controlConnClients (c n : Int) : ConfigClientMachineAgentControl :=
  { zeroControl with
    ConfigClientMachineBenchmarkOptions := { ConnectionNumber := c, ClientNumber := n } }

/-- A ZooKeeper entry with database port `p` and client port `cp`, the other
fields zero. -/
def controlZookeeperPorts (p cp : Int) : ConfigClientMachineAgentControl :=
  { zeroControl with
    DatabasePortToConnect := p
    Flag_Zookeeper_R3_5_3Beta := { zeroControl.Flag_Zookeeper_R3_5_3Beta with ClientPort := cp } }

/-- An entry with the given peer IPs and database port, the other fields zero. -/
def controlPeers (ips : List String) (p : Int) : ConfigClientMachineAgentControl :=
  { zeroControl with PeerIPs := ips, DatabasePortToConnect := p }

/-- An `os.ReadFile` that fails on every path. -/
def noFile : String → Option String := fun _ => none

/-- The tunable blocks of a request that are populated (non-nil), each named by
the database ID it belongs to, in declaration order. -/
def populatedBlocks (r : Request) : List DatabaseID :=
  (if r.Flag_Etcd_Other.isSome then [DatabaseID.etcd__other] else []) ++
  (if r.Flag_Etcd_Tip.isSome then [DatabaseID.etcd__tip] else []) ++
  (if r.Flag_Etcd_V3_2.isSome then [DatabaseID.etcd__v3_2] else []) ++
  (if r.Flag_Etcd_V3_3.isSome then [DatabaseID.etcd__v3_3] else []) ++
  (if r.Flag_Zookeeper_R3_5_3Beta.isSome then [DatabaseID.zookeeper__r3_5_3_beta] else [])

/-- The storage quota that `ToRequest` tests for the database `d`: the quota of
the etcd block of the same name, and nothing outside the etcd family. -/
def quotaFor (g : ConfigClientMachineAgentControl) : DatabaseID → Option Int
  | .etcd__other => some g.Flag_Etcd_Other.QuotaSizeBytes
  | .etcd__tip => some g.Flag_Etcd_Tip.QuotaSizeBytes
  | .etcd__v3_2 => some g.Flag_Etcd_V3_2.QuotaSizeBytes
  | .etcd__v3_3 => some g.Flag_Etcd_V3_3.QuotaSizeBytes
  | _ => none

/-- The defaulting block of `ReadConfig` that applies to the entry stored under
`k`: each of the six blocks reads and writes the entry of one fixed key. -/
def defaultsFor (k : String) (v : ConfigClientMachineAgentControl) :
    ConfigClientMachineAgentControl :=
  if k = DatabaseID.etcd__other.String then defaultsEtcdOther v
  else if k = DatabaseID.etcd__tip.String then defaultsEtcdTip v
  else if k = DatabaseID.etcd__v3_2.String then defaultsEtcdV3_2 v
  else if k = DatabaseID.etcd__v3_3.String then defaultsEtcdV3_3 v
  else if k = DatabaseID.zookeeper__r3_5_3_beta.String then defaultsZookeeper v
  else if k = DatabaseID.consul__v1_0_2.String then defaultsConsul v
  else v

/-- The four etcd-family database IDs. -/
def isEtcdFamily (k : String) : Prop :=
  k = DatabaseID.etcd__other.String ∨ k = DatabaseID.etcd__tip.String ∨
  k = DatabaseID.etcd__v3_2.String ∨ k = DatabaseID.etcd__v3_3.String

instance (k : String) : Decidable (isEtcdFamily k) := by
  unfold isEtcdFamily; infer_instance

/-- The snapshot count of the etcd block of the entry `g` that belongs to the
database `d`, and nothing outside the etcd family. -/
def snapshotFor (g : ConfigClientMachineAgentControl) : DatabaseID → Option Int
  | .etcd__other => some g.Flag_Etcd_Other.SnapshotCount
  | .etcd__tip => some g.Flag_Etcd_Tip.SnapshotCount
  | .etcd__v3_2 => some g.Flag_Etcd_V3_2.SnapshotCount
  | .etcd__v3_3 => some g.Flag_Etcd_V3_3.SnapshotCount
  | _ => none

/-- The etcd block of the request `r` that belongs to the database `d`, as the
pair of its `SnapshotCount` and `QuotaSizeBytes`; `none` when the block is nil
or `d` is outside the etcd family. -/
def requestFlags (r : Request) : DatabaseID → Option (Int × Int)
  | .etcd__other => r.Flag_Etcd_Other.map fun f => (f.SnapshotCount, f.QuotaSizeBytes)
  | .etcd__tip => r.Flag_Etcd_Tip.map fun f => (f.SnapshotCount, f.QuotaSizeBytes)
  | .etcd__v3_2 => r.Flag_Etcd_V3_2.map fun f => (f.SnapshotCount, f.QuotaSizeBytes)
  | .etcd__v3_3 => r.Flag_Etcd_V3_3.map fun f => (f.SnapshotCount, f.QuotaSizeBytes)
  | _ => none

/-! ## Properties of `Config.ToRequest` -/

theorem DatabaseID_value_String (d : DatabaseID) : DatabaseID_value d.String = some d := by
  cases d <;> decide

theorem DatabaseID_value_eq_some {id : String} {d : DatabaseID}
    (h : DatabaseID_value id = some d) : id = d.String := by
  unfold DatabaseID_value at h
  split_ifs at h with h1 h2 h3 h4 h5 h6 h7 h8 <;> simp at h <;> subst h <;> assumption

/-- C1: for each of the four etcd-family IDs defined in the agent-control map,
`ToRequest` returns an error exactly when the quota of that ID exceeds
8,000,000,000. -/
theorem ToRequest_error_iff_quota_exceeded (cfg : Config) (d : DatabaseID) (op : Operation)
    (idx : Int) (g : ConfigClientMachineAgentControl) (q : Int)
    (hg : mapLookup cfg.DatabaseIDToConfigClientMachineAgentControl d.String = some g)
    (hq : quotaFor g d = some q) :
    ((ToRequest cfg d.String op idx).2 ≠ none ↔ q > 8000000000) ∧
    ((ToRequest cfg d.String op idx).2 ≠ none →
      (ToRequest cfg d.String op idx).2 = some (.quotaExceeded 8000000000 q)) := by
  cases d <;> simp [quotaFor] at hq <;> subst hq <;>
    simp only [ToRequest, hg, DatabaseID_value_String, Option.getD_some, maxEtcdQuotaSize] <;>
    split_ifs with h <;> simp [h]

/-- Witness of C1: a quota of 9,000,000,000 for `etcd__v3_3` is rejected, and a
quota of exactly 8,000,000,000 is accepted. -/
theorem ToRequest_error_iff_quota_exceeded_witness :
    (ToRequest (configOf [("etcd__v3_3", controlV3_3 9000000000)]) "etcd__v3_3" .Start 0).2 =
      some (.quotaExceeded 8000000000 9000000000) ∧
    ¬ (ToRequest (configOf [("etcd__v3_3", controlV3_3 8000000000)]) "etcd__v3_3" .Start 0).2
      ≠ none :=
  ⟨(ToRequest_error_iff_quota_exceeded (configOf [("etcd__v3_3", controlV3_3 9000000000)])
      .etcd__v3_3 .Start 0 (controlV3_3 9000000000) 9000000000 rfl rfl).2
      ((ToRequest_error_iff_quota_exceeded (configOf [("etcd__v3_3", controlV3_3 9000000000)])
        .etcd__v3_3 .Start 0 (controlV3_3 9000000000) 9000000000 rfl rfl).1.mpr (by decide)),
    fun h => absurd
      ((ToRequest_error_iff_quota_exceeded (configOf [("etcd__v3_3", controlV3_3 8000000000)])
        .etcd__v3_3 .Start 0 (controlV3_3 8000000000) 8000000000 rfl rfl).1.mp h)
      (by decide)⟩

/-- C2, as stated, fails: for `consul__v1_0_2` the request is returned without
an error and with no tunable block populated. -/
theorem ToRequest_consul_no_block :
    ∃ req, ToRequest (configOf [("consul__v1_0_2", zeroControl)]) "consul__v1_0_2" .Start 0 =
        (some req, none) ∧
      req.DatabaseID = .consul__v1_0_2 ∧ populatedBlocks req = [] := by
  refine ⟨_, rfl, ?_, ?_⟩ <;> decide

/-- C2, amended: when `ToRequest` succeeds for a known database ID, the request
carries that ID; for the etcd family and ZooKeeper exactly one tunable block is
populated, the one of that ID, and for `consul__v1_0_2`, `zetcd__beta` and
`cetcd__beta` no block is populated. -/
theorem ToRequest_populated_blocks (cfg : Config) (id : String) (op : Operation) (idx : Int)
    (req : Request) (d : DatabaseID)
    (h : ToRequest cfg id op idx = (some req, none)) (hd : DatabaseID_value id = some d) :
    req.DatabaseID = d ∧
    populatedBlocks req =
      (if d = .consul__v1_0_2 ∨ d = .zetcd__beta ∨ d = .cetcd__beta then [] else [d]) := by
  unfold ToRequest at h
  cases hg : mapLookup cfg.DatabaseIDToConfigClientMachineAgentControl id with
  | none => simp [hg] at h
  | some g =>
    simp only [hg, hd, Option.getD_some] at h
    cases d <;> simp only [] at h <;> (try split_ifs at h) <;>
      simp only [Prod.mk.injEq, Option.some.injEq, reduceCtorEq, and_false, and_true] at h <;>
      subst h <;> simp [populatedBlocks]

/-- Witness of C2 (amended), at an `etcd__tip` entry. -/
theorem ToRequest_populated_blocks_witness :
    ∃ req, ToRequest (configOf [("etcd__tip", zeroControl)]) "etcd__tip" .Start 0 =
        (some req, none) ∧
      req.DatabaseID = .etcd__tip ∧ populatedBlocks req = [.etcd__tip] :=
  ⟨_, rfl, ToRequest_populated_blocks (configOf [("etcd__tip", zeroControl)]) "etcd__tip"
    .Start 0 _ .etcd__tip rfl (by decide)⟩

/-- C3: in every request that `ToRequest` returns, with or without an error, a
tunable block is populated only if it is the block of the request's database
ID. -/
theorem ToRequest_blocks_match (cfg : Config) (id : String) (op : Operation) (idx : Int)
    (req : Request) (h : (ToRequest cfg id op idx).1 = some req) :
    ∀ b ∈ populatedBlocks req, b = req.DatabaseID := by
  unfold ToRequest at h
  cases hg : mapLookup cfg.DatabaseIDToConfigClientMachineAgentControl id with
  | none => simp [hg] at h
  | some g =>
    simp only [hg] at h
    cases hd : (DatabaseID_value id).getD DatabaseID_zero <;> simp only [hd] at h <;>
      (try split_ifs at h) <;>
      simp only [Option.some.injEq] at h <;> subst h <;> simp [populatedBlocks, hd]

/-- Witness of C3, at the request of an `etcd__tip` entry: its populated block
is the `etcd__tip` block. -/
theorem ToRequest_blocks_match_witness :
    ∃ req, (ToRequest (configOf [("etcd__tip", zeroControl)]) "etcd__tip" .Start 0).1 =
        some req ∧
      DatabaseID.etcd__tip ∈ populatedBlocks req ∧ DatabaseID.etcd__tip = req.DatabaseID :=
  ⟨_, rfl, by decide,
    ToRequest_blocks_match (configOf [("etcd__tip", zeroControl)]) "etcd__tip" .Start 0 _ rfl
      DatabaseID.etcd__tip (by decide)⟩

theorem toUint32_of_range (x : Int) (h0 : 0 ≤ x) (h1 : x < 2 ^ 32) :
    (toUint32 x : Int) = x := by
  unfold toUint32
  rw [Int.emod_eq_of_lt h0 h1]
  exact Int.toNat_of_nonneg h0

theorem wrapInt64_of_range (x : Int) (h0 : -(2 ^ 63) ≤ x) (h1 : x < 2 ^ 63) :
    wrapInt64 x = x := by
  unfold wrapInt64
  rw [Int.emod_eq_of_lt (by omega) (by omega)]
  omega

/-- C10: for a ZooKeeper request with host index `idx`, `0 ≤ idx < 2^32 - 1`,
the request is returned without error, `MyID` is `idx + 1` (at least 1) and
`IPIndex` is `idx`; another index in that range gets another `MyID`. -/
theorem ToRequest_zookeeper_MyID (cfg : Config) (op : Operation) (idx : Int)
    (g : ConfigClientMachineAgentControl)
    (hg : mapLookup cfg.DatabaseIDToConfigClientMachineAgentControl
      DatabaseID.zookeeper__r3_5_3_beta.String = some g)
    (h0 : 0 ≤ idx) (h1 : idx < 2 ^ 32 - 1) :
    ∃ req flag,
      ToRequest cfg DatabaseID.zookeeper__r3_5_3_beta.String op idx = (some req, none) ∧
      req.Flag_Zookeeper_R3_5_3Beta = some flag ∧
      (flag.MyID : Int) = idx + 1 ∧ 1 ≤ flag.MyID ∧ (req.IPIndex : Int) = idx ∧
      ∀ idx' req' flag', 0 ≤ idx' → idx' < 2 ^ 32 - 1 → idx' ≠ idx →
        ToRequest cfg DatabaseID.zookeeper__r3_5_3_beta.String op idx' = (some req', none) →
        req'.Flag_Zookeeper_R3_5_3Beta = some flag' → flag'.MyID ≠ flag.MyID := by
  have key : ∀ i : Int, 0 ≤ i → i < 2 ^ 32 - 1 →
      (toUint32 (wrapInt64 (i + 1)) : Int) = i + 1 := by
    intro i hi0 hi1
    rw [wrapInt64_of_range _ (by omega) (by omega)]
    exact toUint32_of_range _ (by omega) (by omega)
  simp only [ToRequest, hg, DatabaseID_value_String, Option.getD_some]
  refine ⟨_, _, rfl, rfl, key idx h0 h1, ?_, toUint32_of_range idx h0 (by omega), ?_⟩
  · have := key idx h0 h1
    simp only at this ⊢
    omega
  · intro idx' req' flag' h0' h1' hne hreq hflag
    simp only [Prod.mk.injEq, Option.some.injEq, and_true] at hreq
    subst hreq
    simp only [Option.some.injEq] at hflag
    subst hflag
    have e1 := key idx h0 h1
    have e2 := key idx' h0' h1'
    simp only at e1 e2 ⊢
    intro hEq
    rw [hEq] at e2
    omega

/-- Witness of C10, at host index 2. -/
theorem ToRequest_zookeeper_MyID_witness :
    ∃ req flag,
      ToRequest (configOf [("zookeeper__r3_5_3_beta", zeroControl)])
        "zookeeper__r3_5_3_beta" .Start 2 = (some req, none) ∧
      req.Flag_Zookeeper_R3_5_3Beta = some flag ∧
      (flag.MyID : Int) = 3 ∧ (req.IPIndex : Int) = 2 := by
  obtain ⟨req, flag, h1, h2, h3, _, h5, _⟩ :=
    ToRequest_zookeeper_MyID (configOf [("zookeeper__r3_5_3_beta", zeroControl)]) .Start 2
      zeroControl rfl (by decide) (by decide)
  exact ⟨req, flag, h1, h2, h3, h5⟩

/-- C11: `ToRequest` returns the `database ID is not defined` error with a nil
request exactly when the ID is not a key of the agent-control map; for a key
that is a known database ID whose quota is within the ceiling, it returns a
request and no error. -/
theorem ToRequest_defined (cfg : Config) (id : String) (op : Operation) (idx : Int) :
    (ToRequest cfg id op idx = (none, some (.notDefined id)) ↔
      mapLookup cfg.DatabaseIDToConfigClientMachineAgentControl id = none) ∧
    ((ToRequest cfg id op idx).1 = none ↔
      mapLookup cfg.DatabaseIDToConfigClientMachineAgentControl id = none) ∧
    ∀ g d, mapLookup cfg.DatabaseIDToConfigClientMachineAgentControl id = some g →
      DatabaseID_value id = some d →
      (∀ q, quotaFor g d = some q → q ≤ 8000000000) →
      ∃ req, ToRequest cfg id op idx = (some req, none) := by
  refine ⟨?_, ?_, ?_⟩
  · unfold ToRequest
    cases hg : mapLookup cfg.DatabaseIDToConfigClientMachineAgentControl id with
    | none => simp
    | some g =>
      simp only [reduceCtorEq, iff_false]
      cases (DatabaseID_value id).getD DatabaseID_zero <;> simp only [] <;>
        (try split_ifs) <;> simp
  · unfold ToRequest
    cases hg : mapLookup cfg.DatabaseIDToConfigClientMachineAgentControl id with
    | none => simp
    | some g =>
      simp only [reduceCtorEq, iff_false]
      cases (DatabaseID_value id).getD DatabaseID_zero <;> simp only [] <;>
        (try split_ifs) <;> simp
  · intro g d hg hd hq
    unfold ToRequest
    simp only [hg, hd, Option.getD_some, maxEtcdQuotaSize]
    cases d <;> simp only [quotaFor] at hq <;> simp only [] <;>
      first
        | exact ⟨_, rfl⟩
        | (rw [if_neg (not_lt.mpr (hq _ rfl))]; exact ⟨_, rfl⟩)

/-- C12: a successful `ToRequest` copies the operation, the enum value of the
database ID, the tag, the peer-IP string, the client number, the upload trigger
and the four cloud-storage fields, and every field of the populated tunable
block other than `MyID` equals the entry's configured field. -/
theorem ToRequest_fields (cfg : Config) (id : String) (op : Operation) (idx : Int)
    (req : Request) (g : ConfigClientMachineAgentControl)
    (h : ToRequest cfg id op idx = (some req, none))
    (hg : mapLookup cfg.DatabaseIDToConfigClientMachineAgentControl id = some g) :
    req.Operation = op ∧
    req.DatabaseID = (DatabaseID_value id).getD DatabaseID_zero ∧
    (∀ d, DatabaseID_value id = some d → req.DatabaseID = d) ∧
    req.DatabaseTag = g.DatabaseTag ∧
    req.PeerIPsString = g.PeerIPsString ∧
    req.CurrentClientNumber = g.ConfigClientMachineBenchmarkOptions.ClientNumber ∧
    req.TriggerLogUpload = g.ConfigClientMachineBenchmarkSteps.Step4UploadLogs ∧
    (∃ c, req.ConfigClientMachineInitial = some c ∧
      c.GoogleCloudProjectName = cfg.ConfigClientMachineInitial.GoogleCloudProjectName ∧
      c.GoogleCloudStorageKey = cfg.ConfigClientMachineInitial.GoogleCloudStorageKey ∧
      c.GoogleCloudStorageBucketName =
        cfg.ConfigClientMachineInitial.GoogleCloudStorageBucketName ∧
      c.GoogleCloudStorageSubDirectory =
        cfg.ConfigClientMachineInitial.GoogleCloudStorageSubDirectory) ∧
    (∀ f, req.Flag_Etcd_Other = some f → f = g.Flag_Etcd_Other) ∧
    (∀ f, req.Flag_Etcd_Tip = some f → f = g.Flag_Etcd_Tip) ∧
    (∀ f, req.Flag_Etcd_V3_2 = some f → f = g.Flag_Etcd_V3_2) ∧
    (∀ f, req.Flag_Etcd_V3_3 = some f → f = g.Flag_Etcd_V3_3) ∧
    (∀ f, req.Flag_Zookeeper_R3_5_3Beta = some f →
      f = { g.Flag_Zookeeper_R3_5_3Beta with MyID := f.MyID }) := by
  unfold ToRequest at h
  simp only [hg] at h
  have hv : ∀ d, DatabaseID_value id = some d →
      (DatabaseID_value id).getD DatabaseID_zero = d := by
    intro d hd; rw [hd]; rfl
  cases hd : (DatabaseID_value id).getD DatabaseID_zero <;> simp only [hd] at h hv <;>
    (try split_ifs at h) <;>
    simp only [Prod.mk.injEq, Option.some.injEq, reduceCtorEq, and_false, and_true] at h <;>
    subst h <;>
    refine ⟨rfl, rfl, hv, rfl, rfl, rfl, rfl, ⟨_, rfl, rfl, rfl, rfl, rfl⟩, ?_, ?_, ?_, ?_, ?_⟩ <;>
    intro f hf <;> simp only [Option.some.injEq, reduceCtorEq] at hf <;> subst hf <;> rfl

/-- Witness of C12, at a ZooKeeper entry. -/
theorem ToRequest_fields_witness :
    ∃ req, ToRequest (configOf [("zookeeper__r3_5_3_beta", zeroControl)])
        "zookeeper__r3_5_3_beta" .Stop 4 = (some req, none) ∧
      req.Operation = .Stop ∧ req.DatabaseID = .zookeeper__r3_5_3_beta ∧
      req.CurrentClientNumber = 0 :=
  ⟨_, rfl,
    (ToRequest_fields (configOf [("zookeeper__r3_5_3_beta", zeroControl)])
      "zookeeper__r3_5_3_beta" .Stop 4 _ zeroControl rfl rfl).1,
    (ToRequest_fields (configOf [("zookeeper__r3_5_3_beta", zeroControl)])
      "zookeeper__r3_5_3_beta" .Stop 4 _ zeroControl rfl rfl).2.2.1 _ (by decide),
    (ToRequest_fields (configOf [("zookeeper__r3_5_3_beta", zeroControl)])
      "zookeeper__r3_5_3_beta" .Stop 4 _ zeroControl rfl rfl).2.2.2.2.2.1⟩

/-! ## Properties of `ReadConfig` -/

theorem mapLookup_isSome_iff {α : Type} (m : List (String × α)) (k : String) :
    (mapLookup m k).isSome ↔ k ∈ mapKeys m := by
  induction m with
  | nil => simp [mapLookup, mapKeys]
  | cons p rest ih =>
    obtain ⟨k', v⟩ := p
    simp only [mapLookup, mapKeys, List.map_cons, List.mem_cons] at ih ⊢
    by_cases h : k' = k
    · simp [h]
    · simp only [h, if_false, ih, mapKeys]
      constructor
      · intro hm; exact Or.inr hm
      · rintro (hm | hm)
        · exact absurd hm.symm h
        · exact hm

theorem mapLookup_mem {α : Type} (m : List (String × α)) (k : String) (v : α)
    (h : mapLookup m k = some v) : (k, v) ∈ m := by
  induction m with
  | nil => simp [mapLookup] at h
  | cons p rest ih =>
    obtain ⟨k', v'⟩ := p
    simp only [mapLookup] at h
    by_cases hk : k' = k
    · simp only [hk, if_true, Option.some.injEq] at h
      simp [hk, h]
    · simp only [hk, if_false] at h
      exact List.mem_cons_of_mem _ (ih h)

theorem mapLookup_map {α β : Type} (f : String → α → β) (m : List (String × α)) (k : String) :
    mapLookup (m.map fun p => (p.1, f p.1 p.2)) k = (mapLookup m k).map (f k) := by
  induction m with
  | nil => simp [mapLookup]
  | cons p rest ih =>
    obtain ⟨k', v⟩ := p
    simp only [List.map_cons, mapLookup]
    by_cases h : k' = k
    · simp [h]
    · simp [h, ih]

theorem mapLookup_mapSet {α : Type} (m : List (String × α)) (k k' : String) (v : α) :
    mapLookup (mapSet m k v) k' = if k = k' then some v else mapLookup m k' := by
  induction m with
  | nil => simp [mapSet, mapLookup]
  | cons p rest ih =>
    obtain ⟨k0, v0⟩ := p
    simp only [mapSet]
    by_cases h : k0 = k
    · subst h
      simp only [if_true, mapLookup]
      by_cases h' : k0 = k' <;> simp [h']
    · simp only [h, if_false, mapLookup, ih]
      by_cases h' : k0 = k'
      · have : ¬ k = k' := fun e => h (h'.trans e.symm)
        simp [h', this]
      · simp [h']

theorem mapLookup_updateIfPresent (m : List (String × ConfigClientMachineAgentControl))
    (k k' : String) (f : ConfigClientMachineAgentControl → ConfigClientMachineAgentControl) :
    mapLookup (updateIfPresent m k f) k' =
      if k = k' then (mapLookup m k).map f else mapLookup m k' := by
  unfold updateIfPresent
  cases h : mapLookup m k with
  | none =>
    by_cases hk : k = k'
    · subst hk; simp [h]
    · simp [hk]
  | some v =>
    simp only [mapLookup_mapSet, Option.map_some']

theorem mapLookup_applyDefaults (m : List (String × ConfigClientMachineAgentControl))
    (k : String) :
    mapLookup (applyDefaults m) k = (mapLookup m k).map (defaultsFor k) := by
  have hf : defaultsFor k = fun v =>
      if k = "etcd__other" then defaultsEtcdOther v
      else if k = "etcd__tip" then defaultsEtcdTip v
      else if k = "etcd__v3_2" then defaultsEtcdV3_2 v
      else if k = "etcd__v3_3" then defaultsEtcdV3_3 v
      else if k = "zookeeper__r3_5_3_beta" then defaultsZookeeper v
      else if k = "consul__v1_0_2" then defaultsConsul v
      else v := by
    funext v; rfl
  rw [hf]
  simp only [applyDefaults, mapLookup_updateIfPresent, DatabaseID.String]
  by_cases h1 : k = "etcd__other"
  · subst h1; simp
  by_cases h2 : k = "etcd__tip"
  · subst h2; simp
  by_cases h3 : k = "etcd__v3_2"
  · subst h3; simp
  by_cases h4 : k = "etcd__v3_3"
  · subst h4; simp
  by_cases h5 : k = "zookeeper__r3_5_3_beta"
  · subst h5; simp
  by_cases h6 : k = "consul__v1_0_2"
  · subst h6; simp
  have e1 : ¬ "etcd__other" = k := fun e => h1 e.symm
  have e2 : ¬ "etcd__tip" = k := fun e => h2 e.symm
  have e3 : ¬ "etcd__v3_2" = k := fun e => h3 e.symm
  have e4 : ¬ "etcd__v3_3" = k := fun e => h4 e.symm
  have e5 : ¬ "zookeeper__r3_5_3_beta" = k := fun e => h5 e.symm
  have e6 : ¬ "consul__v1_0_2" = k := fun e => h6 e.symm
  simp [h1, h2, h3, h4, h5, h6, e1, e2, e3, e4, e5, e6]

theorem fillGroups_eq (m : List (String × ConfigClientMachineAgentControl)) :
    (∀ k ∈ mapKeys m, IsValidDatabaseID k = true) →
    fillGroups m = .ok (m.map fun p => (p.1, fillGroup p.1 p.2)) := by
  induction m with
  | nil => intro _; rfl
  | cons p rest ih =>
    obtain ⟨k, g⟩ := p
    intro h
    have hk : IsValidDatabaseID k = true := h k (by simp [mapKeys])
    have hrest := ih (fun k' hk' => h k' (by
      simp only [mapKeys, List.map_cons, List.mem_cons] at hk' ⊢; exact Or.inr hk'))
    simp [fillGroups, hk, hrest]

theorem fillGroups_error (m : List (String × ConfigClientMachineAgentControl)) :
    (∃ k ∈ mapKeys m, IsValidDatabaseID k = false) →
    ∃ k, IsValidDatabaseID k = false ∧ fillGroups m = .error (.unknownDatabaseID k) := by
  induction m with
  | nil => rintro ⟨k, hk, _⟩; simp [mapKeys] at hk
  | cons p rest ih =>
    obtain ⟨k, g⟩ := p
    rintro ⟨k', hk', hv⟩
    by_cases hk : IsValidDatabaseID k = true
    · simp only [mapKeys, List.map_cons, List.mem_cons] at hk'
      rcases hk' with rfl | hk'
      · rw [hk] at hv; cases hv
      · obtain ⟨k2, hv2, he⟩ := ih ⟨k', hk', hv⟩
        exact ⟨k2, hv2, by simp [fillGroups, hk, he]⟩
    · have hk0 : IsValidDatabaseID k = false := by simpa using hk
      exact ⟨k, hk0, by simp [fillGroups, hk0]⟩

theorem fillGroups_ok_iff (m m' : List (String × ConfigClientMachineAgentControl))
    (h : fillGroups m = .ok m') :
    (∀ k ∈ mapKeys m, IsValidDatabaseID k = true) ∧
      m' = m.map fun p => (p.1, fillGroup p.1 p.2) := by
  by_cases hv : ∀ k ∈ mapKeys m, IsValidDatabaseID k = true
  · rw [fillGroups_eq m hv] at h
    exact ⟨hv, (Except.ok.inj h).symm⟩
  · push_neg at hv
    obtain ⟨k, hk, hne⟩ := hv
    obtain ⟨k2, _, he⟩ := fillGroups_error m ⟨k, hk, by simpa using hne⟩
    rw [he] at h; cases h

theorem checkAllDatabaseIDList_ok (l : List String) :
    (∀ k ∈ l, IsValidDatabaseID k = true) → checkAllDatabaseIDList l = .ok () := by
  induction l with
  | nil => intro _; rfl
  | cons k rest ih =>
    intro h
    have hk : IsValidDatabaseID k = true := h k (by simp)
    simp [checkAllDatabaseIDList, hk, ih (fun k' hk' => h k' (List.mem_cons_of_mem _ hk'))]

theorem checkAllDatabaseIDList_error (l : List String) :
    (∃ k ∈ l, IsValidDatabaseID k = false) →
    ∃ k, IsValidDatabaseID k = false ∧
      checkAllDatabaseIDList l = .error (.unknownDatabaseID k) := by
  induction l with
  | nil => rintro ⟨k, hk, _⟩; simp at hk
  | cons k rest ih =>
    rintro ⟨k', hk', hv⟩
    by_cases hk : IsValidDatabaseID k = true
    · simp only [List.mem_cons] at hk'
      rcases hk' with rfl | hk'
      · rw [hk] at hv; cases hv
      · obtain ⟨k2, hv2, he⟩ := ih ⟨k', hk', hv⟩
        exact ⟨k2, hv2, by simp [checkAllDatabaseIDList, hk, he]⟩
    · have hk0 : IsValidDatabaseID k = false := by simpa using hk
      exact ⟨k, hk0, by simp [checkAllDatabaseIDList, hk0]⟩

theorem checkAllDatabaseIDList_error_shape (l : List String) (e : ConfigError)
    (h : checkAllDatabaseIDList l = .error e) :
    ∃ k, IsValidDatabaseID k = false ∧ e = .unknownDatabaseID k := by
  induction l with
  | nil => cases h
  | cons k rest ih =>
    by_cases hk : IsValidDatabaseID k = true
    · simp only [checkAllDatabaseIDList, hk, Bool.not_true, Bool.false_eq_true, if_false] at h
      exact ih h
    · have hk0 : IsValidDatabaseID k = false := by simpa using hk
      simp only [checkAllDatabaseIDList, hk0, Bool.not_false, if_true] at h
      exact ⟨k, hk0, (Except.error.inj h).symm⟩

theorem fillGroups_error_shape (m : List (String × ConfigClientMachineAgentControl))
    (e : ConfigError) (h : fillGroups m = .error e) :
    ∃ k, IsValidDatabaseID k = false ∧ e = .unknownDatabaseID k := by
  by_cases hv : ∀ k ∈ mapKeys m, IsValidDatabaseID k = true
  · rw [fillGroups_eq m hv] at h; cases h
  · push_neg at hv
    obtain ⟨k, hk, hne⟩ := hv
    obtain ⟨k2, hv2, he⟩ := fillGroups_error m ⟨k, hk, by simpa using hne⟩
    rw [he] at h
    exact ⟨k2, hv2, (Except.error.inj h).symm⟩

theorem checkConnectionsClients_ok (m : List (String × ConfigClientMachineAgentControl)) :
    (∀ p ∈ m, p.2.ConfigClientMachineBenchmarkOptions.ConnectionNumber ≠
        p.2.ConfigClientMachineBenchmarkOptions.ClientNumber → isEtcdFamily p.1) →
    checkConnectionsClients m = .ok () := by
  induction m with
  | nil => intro _; rfl
  | cons p rest ih =>
    obtain ⟨k, c⟩ := p
    intro h
    have hrest := ih (fun p hp => h p (List.mem_cons_of_mem _ hp))
    have hk := h (k, c) (by simp)
    simp only [checkConnectionsClients, hrest]
    rw [if_neg]
    rintro ⟨h1, h2, h3, h4, h5⟩
    rcases hk h5 with e | e | e | e
    · exact h1 e
    · exact h2 e
    · exact h3 e
    · exact h4 e

theorem checkConnectionsClients_error (m : List (String × ConfigClientMachineAgentControl)) :
    (∃ p ∈ m, ¬ isEtcdFamily p.1 ∧ p.2.ConfigClientMachineBenchmarkOptions.ConnectionNumber ≠
        p.2.ConfigClientMachineBenchmarkOptions.ClientNumber) →
    ∃ k c n, ¬ isEtcdFamily k ∧ c ≠ n ∧
      checkConnectionsClients m = .error (.connectedClientsMismatch k c n) := by
  induction m with
  | nil => rintro ⟨p, hp, _⟩; simp at hp
  | cons p rest ih =>
    obtain ⟨k, c⟩ := p
    intro h
    by_cases hk : ¬ isEtcdFamily k ∧ c.ConfigClientMachineBenchmarkOptions.ConnectionNumber ≠
        c.ConfigClientMachineBenchmarkOptions.ClientNumber
    · refine ⟨k, _, _, hk.1, hk.2, ?_⟩
      simp only [checkConnectionsClients]
      rw [if_pos]
      have h' := hk.1
      simp only [isEtcdFamily, not_or] at h'
      exact ⟨h'.1, h'.2.1, h'.2.2.1, h'.2.2.2, hk.2⟩
    · obtain ⟨p, hp, hp1, hp2⟩ := h
      simp only [List.mem_cons] at hp
      rcases hp with rfl | hp
      · exact absurd ⟨hp1, hp2⟩ hk
      · obtain ⟨k2, c2, n2, h1, h2, he⟩ := ih ⟨p, hp, hp1, hp2⟩
        refine ⟨k2, c2, n2, h1, h2, ?_⟩
        simp only [checkConnectionsClients]
        rw [if_neg, he]
        rintro ⟨h1, h2, h3, h4, h5⟩
        exact hk ⟨by simp only [isEtcdFamily, not_or]; exact ⟨h1, h2, h3, h4⟩, h5⟩

theorem checkConnectionsClients_error_shape
    (m : List (String × ConfigClientMachineAgentControl)) (e : ConfigError)
    (h : checkConnectionsClients m = .error e) :
    ∃ k c n, e = .connectedClientsMismatch k c n := by
  induction m with
  | nil => cases h
  | cons p rest ih =>
    obtain ⟨k, c⟩ := p
    simp only [checkConnectionsClients] at h
    split_ifs at h
    · exact ⟨_, _, _, (Except.error.inj h).symm⟩
    · exact ih h

theorem checkEtcdDependency_error_shape
    (m : List (String × ConfigClientMachineAgentControl)) (e : ConfigError)
    (h : checkEtcdDependency m = .error e) : ∃ k, e = .noEtcdConfig k := by
  unfold checkEtcdDependency at h
  split_ifs at h
  · exact ⟨_, (Except.error.inj h).symm⟩
  · exact ⟨_, (Except.error.inj h).symm⟩

theorem loadStorageKey_error_shape (readFile : String → Option String) (analyze : Bool)
    (c : ConfigClientMachineInitial) (e : ConfigError)
    (h : loadStorageKey readFile analyze c = .error e) : ∃ path, e = .readFile path := by
  unfold loadStorageKey at h
  split_ifs at h
  · split at h
    · exact ⟨_, (Except.error.inj h).symm⟩
    · cases h

/-- The agent-control map after the loop of lines 93-108. -/
theorem filled_lookup (m : List (String × ConfigClientMachineAgentControl)) (k : String) :
    mapLookup (m.map fun p => (p.1, fillGroup p.1 p.2)) k =
      (mapLookup m k).map (fillGroup k) :=
  mapLookup_map fillGroup m k

theorem ReadConfig_ok (readFile : String → Option String) (cfg cfg' : Config) (analyze : Bool)
    (h : ReadConfig readFile cfg analyze = .ok cfg') :
    (∀ k ∈ cfg.AllDatabaseIDList, IsValidDatabaseID k = true) ∧
    (∀ k ∈ mapKeys cfg.DatabaseIDToConfigClientMachineAgentControl,
      IsValidDatabaseID k = true) ∧
    checkConnectionsClients
      (cfg.DatabaseIDToConfigClientMachineAgentControl.map
        fun p => (p.1, fillGroup p.1 p.2)) = .ok () ∧
    checkEtcdDependency (applyDefaults
      (cfg.DatabaseIDToConfigClientMachineAgentControl.map
        fun p => (p.1, fillGroup p.1 p.2))) = .ok () ∧
    cfg'.DatabaseIDToConfigClientMachineAgentControl =
      applyDefaults (cfg.DatabaseIDToConfigClientMachineAgentControl.map
        fun p => (p.1, fillGroup p.1 p.2)) := by
  unfold ReadConfig at h
  cases h1 : checkAllDatabaseIDList cfg.AllDatabaseIDList with
  | error e => simp [h1] at h
  | ok u =>
    cases h2 : fillGroups cfg.DatabaseIDToConfigClientMachineAgentControl with
    | error e => simp [h1, h2] at h
    | ok filled =>
      obtain ⟨hv, hf⟩ := fillGroups_ok_iff _ _ h2
      subst hf
      simp only [h1, h2] at h
      cases h3 : checkConnectionsClients
          (cfg.DatabaseIDToConfigClientMachineAgentControl.map
            fun p => (p.1, fillGroup p.1 p.2)) with
      | error e => simp [h3] at h
      | ok u3 =>
        simp only [h3] at h
        cases h4 : checkEtcdDependency (applyDefaults
            (cfg.DatabaseIDToConfigClientMachineAgentControl.map
              fun p => (p.1, fillGroup p.1 p.2))) with
        | error e => simp [h4] at h
        | ok u4 =>
          simp only [h4] at h
          cases h5 : loadStorageKey readFile analyze cfg.ConfigClientMachineInitial with
          | error e => simp [h5] at h
          | ok initial =>
            simp only [h5] at h
            have h' := Except.ok.inj h
            subst h'
            refine ⟨?_, hv, rfl, rfl, rfl⟩
            intro k hk
            by_contra hne
            obtain ⟨k2, _, he⟩ := checkAllDatabaseIDList_error _ ⟨k, hk, by simpa using hne⟩
            rw [he] at h1; cases h1

theorem ReadConfig_lookup (readFile : String → Option String) (cfg cfg' : Config)
    (analyze : Bool) (h : ReadConfig readFile cfg analyze = .ok cfg') (k : String) :
    mapLookup cfg'.DatabaseIDToConfigClientMachineAgentControl k =
      (mapLookup cfg.DatabaseIDToConfigClientMachineAgentControl k).map
        fun e => defaultsFor k (fillGroup k e) := by
  rw [(ReadConfig_ok readFile cfg cfg' analyze h).2.2.2.2, mapLookup_applyDefaults,
    filled_lookup]
  cases mapLookup cfg.DatabaseIDToConfigClientMachineAgentControl k <;> rfl

/-- C4: in a configuration whose IDs are all known, an entry outside the etcd
family whose connection number differs from its client number makes
`ReadConfig` return the mismatch error; when the only mismatching entries are
etcd-family entries the check passes and `ReadConfig` never returns that error. -/
theorem ReadConfig_connections_clients (readFile : String → Option String) (cfg : Config)
    (analyze : Bool)
    (hl : ∀ k ∈ cfg.AllDatabaseIDList, IsValidDatabaseID k = true)
    (hm : ∀ k ∈ mapKeys cfg.DatabaseIDToConfigClientMachineAgentControl,
      IsValidDatabaseID k = true) :
    ((∃ p ∈ cfg.DatabaseIDToConfigClientMachineAgentControl, ¬ isEtcdFamily p.1 ∧
        p.2.ConfigClientMachineBenchmarkOptions.ConnectionNumber ≠
          p.2.ConfigClientMachineBenchmarkOptions.ClientNumber) →
      ∃ k c n, ¬ isEtcdFamily k ∧ c ≠ n ∧
        ReadConfig readFile cfg analyze = .error (.connectedClientsMismatch k c n)) ∧
    ((∀ p ∈ cfg.DatabaseIDToConfigClientMachineAgentControl,
        p.2.ConfigClientMachineBenchmarkOptions.ConnectionNumber ≠
          p.2.ConfigClientMachineBenchmarkOptions.ClientNumber → isEtcdFamily p.1) →
      (∃ filled, fillGroups cfg.DatabaseIDToConfigClientMachineAgentControl = .ok filled ∧
        checkConnectionsClients filled = .ok ()) ∧
      ∀ k c n, ReadConfig readFile cfg analyze ≠ .error (.connectedClientsMismatch k c n)) := by
  have h1 := checkAllDatabaseIDList_ok _ hl
  have h2 := fillGroups_eq _ hm
  constructor
  · rintro ⟨p, hp, hp1, hp2⟩
    obtain ⟨k, c, n, hk, hcn, he⟩ := checkConnectionsClients_error
      (cfg.DatabaseIDToConfigClientMachineAgentControl.map fun p => (p.1, fillGroup p.1 p.2))
      ⟨(p.1, fillGroup p.1 p.2), List.mem_map.mpr ⟨p, hp, rfl⟩, hp1, hp2⟩
    exact ⟨k, c, n, hk, hcn, by simp only [ReadConfig, h1, h2, he]⟩
  · intro h
    have h3 : checkConnectionsClients
        (cfg.DatabaseIDToConfigClientMachineAgentControl.map
          fun p => (p.1, fillGroup p.1 p.2)) = .ok () := by
      apply checkConnectionsClients_ok
      intro q hq
      obtain ⟨p, hp, rfl⟩ := List.mem_map.mp hq
      exact h p hp
    refine ⟨⟨_, h2, h3⟩, ?_⟩
    intro k c n he
    simp only [ReadConfig, h1, h2, h3] at he
    cases h4 : checkEtcdDependency (applyDefaults
        (cfg.DatabaseIDToConfigClientMachineAgentControl.map
          fun p => (p.1, fillGroup p.1 p.2))) with
    | error e =>
      simp only [h4] at he
      obtain ⟨k', hk'⟩ := checkEtcdDependency_error_shape _ _ h4
      rw [hk'] at he; cases he
    | ok u =>
      simp only [h4] at he
      cases h5 : loadStorageKey readFile analyze cfg.ConfigClientMachineInitial with
      | error e =>
        simp only [h5] at he
        obtain ⟨k', hk'⟩ := loadStorageKey_error_shape _ _ _ _ h5
        rw [hk'] at he; cases he
      | ok initial => simp only [h5] at he; cases he

/-- Witness of C4: connection number 5 and client number 7 are rejected for
`consul__v1_0_2` and pass the check for `etcd__v3_3`. -/
theorem ReadConfig_connections_clients_witness :
    (∃ k c n, ¬ isEtcdFamily k ∧ c ≠ n ∧
      ReadConfig noFile (configOf [("consul__v1_0_2", controlConnClients 5 7)]) false =
        .error (.connectedClientsMismatch k c n)) ∧
    ∀ k c n, ReadConfig noFile (configOf [("etcd__v3_3", controlConnClients 5 7)]) false ≠
      .error (.connectedClientsMismatch k c n) :=
  ⟨(ReadConfig_connections_clients noFile
      (configOf [("consul__v1_0_2", controlConnClients 5 7)]) false
      (by decide) (by decide)).1
      ⟨("consul__v1_0_2", controlConnClients 5 7), by simp [configOf], by decide, by decide⟩,
    ((ReadConfig_connections_clients noFile
      (configOf [("etcd__v3_3", controlConnClients 5 7)]) false
      (by decide) (by decide)).2
      (by
        intro p hp _
        simp only [configOf, List.mem_singleton] at hp
        subst hp
        decide)).2⟩

/-- C5: `ReadConfig` rejects, with the unknown-ID error and no configuration,
every parsed configuration in which an element of `AllDatabaseIDList` or a key
of the agent-control map is not a valid database ID. -/
theorem ReadConfig_rejects_unknown_id (readFile : String → Option String) (cfg : Config)
    (analyze : Bool)
    (h : (∃ k ∈ cfg.AllDatabaseIDList, IsValidDatabaseID k = false) ∨
      (∃ k ∈ mapKeys cfg.DatabaseIDToConfigClientMachineAgentControl,
        IsValidDatabaseID k = false)) :
    ∃ k, IsValidDatabaseID k = false ∧
      ReadConfig readFile cfg analyze = .error (.unknownDatabaseID k) := by
  by_cases hl : ∃ k ∈ cfg.AllDatabaseIDList, IsValidDatabaseID k = false
  · obtain ⟨k, hk, he⟩ := checkAllDatabaseIDList_error _ hl
    exact ⟨k, hk, by simp only [ReadConfig, he]⟩
  · have hl' : ∀ k ∈ cfg.AllDatabaseIDList, IsValidDatabaseID k = true := by
      intro k hk
      by_contra hne
      exact hl ⟨k, hk, by simpa using hne⟩
    have h1 := checkAllDatabaseIDList_ok _ hl'
    rcases h with h | h
    · exact absurd h hl
    · obtain ⟨k, hk, he⟩ := fillGroups_error _ h
      exact ⟨k, hk, by simp only [ReadConfig, h1, he]⟩

/-- Witness of C5, at a configuration with the unknown key `etcd`. -/
theorem ReadConfig_rejects_unknown_id_witness :
    ∃ k, IsValidDatabaseID k = false ∧
      ReadConfig noFile (configOf [("etcd", zeroControl)]) false =
        .error (.unknownDatabaseID k) :=
  ReadConfig_rejects_unknown_id noFile (configOf [("etcd", zeroControl)]) false
    (Or.inl ⟨"etcd", by simp [configOf], by decide⟩)

theorem defaulted_isSome (m : List (String × ConfigClientMachineAgentControl)) (k : String) :
    (mapLookup (applyDefaults (m.map fun p => (p.1, fillGroup p.1 p.2))) k).isSome =
      (mapLookup m k).isSome := by
  rw [mapLookup_applyDefaults, filled_lookup]
  cases mapLookup m k <;> rfl

theorem isSome_eq_false_iff {α : Type} (o : Option α) : o.isSome = false ↔ o = none := by
  cases o <;> simp

theorem noEtcdKey_defaulted (m : List (String × ConfigClientMachineAgentControl)) :
    noEtcdKey (applyDefaults (m.map fun p => (p.1, fillGroup p.1 p.2))) = true ↔
      ∀ k, isEtcdFamily k → mapLookup m k = none := by
  simp only [noEtcdKey, defaulted_isSome, Bool.and_eq_true, Bool.not_eq_true',
    isSome_eq_false_iff]
  constructor
  · rintro ⟨⟨⟨h1, h2⟩, h3⟩, h4⟩ k hk
    rcases hk with e | e | e | e <;> subst e <;> assumption
  · intro h
    exact ⟨⟨⟨h _ (Or.inl rfl), h _ (Or.inr (Or.inl rfl))⟩, h _ (Or.inr (Or.inr (Or.inl rfl)))⟩,
      h _ (Or.inr (Or.inr (Or.inr rfl)))⟩

/-- C6: for a parsed configuration that passes the earlier checks, `ReadConfig`
returns the missing-etcd error when the agent-control map contains
`zetcd__beta` or `cetcd__beta` and none of the four etcd-family IDs; when the
map contains an etcd-family ID the dependency check passes and `ReadConfig`
never returns that error. -/
theorem ReadConfig_etcd_dependency (readFile : String → Option String) (cfg : Config)
    (analyze : Bool) (filled : List (String × ConfigClientMachineAgentControl))
    (h1 : checkAllDatabaseIDList cfg.AllDatabaseIDList = .ok ())
    (h2 : fillGroups cfg.DatabaseIDToConfigClientMachineAgentControl = .ok filled)
    (h3 : checkConnectionsClients filled = .ok ()) :
    (((mapLookup cfg.DatabaseIDToConfigClientMachineAgentControl
          DatabaseID.zetcd__beta.String).isSome ∨
        (mapLookup cfg.DatabaseIDToConfigClientMachineAgentControl
          DatabaseID.cetcd__beta.String).isSome) →
      (∀ k, isEtcdFamily k →
        mapLookup cfg.DatabaseIDToConfigClientMachineAgentControl k = none) →
      ∃ k, (k = DatabaseID.zetcd__beta.String ∨ k = DatabaseID.cetcd__beta.String) ∧
        ReadConfig readFile cfg analyze = .error (.noEtcdConfig k)) ∧
    ((∃ k, isEtcdFamily k ∧
        (mapLookup cfg.DatabaseIDToConfigClientMachineAgentControl k).isSome) →
      checkEtcdDependency (applyDefaults filled) = .ok () ∧
      ∀ k, ReadConfig readFile cfg analyze ≠ .error (.noEtcdConfig k)) := by
  obtain ⟨_, hf⟩ := fillGroups_ok_iff _ _ h2
  subst hf
  constructor
  · intro hz hno
    have hk := (noEtcdKey_defaulted _).mpr hno
    by_cases hz1 : (mapLookup cfg.DatabaseIDToConfigClientMachineAgentControl
        DatabaseID.zetcd__beta.String).isSome = true
    · refine ⟨_, Or.inl rfl, ?_⟩
      simp only [ReadConfig, h1, h2, h3, checkEtcdDependency, defaulted_isSome, hz1, hk,
        Bool.and_self, if_true]
    · have hz2 : (mapLookup cfg.DatabaseIDToConfigClientMachineAgentControl
          DatabaseID.cetcd__beta.String).isSome = true := by
        rcases hz with h | h
        · exact absurd h hz1
        · exact h
      have hz1' : (mapLookup cfg.DatabaseIDToConfigClientMachineAgentControl
          DatabaseID.zetcd__beta.String).isSome = false := by simpa using hz1
      refine ⟨_, Or.inr rfl, ?_⟩
      simp only [ReadConfig, h1, h2, h3, checkEtcdDependency, defaulted_isSome, hz1', hz2, hk,
        Bool.and_self, Bool.false_and, Bool.false_eq_true, if_false, if_true]
  · rintro ⟨k, hk, hs⟩
    have hno : noEtcdKey (applyDefaults
        (cfg.DatabaseIDToConfigClientMachineAgentControl.map
          fun p => (p.1, fillGroup p.1 p.2))) = false := by
      cases hn : noEtcdKey (applyDefaults
        (cfg.DatabaseIDToConfigClientMachineAgentControl.map
          fun p => (p.1, fillGroup p.1 p.2)))
      · rfl
      · have := (noEtcdKey_defaulted _).mp hn k hk
        rw [this] at hs; cases hs
    have h4 : checkEtcdDependency (applyDefaults
        (cfg.DatabaseIDToConfigClientMachineAgentControl.map
          fun p => (p.1, fillGroup p.1 p.2))) = .ok () := by
      simp only [checkEtcdDependency, hno, Bool.and_false, Bool.false_eq_true, if_false]
    refine ⟨h4, ?_⟩
    intro k' he
    simp only [ReadConfig, h1, h2, h3, h4] at he
    cases h5 : loadStorageKey readFile analyze cfg.ConfigClientMachineInitial with
    | error e =>
      simp only [h5] at he
      obtain ⟨k'', hk''⟩ := loadStorageKey_error_shape _ _ _ _ h5
      rw [hk''] at he; cases he
    | ok initial => simp only [h5] at he; cases he

/-- Witness of C6: `zetcd__beta` alone is rejected. -/
theorem ReadConfig_etcd_dependency_witness :
    ∃ k, (k = DatabaseID.zetcd__beta.String ∨ k = DatabaseID.cetcd__beta.String) ∧
      ReadConfig noFile (configOf [("zetcd__beta", zeroControl)]) false =
        .error (.noEtcdConfig k) :=
  (ReadConfig_etcd_dependency noFile (configOf [("zetcd__beta", zeroControl)]) false
      [("zetcd__beta", fillGroup "zetcd__beta" zeroControl)] rfl rfl rfl).1
    (Or.inl (by decide))
    (by
      intro k hk
      rcases hk with e | e | e | e <;> subst e <;> decide)

theorem setAgentPort_eq (v : ConfigClientMachineAgentControl) :
    setAgentPort v = { v with AgentPortToConnect :=
      if v.AgentPortToConnect = 0 then defaultAgentPort else v.AgentPortToConnect } := by
  unfold setAgentPort; split_ifs <;> rfl

theorem setDatabasePort_eq (d : Int) (v : ConfigClientMachineAgentControl) :
    setDatabasePort d v = { v with DatabasePortToConnect :=
      if v.DatabasePortToConnect = 0 then d else v.DatabasePortToConnect } := by
  unfold setDatabasePort; split_ifs <;> rfl

theorem setZookeeperTickTime_eq (v : ConfigClientMachineAgentControl) :
    setZookeeperTickTime v = { v with Flag_Zookeeper_R3_5_3Beta :=
      { v.Flag_Zookeeper_R3_5_3Beta with TickTime :=
          if v.Flag_Zookeeper_R3_5_3Beta.TickTime = 0 then defaultZookeeperTickTime
          else v.Flag_Zookeeper_R3_5_3Beta.TickTime } } := by
  unfold setZookeeperTickTime; split_ifs <;> rfl

theorem setZookeeperInitLimit_eq (v : ConfigClientMachineAgentControl) :
    setZookeeperInitLimit v = { v with Flag_Zookeeper_R3_5_3Beta :=
      { v.Flag_Zookeeper_R3_5_3Beta with InitLimit :=
          if v.Flag_Zookeeper_R3_5_3Beta.InitLimit = 0 then defaultZookeeperInitLimit
          else v.Flag_Zookeeper_R3_5_3Beta.InitLimit } } := by
  unfold setZookeeperInitLimit; split_ifs <;> rfl

theorem setZookeeperSyncLimit_eq (v : ConfigClientMachineAgentControl) :
    setZookeeperSyncLimit v = { v with Flag_Zookeeper_R3_5_3Beta :=
      { v.Flag_Zookeeper_R3_5_3Beta with SyncLimit :=
          if v.Flag_Zookeeper_R3_5_3Beta.SyncLimit = 0 then defaultZookeeperSyncLimit
          else v.Flag_Zookeeper_R3_5_3Beta.SyncLimit } } := by
  unfold setZookeeperSyncLimit; split_ifs <;> rfl

theorem setZookeeperSnapCount_eq (v : ConfigClientMachineAgentControl) :
    setZookeeperSnapCount v = { v with Flag_Zookeeper_R3_5_3Beta :=
      { v.Flag_Zookeeper_R3_5_3Beta with SnapCount :=
          if v.Flag_Zookeeper_R3_5_3Beta.SnapCount = 0 then defaultZookeeperSnapCount
          else v.Flag_Zookeeper_R3_5_3Beta.SnapCount } } := by
  unfold setZookeeperSnapCount; split_ifs <;> rfl

theorem setZookeeperMaxClientConnections_eq (v : ConfigClientMachineAgentControl) :
    setZookeeperMaxClientConnections v = { v with Flag_Zookeeper_R3_5_3Beta :=
      { v.Flag_Zookeeper_R3_5_3Beta with MaxClientConnections :=
          if v.Flag_Zookeeper_R3_5_3Beta.MaxClientConnections = 0 then
            defaultZookeeperMaxClientConnections
          else v.Flag_Zookeeper_R3_5_3Beta.MaxClientConnections } } := by
  unfold setZookeeperMaxClientConnections; split_ifs <;> rfl

theorem defaultsZookeeper_eq (v : ConfigClientMachineAgentControl) :
    defaultsZookeeper v =
      { v with
        AgentPortToConnect :=
          if v.AgentPortToConnect = 0 then defaultAgentPort else v.AgentPortToConnect
        DatabasePortToConnect :=
          if v.DatabasePortToConnect = 0 then defaultZookeeperClientPort
          else v.DatabasePortToConnect
        Flag_Zookeeper_R3_5_3Beta :=
          { v.Flag_Zookeeper_R3_5_3Beta with
            ClientPort :=
              if v.DatabasePortToConnect = 0 then defaultZookeeperClientPort
              else v.DatabasePortToConnect
            TickTime :=
              if v.Flag_Zookeeper_R3_5_3Beta.TickTime = 0 then defaultZookeeperTickTime
              else v.Flag_Zookeeper_R3_5_3Beta.TickTime
            InitLimit :=
              if v.Flag_Zookeeper_R3_5_3Beta.InitLimit = 0 then defaultZookeeperInitLimit
              else v.Flag_Zookeeper_R3_5_3Beta.InitLimit
            SyncLimit :=
              if v.Flag_Zookeeper_R3_5_3Beta.SyncLimit = 0 then defaultZookeeperSyncLimit
              else v.Flag_Zookeeper_R3_5_3Beta.SyncLimit
            SnapCount :=
              if v.Flag_Zookeeper_R3_5_3Beta.SnapCount = 0 then defaultZookeeperSnapCount
              else v.Flag_Zookeeper_R3_5_3Beta.SnapCount
            MaxClientConnections :=
              if v.Flag_Zookeeper_R3_5_3Beta.MaxClientConnections = 0 then
                defaultZookeeperMaxClientConnections
              else v.Flag_Zookeeper_R3_5_3Beta.MaxClientConnections } } := by
  simp only [defaultsZookeeper, setZookeeperMaxClientConnections_eq, setZookeeperSnapCount_eq,
    setZookeeperSyncLimit_eq, setZookeeperInitLimit_eq, setZookeeperTickTime_eq,
    setZookeeperClientPort, setDatabasePort_eq, setAgentPort_eq]
  by_cases h : v.Flag_Zookeeper_R3_5_3Beta.TickTime = 0
  · simp [h, defaultZookeeperTickTime]
  · simp [h]

theorem setFlagsEtcdOther_eq (v : ConfigClientMachineAgentControl) :
    setFlagsEtcdOther v = { v with Flag_Etcd_Other :=
      { SnapshotCount := if v.Flag_Etcd_Other.SnapshotCount = 0 then defaultEtcdSnapshotCount
          else v.Flag_Etcd_Other.SnapshotCount
        QuotaSizeBytes := if v.Flag_Etcd_Other.QuotaSizeBytes = 0 then defaultEtcdQuotaSizeBytes
          else v.Flag_Etcd_Other.QuotaSizeBytes } } := by
  by_cases h1 : v.Flag_Etcd_Other.SnapshotCount = 0 <;>
    by_cases h2 : v.Flag_Etcd_Other.QuotaSizeBytes = 0 <;>
    simp only [setFlagsEtcdOther, h1, h2, if_true, if_false]

theorem defaultsEtcdOther_eq (v : ConfigClientMachineAgentControl) :
    defaultsEtcdOther v =
      { v with
        AgentPortToConnect :=
          if v.AgentPortToConnect = 0 then defaultAgentPort else v.AgentPortToConnect
        DatabasePortToConnect :=
          if v.DatabasePortToConnect = 0 then defaultEtcdClientPort
          else v.DatabasePortToConnect
        Flag_Etcd_Other :=
          { SnapshotCount := if v.Flag_Etcd_Other.SnapshotCount = 0 then defaultEtcdSnapshotCount
              else v.Flag_Etcd_Other.SnapshotCount
            QuotaSizeBytes := if v.Flag_Etcd_Other.QuotaSizeBytes = 0 then defaultEtcdQuotaSizeBytes
              else v.Flag_Etcd_Other.QuotaSizeBytes } } := by
  simp only [defaultsEtcdOther, setFlagsEtcdOther_eq, setDatabasePort_eq, setAgentPort_eq]

theorem setFlagsEtcdTip_eq (v : ConfigClientMachineAgentControl) :
    setFlagsEtcdTip v = { v with Flag_Etcd_Tip :=
      { SnapshotCount := if v.Flag_Etcd_Tip.SnapshotCount = 0 then defaultEtcdSnapshotCount
          else v.Flag_Etcd_Tip.SnapshotCount
        QuotaSizeBytes := if v.Flag_Etcd_Tip.QuotaSizeBytes = 0 then defaultEtcdQuotaSizeBytes
          else v.Flag_Etcd_Tip.QuotaSizeBytes } } := by
  by_cases h1 : v.Flag_Etcd_Tip.SnapshotCount = 0 <;>
    by_cases h2 : v.Flag_Etcd_Tip.QuotaSizeBytes = 0 <;>
    simp only [setFlagsEtcdTip, h1, h2, if_true, if_false]

theorem defaultsEtcdTip_eq (v : ConfigClientMachineAgentControl) :
    defaultsEtcdTip v =
      { v with
        AgentPortToConnect :=
          if v.AgentPortToConnect = 0 then defaultAgentPort else v.AgentPortToConnect
        DatabasePortToConnect :=
          if v.DatabasePortToConnect = 0 then defaultEtcdClientPort
          else v.DatabasePortToConnect
        Flag_Etcd_Tip :=
          { SnapshotCount := if v.Flag_Etcd_Tip.SnapshotCount = 0 then defaultEtcdSnapshotCount
              else v.Flag_Etcd_Tip.SnapshotCount
            QuotaSizeBytes := if v.Flag_Etcd_Tip.QuotaSizeBytes = 0 then defaultEtcdQuotaSizeBytes
              else v.Flag_Etcd_Tip.QuotaSizeBytes } } := by
  simp only [defaultsEtcdTip, setFlagsEtcdTip_eq, setDatabasePort_eq, setAgentPort_eq]

theorem setFlagsEtcdV3_2_eq (v : ConfigClientMachineAgentControl) :
    setFlagsEtcdV3_2 v = { v with Flag_Etcd_V3_2 :=
      { SnapshotCount := if v.Flag_Etcd_V3_2.SnapshotCount = 0 then defaultEtcdSnapshotCount
          else v.Flag_Etcd_V3_2.SnapshotCount
        QuotaSizeBytes := if v.Flag_Etcd_V3_2.QuotaSizeBytes = 0 then defaultEtcdQuotaSizeBytes
          else v.Flag_Etcd_V3_2.QuotaSizeBytes } } := by
  by_cases h1 : v.Flag_Etcd_V3_2.SnapshotCount = 0 <;>
    by_cases h2 : v.Flag_Etcd_V3_2.QuotaSizeBytes = 0 <;>
    simp only [setFlagsEtcdV3_2, h1, h2, if_true, if_false]

theorem defaultsEtcdV3_2_eq (v : ConfigClientMachineAgentControl) :
    defaultsEtcdV3_2 v =
      { v with
        AgentPortToConnect :=
          if v.AgentPortToConnect = 0 then defaultAgentPort else v.AgentPortToConnect
        DatabasePortToConnect :=
          if v.DatabasePortToConnect = 0 then defaultEtcdClientPort
          else v.DatabasePortToConnect
        Flag_Etcd_V3_2 :=
          { SnapshotCount := if v.Flag_Etcd_V3_2.SnapshotCount = 0 then defaultEtcdSnapshotCount
              else v.Flag_Etcd_V3_2.SnapshotCount
            QuotaSizeBytes := if v.Flag_Etcd_V3_2.QuotaSizeBytes = 0 then defaultEtcdQuotaSizeBytes
              else v.Flag_Etcd_V3_2.QuotaSizeBytes } } := by
  simp only [defaultsEtcdV3_2, setFlagsEtcdV3_2_eq, setDatabasePort_eq, setAgentPort_eq]

theorem setFlagsEtcdV3_3_eq (v : ConfigClientMachineAgentControl) :
    setFlagsEtcdV3_3 v = { v with Flag_Etcd_V3_3 :=
      { SnapshotCount := if v.Flag_Etcd_V3_3.SnapshotCount = 0 then defaultEtcdSnapshotCount
          else v.Flag_Etcd_V3_3.SnapshotCount
        QuotaSizeBytes := if v.Flag_Etcd_V3_3.QuotaSizeBytes = 0 then defaultEtcdQuotaSizeBytes
          else v.Flag_Etcd_V3_3.QuotaSizeBytes } } := by
  by_cases h1 : v.Flag_Etcd_V3_3.SnapshotCount = 0 <;>
    by_cases h2 : v.Flag_Etcd_V3_3.QuotaSizeBytes = 0 <;>
    simp only [setFlagsEtcdV3_3, h1, h2, if_true, if_false]

theorem defaultsEtcdV3_3_eq (v : ConfigClientMachineAgentControl) :
    defaultsEtcdV3_3 v =
      { v with
        AgentPortToConnect :=
          if v.AgentPortToConnect = 0 then defaultAgentPort else v.AgentPortToConnect
        DatabasePortToConnect :=
          if v.DatabasePortToConnect = 0 then defaultEtcdClientPort
          else v.DatabasePortToConnect
        Flag_Etcd_V3_3 :=
          { SnapshotCount := if v.Flag_Etcd_V3_3.SnapshotCount = 0 then defaultEtcdSnapshotCount
              else v.Flag_Etcd_V3_3.SnapshotCount
            QuotaSizeBytes := if v.Flag_Etcd_V3_3.QuotaSizeBytes = 0 then defaultEtcdQuotaSizeBytes
              else v.Flag_Etcd_V3_3.QuotaSizeBytes } } := by
  simp only [defaultsEtcdV3_3, setFlagsEtcdV3_3_eq, setDatabasePort_eq, setAgentPort_eq]

theorem defaultsConsul_eq (v : ConfigClientMachineAgentControl) :
    defaultsConsul v =
      { v with
        AgentPortToConnect :=
          if v.AgentPortToConnect = 0 then defaultAgentPort else v.AgentPortToConnect
        DatabasePortToConnect :=
          if v.DatabasePortToConnect = 0 then defaultConsulClientPort
          else v.DatabasePortToConnect } := by
  simp only [defaultsConsul, setDatabasePort_eq, setAgentPort_eq]

theorem defaultsFor_cases (k : String) (v : ConfigClientMachineAgentControl) :
    (k = "etcd__other" ∧ defaultsFor k v = defaultsEtcdOther v) ∨
    (k = "etcd__tip" ∧ defaultsFor k v = defaultsEtcdTip v) ∨
    (k = "etcd__v3_2" ∧ defaultsFor k v = defaultsEtcdV3_2 v) ∨
    (k = "etcd__v3_3" ∧ defaultsFor k v = defaultsEtcdV3_3 v) ∨
    (k = "zookeeper__r3_5_3_beta" ∧ defaultsFor k v = defaultsZookeeper v) ∨
    (k = "consul__v1_0_2" ∧ defaultsFor k v = defaultsConsul v) ∨
    ((¬ isEtcdFamily k ∧ k ≠ "zookeeper__r3_5_3_beta" ∧ k ≠ "consul__v1_0_2") ∧
      defaultsFor k v = v) := by
  simp only [defaultsFor, DatabaseID.String, isEtcdFamily]
  by_cases h1 : k = "etcd__other"
  · subst h1; simp
  by_cases h2 : k = "etcd__tip"
  · subst h2; simp
  by_cases h3 : k = "etcd__v3_2"
  · subst h3; simp
  by_cases h4 : k = "etcd__v3_3"
  · subst h4; simp
  by_cases h5 : k = "zookeeper__r3_5_3_beta"
  · subst h5; simp
  by_cases h6 : k = "consul__v1_0_2"
  · subst h6; simp
  simp [h1, h2, h3, h4, h5, h6]

/-- C7, as stated, fails for the ZooKeeper client port: a configured client port
2182 is replaced by the database port 2181. -/
theorem ReadConfig_overrides_ClientPort :
    ∃ cfg' e',
      ReadConfig noFile
        (configOf [("zookeeper__r3_5_3_beta", controlZookeeperPorts 2181 2182)]) false =
          .ok cfg' ∧
      mapLookup cfg'.DatabaseIDToConfigClientMachineAgentControl "zookeeper__r3_5_3_beta" =
        some e' ∧
      (controlZookeeperPorts 2181 2182).Flag_Zookeeper_R3_5_3Beta.ClientPort = 2182 ∧
      e'.Flag_Zookeeper_R3_5_3Beta.ClientPort = 2181 :=
  ⟨_, _, rfl, rfl, rfl, rfl⟩

/-- C7, amended: for every agent-control entry, each of the fields
`AgentPortToConnect`, `DatabasePortToConnect`, etcd `SnapshotCount` and
`QuotaSizeBytes`, ZooKeeper `TickTime`, `InitLimit`, `SyncLimit`, `SnapCount`
and `MaxClientConnections` that the user configured non-zero keeps the user's
value after `ReadConfig`; the ZooKeeper `ClientPort` of the ZooKeeper entry is
set to the entry's database port. -/
theorem ReadConfig_keeps_explicit (readFile : String → Option String) (cfg cfg' : Config)
    (analyze : Bool) (id : String) (e : ConfigClientMachineAgentControl)
    (h : ReadConfig readFile cfg analyze = .ok cfg')
    (he : mapLookup cfg.DatabaseIDToConfigClientMachineAgentControl id = some e) :
    ∃ e', mapLookup cfg'.DatabaseIDToConfigClientMachineAgentControl id = some e' ∧
      (e.AgentPortToConnect ≠ 0 → e'.AgentPortToConnect = e.AgentPortToConnect) ∧
      (e.DatabasePortToConnect ≠ 0 → e'.DatabasePortToConnect = e.DatabasePortToConnect) ∧
      (e.Flag_Etcd_Other.SnapshotCount ≠ 0 →
        e'.Flag_Etcd_Other.SnapshotCount = e.Flag_Etcd_Other.SnapshotCount) ∧
      (e.Flag_Etcd_Other.QuotaSizeBytes ≠ 0 →
        e'.Flag_Etcd_Other.QuotaSizeBytes = e.Flag_Etcd_Other.QuotaSizeBytes) ∧
      (e.Flag_Etcd_Tip.SnapshotCount ≠ 0 →
        e'.Flag_Etcd_Tip.SnapshotCount = e.Flag_Etcd_Tip.SnapshotCount) ∧
      (e.Flag_Etcd_Tip.QuotaSizeBytes ≠ 0 →
        e'.Flag_Etcd_Tip.QuotaSizeBytes = e.Flag_Etcd_Tip.QuotaSizeBytes) ∧
      (e.Flag_Etcd_V3_2.SnapshotCount ≠ 0 →
        e'.Flag_Etcd_V3_2.SnapshotCount = e.Flag_Etcd_V3_2.SnapshotCount) ∧
      (e.Flag_Etcd_V3_2.QuotaSizeBytes ≠ 0 →
        e'.Flag_Etcd_V3_2.QuotaSizeBytes = e.Flag_Etcd_V3_2.QuotaSizeBytes) ∧
      (e.Flag_Etcd_V3_3.SnapshotCount ≠ 0 →
        e'.Flag_Etcd_V3_3.SnapshotCount = e.Flag_Etcd_V3_3.SnapshotCount) ∧
      (e.Flag_Etcd_V3_3.QuotaSizeBytes ≠ 0 →
        e'.Flag_Etcd_V3_3.QuotaSizeBytes = e.Flag_Etcd_V3_3.QuotaSizeBytes) ∧
      (e.Flag_Zookeeper_R3_5_3Beta.TickTime ≠ 0 →
        e'.Flag_Zookeeper_R3_5_3Beta.TickTime = e.Flag_Zookeeper_R3_5_3Beta.TickTime) ∧
      (e.Flag_Zookeeper_R3_5_3Beta.InitLimit ≠ 0 →
        e'.Flag_Zookeeper_R3_5_3Beta.InitLimit = e.Flag_Zookeeper_R3_5_3Beta.InitLimit) ∧
      (e.Flag_Zookeeper_R3_5_3Beta.SyncLimit ≠ 0 →
        e'.Flag_Zookeeper_R3_5_3Beta.SyncLimit = e.Flag_Zookeeper_R3_5_3Beta.SyncLimit) ∧
      (e.Flag_Zookeeper_R3_5_3Beta.SnapCount ≠ 0 →
        e'.Flag_Zookeeper_R3_5_3Beta.SnapCount = e.Flag_Zookeeper_R3_5_3Beta.SnapCount) ∧
      (e.Flag_Zookeeper_R3_5_3Beta.MaxClientConnections ≠ 0 →
        e'.Flag_Zookeeper_R3_5_3Beta.MaxClientConnections =
          e.Flag_Zookeeper_R3_5_3Beta.MaxClientConnections) ∧
      (id = DatabaseID.zookeeper__r3_5_3_beta.String →
        e'.Flag_Zookeeper_R3_5_3Beta.ClientPort = e'.DatabasePortToConnect) := by
  refine ⟨defaultsFor id (fillGroup id e), ?_, ?_⟩
  · rw [ReadConfig_lookup readFile cfg cfg' analyze h id, he]; rfl
  · rcases defaultsFor_cases id (fillGroup id e) with
      ⟨hk, hd⟩ | ⟨hk, hd⟩ | ⟨hk, hd⟩ | ⟨hk, hd⟩ | ⟨hk, hd⟩ | ⟨hk, hd⟩ | ⟨hk, hd⟩
    · rw [hd, defaultsEtcdOther_eq]; subst hk
      simp only [fillGroup, DatabaseID.String]
      refine ⟨?_, ?_, ?_, ?_, ?_, ?_, ?_, ?_, ?_, ?_, ?_, ?_, ?_, ?_, ?_, ?_⟩ <;>
        intro hne <;> simp_all
    · rw [hd, defaultsEtcdTip_eq]; subst hk
      simp only [fillGroup, DatabaseID.String]
      refine ⟨?_, ?_, ?_, ?_, ?_, ?_, ?_, ?_, ?_, ?_, ?_, ?_, ?_, ?_, ?_, ?_⟩ <;>
        intro hne <;> simp_all
    · rw [hd, defaultsEtcdV3_2_eq]; subst hk
      simp only [fillGroup, DatabaseID.String]
      refine ⟨?_, ?_, ?_, ?_, ?_, ?_, ?_, ?_, ?_, ?_, ?_, ?_, ?_, ?_, ?_, ?_⟩ <;>
        intro hne <;> simp_all
    · rw [hd, defaultsEtcdV3_3_eq]; subst hk
      simp only [fillGroup, DatabaseID.String]
      refine ⟨?_, ?_, ?_, ?_, ?_, ?_, ?_, ?_, ?_, ?_, ?_, ?_, ?_, ?_, ?_, ?_⟩ <;>
        intro hne <;> simp_all
    · rw [hd, defaultsZookeeper_eq]; subst hk
      simp only [fillGroup, DatabaseID.String]
      refine ⟨?_, ?_, ?_, ?_, ?_, ?_, ?_, ?_, ?_, ?_, ?_, ?_, ?_, ?_, ?_, ?_⟩ <;>
        intro hne <;> simp_all
    · rw [hd, defaultsConsul_eq]; subst hk
      simp only [fillGroup, DatabaseID.String]
      refine ⟨?_, ?_, ?_, ?_, ?_, ?_, ?_, ?_, ?_, ?_, ?_, ?_, ?_, ?_, ?_, ?_⟩ <;>
        intro hne <;> simp_all
    · rw [hd]
      refine ⟨?_, ?_, ?_, ?_, ?_, ?_, ?_, ?_, ?_, ?_, ?_, ?_, ?_, ?_, ?_, ?_⟩ <;>
        intro hne <;> first | rfl | exact absurd hne hk.2.1

/-- Witness of C7 (amended), at the ZooKeeper entry with database port 2181. -/
theorem ReadConfig_keeps_explicit_witness :
    ∃ e', mapLookup
        (applyDefaults [("zookeeper__r3_5_3_beta",
          fillGroup "zookeeper__r3_5_3_beta" (controlZookeeperPorts 2181 2182))])
        "zookeeper__r3_5_3_beta" = some e' ∧
      e'.DatabasePortToConnect = 2181 ∧ e'.Flag_Zookeeper_R3_5_3Beta.ClientPort = 2181 := by
  obtain ⟨e', h1, _, h2, h3⟩ := ReadConfig_keeps_explicit noFile
    (configOf [("zookeeper__r3_5_3_beta", controlZookeeperPorts 2181 2182)])
    { configOf [("zookeeper__r3_5_3_beta", controlZookeeperPorts 2181 2182)] with
      DatabaseIDToConfigClientMachineAgentControl :=
        applyDefaults [("zookeeper__r3_5_3_beta",
          fillGroup "zookeeper__r3_5_3_beta" (controlZookeeperPorts 2181 2182))] }
    false "zookeeper__r3_5_3_beta" (controlZookeeperPorts 2181 2182) rfl rfl
  refine ⟨e', h1, h2 (by decide), ?_⟩
  rw [h3.2.2.2.2.2.2.2.2.2.2.2.2.2 rfl]
  exact h2 (by decide)

/-- C8: for every etcd-family, ZooKeeper or Consul entry, each defaultable field
left at zero is set by `ReadConfig` to its backend default: agent port 3500;
database port 2379, 2181 or 8500; etcd `SnapshotCount` 100000 and
`QuotaSizeBytes` 8000000000; ZooKeeper `TickTime` 2000, `InitLimit` 5,
`SyncLimit` 5, `SnapCount` 100000 and `MaxClientConnections` 5000. -/
theorem ReadConfig_sets_defaults (readFile : String → Option String) (cfg cfg' : Config)
    (analyze : Bool) (id : String) (e : ConfigClientMachineAgentControl)
    (h : ReadConfig readFile cfg analyze = .ok cfg')
    (he : mapLookup cfg.DatabaseIDToConfigClientMachineAgentControl id = some e) :
    ∃ e', mapLookup cfg'.DatabaseIDToConfigClientMachineAgentControl id = some e' ∧
      ((isEtcdFamily id ∨ id = DatabaseID.zookeeper__r3_5_3_beta.String ∨
          id = DatabaseID.consul__v1_0_2.String) →
        e.AgentPortToConnect = 0 → e'.AgentPortToConnect = 3500) ∧
      (isEtcdFamily id → e.DatabasePortToConnect = 0 → e'.DatabasePortToConnect = 2379) ∧
      (id = DatabaseID.zookeeper__r3_5_3_beta.String →
        e.DatabasePortToConnect = 0 → e'.DatabasePortToConnect = 2181) ∧
      (id = DatabaseID.consul__v1_0_2.String →
        e.DatabasePortToConnect = 0 → e'.DatabasePortToConnect = 8500) ∧
      (id = DatabaseID.etcd__other.String →
        (e.Flag_Etcd_Other.SnapshotCount = 0 → e'.Flag_Etcd_Other.SnapshotCount = 100000) ∧
        (e.Flag_Etcd_Other.QuotaSizeBytes = 0 →
          e'.Flag_Etcd_Other.QuotaSizeBytes = 8000000000)) ∧
      (id = DatabaseID.etcd__tip.String →
        (e.Flag_Etcd_Tip.SnapshotCount = 0 → e'.Flag_Etcd_Tip.SnapshotCount = 100000) ∧
        (e.Flag_Etcd_Tip.QuotaSizeBytes = 0 →
          e'.Flag_Etcd_Tip.QuotaSizeBytes = 8000000000)) ∧
      (id = DatabaseID.etcd__v3_2.String →
        (e.Flag_Etcd_V3_2.SnapshotCount = 0 → e'.Flag_Etcd_V3_2.SnapshotCount = 100000) ∧
        (e.Flag_Etcd_V3_2.QuotaSizeBytes = 0 →
          e'.Flag_Etcd_V3_2.QuotaSizeBytes = 8000000000)) ∧
      (id = DatabaseID.etcd__v3_3.String →
        (e.Flag_Etcd_V3_3.SnapshotCount = 0 → e'.Flag_Etcd_V3_3.SnapshotCount = 100000) ∧
        (e.Flag_Etcd_V3_3.QuotaSizeBytes = 0 →
          e'.Flag_Etcd_V3_3.QuotaSizeBytes = 8000000000)) ∧
      (id = DatabaseID.zookeeper__r3_5_3_beta.String →
        (e.Flag_Zookeeper_R3_5_3Beta.TickTime = 0 →
          e'.Flag_Zookeeper_R3_5_3Beta.TickTime = 2000) ∧
        (e.Flag_Zookeeper_R3_5_3Beta.InitLimit = 0 →
          e'.Flag_Zookeeper_R3_5_3Beta.InitLimit = 5) ∧
        (e.Flag_Zookeeper_R3_5_3Beta.SyncLimit = 0 →
          e'.Flag_Zookeeper_R3_5_3Beta.SyncLimit = 5) ∧
        (e.Flag_Zookeeper_R3_5_3Beta.SnapCount = 0 →
          e'.Flag_Zookeeper_R3_5_3Beta.SnapCount = 100000) ∧
        (e.Flag_Zookeeper_R3_5_3Beta.MaxClientConnections = 0 →
          e'.Flag_Zookeeper_R3_5_3Beta.MaxClientConnections = 5000)) := by
  refine ⟨defaultsFor id (fillGroup id e), ?_, ?_⟩
  · rw [ReadConfig_lookup readFile cfg cfg' analyze h id, he]; rfl
  · rcases defaultsFor_cases id (fillGroup id e) with
      ⟨hk, hd⟩ | ⟨hk, hd⟩ | ⟨hk, hd⟩ | ⟨hk, hd⟩ | ⟨hk, hd⟩ | ⟨hk, hd⟩ | ⟨hk, hd⟩
    · rw [hd, defaultsEtcdOther_eq]; subst hk
      refine ⟨?_, ?_, ?_, ?_, ?_, ?_, ?_, ?_, ?_⟩ <;> intro hid <;>
        (try simp [isEtcdFamily, DatabaseID.String] at hid) <;> (try and_intros) <;>
        intro h0 <;>
        simp [fillGroup, h0, defaultAgentPort,
          defaultEtcdClientPort, defaultZookeeperClientPort, defaultConsulClientPort,
          defaultEtcdSnapshotCount, defaultEtcdQuotaSizeBytes, defaultZookeeperTickTime,
          defaultZookeeperInitLimit, defaultZookeeperSyncLimit, defaultZookeeperSnapCount,
          defaultZookeeperMaxClientConnections]
    · rw [hd, defaultsEtcdTip_eq]; subst hk
      refine ⟨?_, ?_, ?_, ?_, ?_, ?_, ?_, ?_, ?_⟩ <;> intro hid <;>
        (try simp [isEtcdFamily, DatabaseID.String] at hid) <;> (try and_intros) <;>
        intro h0 <;>
        simp [fillGroup, h0, defaultAgentPort,
          defaultEtcdClientPort, defaultZookeeperClientPort, defaultConsulClientPort,
          defaultEtcdSnapshotCount, defaultEtcdQuotaSizeBytes, defaultZookeeperTickTime,
          defaultZookeeperInitLimit, defaultZookeeperSyncLimit, defaultZookeeperSnapCount,
          defaultZookeeperMaxClientConnections]
    · rw [hd, defaultsEtcdV3_2_eq]; subst hk
      refine ⟨?_, ?_, ?_, ?_, ?_, ?_, ?_, ?_, ?_⟩ <;> intro hid <;>
        (try simp [isEtcdFamily, DatabaseID.String] at hid) <;> (try and_intros) <;>
        intro h0 <;>
        simp [fillGroup, h0, defaultAgentPort,
          defaultEtcdClientPort, defaultZookeeperClientPort, defaultConsulClientPort,
          defaultEtcdSnapshotCount, defaultEtcdQuotaSizeBytes, defaultZookeeperTickTime,
          defaultZookeeperInitLimit, defaultZookeeperSyncLimit, defaultZookeeperSnapCount,
          defaultZookeeperMaxClientConnections]
    · rw [hd, defaultsEtcdV3_3_eq]; subst hk
      refine ⟨?_, ?_, ?_, ?_, ?_, ?_, ?_, ?_, ?_⟩ <;> intro hid <;>
        (try simp [isEtcdFamily, DatabaseID.String] at hid) <;> (try and_intros) <;>
        intro h0 <;>
        simp [fillGroup, h0, defaultAgentPort,
          defaultEtcdClientPort, defaultZookeeperClientPort, defaultConsulClientPort,
          defaultEtcdSnapshotCount, defaultEtcdQuotaSizeBytes, defaultZookeeperTickTime,
          defaultZookeeperInitLimit, defaultZookeeperSyncLimit, defaultZookeeperSnapCount,
          defaultZookeeperMaxClientConnections]
    · rw [hd, defaultsZookeeper_eq]; subst hk
      refine ⟨?_, ?_, ?_, ?_, ?_, ?_, ?_, ?_, ?_⟩ <;> intro hid <;>
        (try simp [isEtcdFamily, DatabaseID.String] at hid) <;> (try and_intros) <;>
        intro h0 <;>
        simp [fillGroup, h0, defaultAgentPort,
          defaultEtcdClientPort, defaultZookeeperClientPort, defaultConsulClientPort,
          defaultEtcdSnapshotCount, defaultEtcdQuotaSizeBytes, defaultZookeeperTickTime,
          defaultZookeeperInitLimit, defaultZookeeperSyncLimit, defaultZookeeperSnapCount,
          defaultZookeeperMaxClientConnections]
    · rw [hd, defaultsConsul_eq]; subst hk
      refine ⟨?_, ?_, ?_, ?_, ?_, ?_, ?_, ?_, ?_⟩ <;> intro hid <;>
        (try simp [isEtcdFamily, DatabaseID.String] at hid) <;>
        intro h0 <;>
        simp [fillGroup, h0, defaultAgentPort,
          defaultEtcdClientPort, defaultZookeeperClientPort, defaultConsulClientPort,
          defaultEtcdSnapshotCount, defaultEtcdQuotaSizeBytes, defaultZookeeperTickTime,
          defaultZookeeperInitLimit, defaultZookeeperSyncLimit, defaultZookeeperSnapCount,
          defaultZookeeperMaxClientConnections]
    · obtain ⟨hk1, hk2, hk3⟩ := hk
      simp only [isEtcdFamily, DatabaseID.String, not_or] at hk1
      refine ⟨?_, ?_, ?_, ?_, ?_, ?_, ?_, ?_, ?_⟩ <;> intro hid <;>
        simp_all [DatabaseID.String, isEtcdFamily]

/-- Witness of C8, at an `etcd__v3_3` entry whose fields are all zero. -/
theorem ReadConfig_sets_defaults_witness :
    ∃ e', mapLookup (applyDefaults [("etcd__v3_3", fillGroup "etcd__v3_3" zeroControl)])
        "etcd__v3_3" = some e' ∧
      e'.AgentPortToConnect = 3500 ∧ e'.DatabasePortToConnect = 2379 ∧
      e'.Flag_Etcd_V3_3.SnapshotCount = 100000 ∧
      e'.Flag_Etcd_V3_3.QuotaSizeBytes = 8000000000 := by
  obtain ⟨e', h1, h2, h3, _, _, _, _, _, h4, _⟩ := ReadConfig_sets_defaults noFile
    (configOf [("etcd__v3_3", zeroControl)])
    { configOf [("etcd__v3_3", zeroControl)] with
      DatabaseIDToConfigClientMachineAgentControl :=
        applyDefaults [("etcd__v3_3", fillGroup "etcd__v3_3" zeroControl)] }
    false "etcd__v3_3" zeroControl rfl rfl
  exact ⟨e', h1, h2 (by decide) rfl, h3 (by decide) rfl, (h4 rfl).1 rfl, (h4 rfl).2 rfl⟩

/-- C9, evaluated at an `etcd__tip` entry with one peer IP and the database
port left at zero: the port is defaulted to 2379, but the endpoint was built
before the defaulting and carries port 0. -/
theorem ReadConfig_endpoint_port_zero :
    ∃ cfg' e',
      ReadConfig noFile (configOf [("etcd__tip", controlPeers ["10.0.0.1"] 0)]) false =
        .ok cfg' ∧
      mapLookup cfg'.DatabaseIDToConfigClientMachineAgentControl "etcd__tip" = some e' ∧
      e'.DatabasePortToConnect = 2379 ∧
      e'.DatabaseEndpoints = ["10.0.0.1:0"] :=
  ⟨_, _, rfl, rfl, rfl, by decide⟩

/-- C35: after a successful `ReadConfig`, for an etcd-family ID whose entry left
`QuotaSizeBytes` at zero, `ToRequest` returns a request and no error, the etcd
block of the request carries the quota 8000000000, and it carries the snapshot
count 100000 when that was left at zero too. -/
theorem ReadConfig_default_quota_accepted (readFile : String → Option String)
    (cfg cfg' : Config) (analyze : Bool) (d : DatabaseID) (op : Operation) (idx : Int)
    (e : ConfigClientMachineAgentControl)
    (h : ReadConfig readFile cfg analyze = .ok cfg')
    (he : mapLookup cfg.DatabaseIDToConfigClientMachineAgentControl d.String = some e)
    (hq : quotaFor e d = some 0) :
    ∃ req s, ToRequest cfg' d.String op idx = (some req, none) ∧
      requestFlags req d = some (s, 8000000000) ∧
      (snapshotFor e d = some 0 → s = 100000) := by
  have hl := ReadConfig_lookup readFile cfg cfg' analyze h d.String
  rw [he] at hl
  simp only [Option.map_some'] at hl
  cases d <;> simp only [quotaFor, Option.some.injEq] at hq <;>
    first
    | exact absurd hq (by simp)
    | (simp only [defaultsFor, DatabaseID.String, String.reduceEq, if_true, if_false,
        defaultsEtcdOther_eq, defaultsEtcdTip_eq, defaultsEtcdV3_2_eq, defaultsEtcdV3_3_eq,
        fillGroup, hq] at hl
       simp only [ToRequest, DatabaseID.String, hl, DatabaseID_value, String.reduceEq, if_true,
        if_false, Option.getD_some, maxEtcdQuotaSize, defaultEtcdQuotaSizeBytes]
       rw [if_neg (by decide)]
       refine ⟨_, _, rfl, rfl, ?_⟩
       intro hs
       simp only [snapshotFor, Option.some.injEq] at hs
       simp [hs, defaultEtcdSnapshotCount])

theorem ReadConfig_default_quota_accepted_witness :
    ∃ req s,
      ToRequest
          { configOf [("etcd__v3_3", zeroControl)] with
            DatabaseIDToConfigClientMachineAgentControl :=
              applyDefaults [("etcd__v3_3", fillGroup "etcd__v3_3" zeroControl)] }
          DatabaseID.etcd__v3_3.String .Start 0 = (some req, none) ∧
        requestFlags req .etcd__v3_3 = some (s, 8000000000) ∧
        (snapshotFor zeroControl .etcd__v3_3 = some 0 → s = 100000) :=
  ReadConfig_default_quota_accepted noFile (configOf [("etcd__v3_3", zeroControl)])
    { configOf [("etcd__v3_3", zeroControl)] with
      DatabaseIDToConfigClientMachineAgentControl :=
        applyDefaults [("etcd__v3_3", fillGroup "etcd__v3_3" zeroControl)] }
    false .etcd__v3_3 .Start 0 zeroControl rfl rfl rfl

/-! ## Properties of `MakeTag` -/

theorem replaceFrom_mem (old new : List Char) :
    ∀ (cs : List Char) (skip : Nat) (x : Char), x ∈ replaceFrom old new skip cs →
      x ∈ cs ∨ x ∈ new := by
  intro cs
  induction cs with
  | nil => intro skip x hx; cases skip <;> simp [replaceFrom] at hx
  | cons c cs ih =>
    intro skip x hx
    cases skip with
    | succ k =>
      rw [replaceFrom] at hx
      rcases ih k x hx with h | h
      · exact Or.inl (List.mem_cons_of_mem _ h)
      · exact Or.inr h
    | zero =>
      rw [replaceFrom] at hx
      split_ifs at hx
      · rcases List.mem_append.mp hx with h | h
        · exact Or.inr h
        · rcases ih _ x h with h | h
          · exact Or.inl (List.mem_cons_of_mem _ h)
          · exact Or.inr h
      · rcases List.mem_cons.mp hx with h | h
        · exact Or.inl (h ▸ List.mem_cons_self _ _)
        · rcases ih _ x h with h | h
          · exact Or.inl (List.mem_cons_of_mem _ h)
          · exact Or.inr h

theorem replaceFrom_single_not_mem (c : Char) (new : List Char) (hnew : c ∉ new) :
    ∀ cs : List Char, c ∉ replaceFrom [c] new 0 cs := by
  intro cs
  induction cs with
  | nil => simp [replaceFrom]
  | cons d cs ih =>
    rw [replaceFrom]
    by_cases hd : c = d
    · subst hd
      rw [if_pos (by simp [List.isPrefixOf])]
      intro hx
      rcases List.mem_append.mp hx with h | h
      · exact hnew h
      · exact ih h
    · rw [if_neg (by simp [List.isPrefixOf, hd])]
      intro hx
      rcases List.mem_cons.mp hx with h | h
      · exact hd h
      · exact ih h

theorem replaceFrom_absent (old new : List Char) (x : Char) (hx : x ∈ old) :
    ∀ cs : List Char, x ∉ cs → replaceFrom old new 0 cs = cs := by
  intro cs
  induction cs with
  | nil => intro _; rfl
  | cons d cs ih =>
    intro hn
    have hnp : ¬ old.isPrefixOf (d :: cs) = true := by
      intro hp
      exact hn (List.IsPrefix.mem hx (List.isPrefixOf_iff_prefix.mp hp))
    rw [replaceFrom, if_neg hnp, ih (fun h => hn (List.mem_cons_of_mem _ h))]

theorem MakeTag_data (desc : String) :
    (MakeTag desc).data =
      replaceFrom [' '] ['-'] 0
        (replaceFrom [')'] [] 0
          (replaceFrom ['('] [] 0
            (replaceFrom ['j', 'a', 'v', 'a', ' '] ['j', 'a', 'v', 'a'] 0
              (replaceFrom ['g', 'o', ' '] ['g', 'o'] 0 (desc.data.map Char.toLower))))) :=
  rfl

theorem MakeTag_chars (desc : String) :
    ' ' ∉ (MakeTag desc).data ∧ '(' ∉ (MakeTag desc).data ∧ ')' ∉ (MakeTag desc).data := by
  rw [MakeTag_data]
  refine ⟨replaceFrom_single_not_mem ' ' ['-'] (by decide) _, ?_, ?_⟩
  · intro h
    rcases replaceFrom_mem _ _ _ _ _ h with h | h
    · rcases replaceFrom_mem _ _ _ _ _ h with h | h
      · exact replaceFrom_single_not_mem '(' [] (by decide) _ h
      · simp at h
    · revert h; decide
  · intro h
    rcases replaceFrom_mem _ _ _ _ _ h with h | h
    · exact replaceFrom_single_not_mem ')' [] (by decide) _ h
    · revert h; decide

/-- C37: for every description string the result of `MakeTag` contains no space
and no parenthesis, and `MakeTag "etcd v3.2 (Go 1.8.3)"` is
`"etcd-v3.2-go1.8.3"`. -/
theorem MakeTag_no_space_no_parenthesis (desc : String) :
    ' ' ∉ (MakeTag desc).data ∧ '(' ∉ (MakeTag desc).data ∧ ')' ∉ (MakeTag desc).data ∧
      MakeTag "etcd v3.2 (Go 1.8.3)" = "etcd-v3.2-go1.8.3" :=
  ⟨(MakeTag_chars desc).1, (MakeTag_chars desc).2.1, (MakeTag_chars desc).2.2, by decide⟩

theorem toLower_toLower (c : Char) : c.toLower.toLower = c.toLower := by
  by_cases h : c.toNat ≥ 65 ∧ c.toNat ≤ 90
  · have hc : c = Char.ofNat c.toNat := (Char.ofNat_toNat c).symm
    obtain ⟨h1, h2⟩ := h
    generalize c.toNat = n at hc h1 h2
    subst hc
    interval_cases n <;> decide
  · have : c.toLower = c := by
      unfold Char.toLower
      simp only []
      rw [if_neg h]
    rw [this, this]

theorem MakeTag_lower (desc : String) : ∀ x ∈ (MakeTag desc).data, x.toLower = x := by
  intro x hx
  rw [MakeTag_data] at hx
  have hfix : ∀ y ∈ ['-', 'g', 'o', 'j', 'a', 'v'], y.toLower = y := by decide
  rcases replaceFrom_mem _ _ _ _ _ hx with h | h
  · rcases replaceFrom_mem _ _ _ _ _ h with h | h
    · rcases replaceFrom_mem _ _ _ _ _ h with h | h
      · rcases replaceFrom_mem _ _ _ _ _ h with h | h
        · rcases replaceFrom_mem _ _ _ _ _ h with h | h
          · obtain ⟨c, _, rfl⟩ := List.mem_map.mp h
            exact toLower_toLower c
          · exact hfix x (by simp at h ⊢; tauto)
        · exact hfix x (by simp at h ⊢; tauto)
      · simp at h
    · simp at h
  · exact hfix x (by simp at h ⊢; tauto)

/-- C38: `MakeTag` is idempotent: applied to its own result it returns that
result unchanged, since the result is lower case and holds no space and no
parenthesis. -/
theorem MakeTag_idempotent (s : String) : MakeTag (MakeTag s) = MakeTag s := by
  obtain ⟨h1, h2, h3⟩ := MakeTag_chars s
  have hl : (MakeTag s).data.map Char.toLower = (MakeTag s).data := by
    conv_rhs => rw [← List.map_id (MakeTag s).data]
    exact List.map_congr_left (fun x hx => MakeTag_lower s x hx)
  have hd : (MakeTag (MakeTag s)).data = (MakeTag s).data := by
    rw [MakeTag_data (MakeTag s), hl,
      replaceFrom_absent ['g', 'o', ' '] ['g', 'o'] ' ' (by decide) _ h1,
      replaceFrom_absent ['j', 'a', 'v', 'a', ' '] ['j', 'a', 'v', 'a'] ' ' (by decide) _ h1,
      replaceFrom_absent ['('] [] '(' (by decide) _ h2,
      replaceFrom_absent [')'] [] ')' (by decide) _ h3,
      replaceFrom_absent [' '] ['-'] ' ' (by decide) _ h1]
  exact String.ext hd

/-! ## Properties of the request generators -/

namespace Control

theorem readRequest_isSome (cfg : Config) (key : String) (hk : knownDatabase cfg.Database) :
    (readRequest cfg key).isSome = true := by
  unfold readRequest
  rcases hk with h | h | h | h | h | h <;> simp [h]

theorem writeRequest_isSome (sequentialKey : Int → Int → String) (sameKey : Int → String)
    (cfg : Config) (vals : values) (i : Nat) (hk : knownDatabase cfg.Database) :
    (writeRequest sequentialKey sameKey cfg vals i).isSome = true := by
  unfold writeRequest
  rcases hk with h | h | h | h | h | h <;> simp [h]

theorem readRequest_none (cfg : Config) (key : String) (hk : ¬ knownDatabase cfg.Database) :
    readRequest cfg key = none := by
  simp only [knownDatabase, not_or] at hk
  obtain ⟨h1, h2, h3, h4, h5, h6⟩ := hk
  simp [readRequest, h1, h2, h3, h4, h5, h6]

theorem writeRequest_none (sequentialKey : Int → Int → String) (sameKey : Int → String)
    (cfg : Config) (vals : values) (i : Nat) (hk : ¬ knownDatabase cfg.Database) :
    writeRequest sequentialKey sameKey cfg vals i = none := by
  simp only [knownDatabase, not_or] at hk
  obtain ⟨h1, h2, h3, h4, h5, h6⟩ := hk
  simp [writeRequest, h1, h2, h3, h4, h5, h6]

theorem sentRequests_map_send (reqs : List request) :
    sentRequests (reqs.map ChanEvent.send ++ [ChanEvent.close]) = reqs := by
  induction reqs with
  | nil => rfl
  | cons r rest ih => simp [sentRequests, ih]

theorem filterMap_send (f : Nat → Option request) (l : List Nat) :
    (l.filterMap fun i => (f i).map ChanEvent.send) = (l.filterMap f).map ChanEvent.send := by
  induction l with
  | nil => rfl
  | cons a rest ih =>
    cases h : f a <;> simp [List.filterMap_cons, h, ih]

theorem filterMap_all_some (f : Nat → Option request) (l : List Nat)
    (h : ∀ i ∈ l, (f i).isSome = true) :
    l.filterMap f = l.map fun i => (f i).getD {} := by
  induction l with
  | nil => rfl
  | cons a rest ih =>
    have ha := h a (by simp)
    obtain ⟨r, hr⟩ := Option.isSome_iff_exists.mp ha
    simp [List.filterMap_cons, hr, ih (fun i hi => h i (List.mem_cons_of_mem _ hi))]

theorem generateReads_eq (cfg : Config) (key : String) :
    generateReads cfg key =
      ((List.range cfg.Step2.TotalRequests.toNat).filterMap fun _ =>
        readRequest cfg key).map ChanEvent.send ++ [ChanEvent.close] := by
  unfold generateReads
  rw [filterMap_send (fun _ => readRequest cfg key)]

theorem generateWrites_eq (sequentialKey : Int → Int → String) (sameKey : Int → String)
    (cfg : Config) (vals : values) :
    generateWrites sequentialKey sameKey cfg vals =
      ((List.range cfg.Step2.TotalRequests.toNat).filterMap
        (writeRequest sequentialKey sameKey cfg vals)).map ChanEvent.send ++
        [ChanEvent.close] := by
  unfold generateWrites
  rw [filterMap_send (writeRequest sequentialKey sameKey cfg vals)]

/-- C13, as stated, fails: for a database name that no `switch` case handles,
`generateWrites` and `generateReads` with `TotalRequests = 1` send nothing. -/
theorem generate_unknown_database_sends_nothing :
    (configFor "mysql" 1 false false).Step2.TotalRequests = 1 ∧
    generateWrites sampleSequentialKey sampleSameKey (configFor "mysql" 1 false false)
      sampleValues = [ChanEvent.close] ∧
    generateReads (configFor "mysql" 1 false false) "a" = [ChanEvent.close] := by
  refine ⟨rfl, ?_, ?_⟩ <;> decide

/-- C13, amended: when the database is one of etcdv2, etcdv3, zookeeper, zetcd,
consul and cetcd, `generateReads` and `generateWrites` run with
`TotalRequests = N ≥ 0` send exactly `N` requests and then close the channel
once, after the last send. -/
theorem generate_sends_total_then_closes (sequentialKey : Int → Int → String)
    (sameKey : Int → String) (cfg : Config) (vals : values) (key : String)
    (hk : knownDatabase cfg.Database) (hN : 0 ≤ cfg.Step2.TotalRequests) :
    (∃ reqs : List request, generateReads cfg key = reqs.map ChanEvent.send ++ [ChanEvent.close] ∧
      (reqs.length : Int) = cfg.Step2.TotalRequests) ∧
    (∃ reqs : List request, generateWrites sequentialKey sameKey cfg vals =
        reqs.map ChanEvent.send ++ [ChanEvent.close] ∧
      (reqs.length : Int) = cfg.Step2.TotalRequests) := by
  constructor
  · refine ⟨_, generateReads_eq cfg key, ?_⟩
    rw [filterMap_all_some (fun _ => readRequest cfg key) _
      (fun _ _ => readRequest_isSome cfg key hk)]
    simp [Int.toNat_of_nonneg hN]
  · refine ⟨_, generateWrites_eq sequentialKey sameKey cfg vals, ?_⟩
    rw [filterMap_all_some (writeRequest sequentialKey sameKey cfg vals) _
      (fun i _ => writeRequest_isSome sequentialKey sameKey cfg vals i hk)]
    simp [Int.toNat_of_nonneg hN]

/-- Witness of C13 (amended): three reads and three writes for etcdv3. -/
theorem generate_sends_total_then_closes_witness :
    (∃ reqs : List request, generateReads (configFor "etcdv3" 3 false false) "a" =
        reqs.map ChanEvent.send ++ [ChanEvent.close] ∧ (reqs.length : Int) = 3) ∧
    (∃ reqs : List request, generateWrites sampleSequentialKey sampleSameKey
        (configFor "etcdv3" 3 false false) sampleValues =
        reqs.map ChanEvent.send ++ [ChanEvent.close] ∧ (reqs.length : Int) = 3) :=
  generate_sends_total_then_closes sampleSequentialKey sampleSameKey
    (configFor "etcdv3" 3 false false) sampleValues "a" (by decide) (by decide)

theorem sentRequests_generateWrites (sequentialKey : Int → Int → String)
    (sameKey : Int → String) (cfg : Config) (vals : values) :
    sentRequests (generateWrites sequentialKey sameKey cfg vals) =
      (List.range cfg.Step2.TotalRequests.toNat).filterMap
        (writeRequest sequentialKey sameKey cfg vals) := by
  rw [generateWrites_eq, sentRequests_map_send]

theorem sentRequests_generateReads (cfg : Config) (key : String) :
    sentRequests (generateReads cfg key) =
      (List.range cfg.Step2.TotalRequests.toNat).filterMap fun _ => readRequest cfg key := by
  rw [generateReads_eq, sentRequests_map_send]

/-- C14: in `generateWrites`, for every `i < TotalRequests` the `i`-th request
sent has the key `sequentialKey(KeySize, i)` when `SameKey` is false and
`sameKey(KeySize)` when it is true, with a leading `/` for zookeeper and zetcd;
the requests are sent in increasing index order, and for the handled databases
the `i`-th request exists. -/
theorem generateWrites_keys (sequentialKey : Int → Int → String) (sameKey : Int → String)
    (cfg : Config) (vals : values) (i : Nat) (hi : (i : Int) < cfg.Step2.TotalRequests) :
    (knownDatabase cfg.Database →
      ∃ r, (sentRequests (generateWrites sequentialKey sameKey cfg vals))[i]? = some r) ∧
    ∀ r, (sentRequests (generateWrites sequentialKey sameKey cfg vals))[i]? = some r →
      writeRequest sequentialKey sameKey cfg vals i = some r ∧
      (cfg.Database = "etcdv2" → r.etcdv2Op.key =
        if cfg.Step2.SameKey then sameKey cfg.Step2.KeySize
        else sequentialKey cfg.Step2.KeySize i) ∧
      (cfg.Database = "etcdv3" → ∃ v, r.etcdv3Op = .OpPut
        (if cfg.Step2.SameKey then sameKey cfg.Step2.KeySize
          else sequentialKey cfg.Step2.KeySize i) v) ∧
      (cfg.Database = "zookeeper" ∨ cfg.Database = "zetcd" → r.zkOp.key = "/" ++
        if cfg.Step2.SameKey then sameKey cfg.Step2.KeySize
        else sequentialKey cfg.Step2.KeySize i) ∧
      (cfg.Database = "consul" ∨ cfg.Database = "cetcd" → r.consulOp.key =
        if cfg.Step2.SameKey then sameKey cfg.Step2.KeySize
        else sequentialKey cfg.Step2.KeySize i) := by
  have hlt : i < cfg.Step2.TotalRequests.toNat := by omega
  by_cases hk : knownDatabase cfg.Database
  · have hsent : (sentRequests (generateWrites sequentialKey sameKey cfg vals))[i]? =
        writeRequest sequentialKey sameKey cfg vals i := by
      obtain ⟨r, hr⟩ := Option.isSome_iff_exists.mp
        (writeRequest_isSome sequentialKey sameKey cfg vals i hk)
      rw [sentRequests_generateWrites,
        filterMap_all_some (writeRequest sequentialKey sameKey cfg vals) _
          (fun j _ => writeRequest_isSome sequentialKey sameKey cfg vals j hk)]
      simp [List.getElem?_map, List.getElem?_range hlt, hr]
    refine ⟨fun _ => Option.isSome_iff_exists.mp
      (hsent ▸ writeRequest_isSome sequentialKey sameKey cfg vals i hk), ?_⟩
    intro r hr
    rw [hsent] at hr
    refine ⟨hr, ?_⟩
    unfold writeRequest writeKey at hr
    rcases hk with h | h | h | h | h | h <;>
      simp only [h, String.reduceEq, if_true, if_false, or_true, true_or, or_false, false_or,
        Option.some.injEq] at hr <;>
      subst hr <;> simp [h]
  · refine ⟨fun h => absurd h hk, ?_⟩
    intro r hr
    rw [sentRequests_generateWrites] at hr
    have hmem := List.getElem?_mem hr
    rw [List.mem_filterMap] at hmem
    obtain ⟨j, _, hj⟩ := hmem
    rw [writeRequest_none sequentialKey sameKey cfg vals j hk] at hj
    cases hj

/-- Witness of C14: the second write for zookeeper in sequential mode has the
key `/1`. -/
theorem generateWrites_keys_witness :
    ∃ r, (sentRequests (generateWrites sampleSequentialKey sampleSameKey
        (configFor "zookeeper" 3 false false) sampleValues))[1]? = some r ∧
      r.zkOp.key = "/1" := by
  obtain ⟨r, h1⟩ := (generateWrites_keys sampleSequentialKey sampleSameKey
    (configFor "zookeeper" 3 false false) sampleValues 1 (by decide)).1 (by decide)
  obtain ⟨_, _, _, h2, _⟩ := (generateWrites_keys sampleSequentialKey sampleSameKey
    (configFor "zookeeper" 3 false false) sampleValues 1 (by decide)).2 r h1
  exact ⟨r, h1, h2 (Or.inl rfl)⟩

/-- C15: every request sent by `generateReads` targets the key passed in; for
zookeeper, zetcd, consul and cetcd the operation's `staleRead` flag equals the
configured `StaleRead`, and for etcdv3 the serializable option is added exactly
when `StaleRead` is set. -/
theorem generateReads_requests (cfg : Config) (key : String) (r : request)
    (hr : r ∈ sentRequests (generateReads cfg key)) :
    readRequest cfg key = some r ∧
    (cfg.Database = "etcdv2" → r.etcdv2Op.key = key) ∧
    (cfg.Database = "etcdv3" → r.etcdv3Op = .OpGet key
      ([OpOption.WithRange ""] ++
        if cfg.Step2.StaleRead then [OpOption.WithSerializable] else [])) ∧
    (cfg.Database = "zookeeper" ∨ cfg.Database = "zetcd" →
      r.zkOp.key = key ∧ r.zkOp.staleRead = cfg.Step2.StaleRead) ∧
    (cfg.Database = "consul" ∨ cfg.Database = "cetcd" →
      r.consulOp.key = key ∧ r.consulOp.staleRead = cfg.Step2.StaleRead) := by
  rw [sentRequests_generateReads, List.mem_filterMap] at hr
  obtain ⟨_, _, hreq⟩ := hr
  refine ⟨hreq, ?_⟩
  by_cases hk : knownDatabase cfg.Database
  · unfold readRequest at hreq
    rcases hk with h | h | h | h | h | h <;>
      simp only [h, String.reduceEq, if_true, if_false, or_true, true_or, or_false, false_or,
        Option.some.injEq] at hreq <;>
      subst hreq <;> cases hs : cfg.Step2.StaleRead <;> simp [h]
  · rw [readRequest_none cfg key hk] at hreq
    cases hreq

/-- Witness of C15: a stale read for consul. -/
theorem generateReads_requests_witness :
    ({ consulOp := { key := "a", staleRead := true } } : request).consulOp.key = "a" ∧
    ({ consulOp := { key := "a", staleRead := true } } : request).consulOp.staleRead = true :=
  (generateReads_requests (configFor "consul" 2 false true) "a"
    { consulOp := { key := "a", staleRead := true } } (by decide)).2.2.2.2 (Or.inl rfl)

/-! ## Properties of the seed write -/

theorem retryLoop_all_fail (write : Nat → Option String) (n i : Nat) (err : Option String)
    (h : ∀ j, i ≤ j → j < i + n → (write j).isSome = true) :
    (retryLoop write n i err).1 = i + n ∧ (0 < n → (retryLoop write n i err).2.isSome = true) := by
  induction n generalizing i err with
  | zero => simp [retryLoop]
  | succ n ih =>
    obtain ⟨e, he⟩ := Option.isSome_iff_exists.mp (h i (le_refl _) (by omega))
    simp only [retryLoop, he]
    obtain ⟨h1, h2⟩ := ih (i + 1) (some e) (fun j hj1 hj2 => h j (by omega) (by omega))
    refine ⟨by omega, fun _ => ?_⟩
    cases n with
    | zero => simp [retryLoop]
    | succ m => exact h2 (by omega)

theorem retryLoop_first_success (write : Nat → Option String) (n i k : Nat)
    (err : Option String) (hik : i ≤ k) (hkn : k < i + n) (hk : write k = none)
    (h : ∀ j, i ≤ j → j < k → (write j).isSome = true) :
    retryLoop write n i err = (k + 1, none) := by
  induction n generalizing i err with
  | zero => omega
  | succ n ih =>
    by_cases hi : i = k
    · subst hi
      simp [retryLoop, hk]
    · obtain ⟨e, he⟩ := Option.isSome_iff_exists.mp (h i (le_refl _) (by omega))
      simp only [retryLoop, he]
      exact ih (i + 1) (some e) (by omega) (by omega) (fun j hj1 hj2 => h j (by omega) hj2)

/-- C19: in the read phase, for every backend and every sequence of outcomes of
the seed-write attempts, at most 7 attempts are made, none after the first
success, and the run is fatal exactly when the 7 attempts all fail. -/
theorem readSeedWrite_retries (cfg : Config) (write : Nat → Option String)
    (hk : knownDatabase cfg.Database) :
    (readSeedWrite cfg write).attempts ≤ 7 ∧
    (∀ k, k < 7 → write k = none → (∀ j, j < k → (write j).isSome = true) →
      (readSeedWrite cfg write).attempts = k + 1 ∧ (readSeedWrite cfg write).fatal = false) ∧
    ((∀ j, j < 7 → (write j).isSome = true) → (readSeedWrite cfg write).attempts = 7) ∧
    ((readSeedWrite cfg write).fatal = true ↔ ∀ j, j < 7 → (write j).isSome = true) := by
  have hdb : cfg.Database = "etcdv2" ∨ cfg.Database = "etcdv3" ∨
      (cfg.Database = "zookeeper" ∨ cfg.Database = "zetcd") ∨
      (cfg.Database = "consul" ∨ cfg.Database = "cetcd") := by
    rcases hk with h | h | h | h | h | h <;> simp [h]
  have hfirst : ∀ k, k < 7 → write k = none → (∀ j, j < k → (write j).isSome = true) →
      retryLoop write 7 0 none = (k + 1, none) := fun k hk7 hw hj =>
    retryLoop_first_success write 7 0 k none (Nat.zero_le _) (by omega) hw (fun j _ hjk => hj j hjk)
  have hall : (∀ j, j < 7 → (write j).isSome = true) →
      (retryLoop write 7 0 none).1 = 7 ∧ (retryLoop write 7 0 none).2.isSome = true := by
    intro h
    obtain ⟨h1, h2⟩ := retryLoop_all_fail write 7 0 none (fun j _ hj => h j (by omega))
    exact ⟨by omega, h2 (by omega)⟩
  simp only [readSeedWrite, hdb, if_true]
  by_cases hex : ∃ k, k < 7 ∧ write k = none
  · classical
    have hmin := Nat.find_spec hex
    have hlt : ∀ j, j < Nat.find hex → (write j).isSome = true := by
      intro j hj
      have := Nat.find_min hex hj
      cases hw : write j with
      | none => exact absurd ⟨by omega, hw⟩ this
      | some e => rfl
    have hrun := hfirst _ hmin.1 hmin.2 hlt
    refine ⟨by rw [hrun]; omega, ?_, ?_, ?_⟩
    · intro k hk7 hw hj
      rw [hfirst k hk7 hw hj]
      exact ⟨rfl, rfl⟩
    · intro h
      have := h _ hmin.1
      rw [hmin.2] at this; cases this
    · rw [hrun]
      constructor
      · intro h; cases h
      · intro h
        have := h _ hmin.1
        rw [hmin.2] at this; cases this
  · have hfail : ∀ j, j < 7 → (write j).isSome = true := by
      intro j hj
      cases hw : write j with
      | none => exact absurd ⟨j, hj, hw⟩ hex
      | some e => rfl
    obtain ⟨h1, h2⟩ := hall hfail
    refine ⟨by omega, ?_, fun _ => h1, ?_⟩
    · intro k hk7 hw _
      exact absurd ⟨k, hk7, hw⟩ hex
    · exact ⟨fun _ => hfail, fun _ => h2⟩

/-- Witness of C19: a seed write that fails once is attempted twice and is not
fatal. -/
theorem readSeedWrite_retries_witness :
    (readSeedWrite (configFor "etcdv3" 1 false false) failsOnce).attempts = 2 ∧
    (readSeedWrite (configFor "etcdv3" 1 false false) failsOnce).fatal = false :=
  (readSeedWrite_retries (configFor "etcdv3" 1 false false) failsOnce (by decide)).2.1
    1 (by decide) rfl (by decide)

/-- C20, evaluated at a seed write that fails on its first attempt and would
succeed on the second: the read-oneshot phase makes one attempt and exits as
fatal, while the read phase makes a second attempt and goes on. -/
theorem readOneshotSeedWrite_no_retry :
    readOneshotSeedWrite (configFor "etcdv3" 1 false false) failsOnce =
      { attempts := 1, fatal := true } ∧
    failsOnce 1 = none ∧
    readSeedWrite (configFor "etcdv3" 1 false false) failsOnce =
      { attempts := 2, fatal := false } := by
  decide

/-- In the read-oneshot phase the seed write is attempted exactly once, without
retry, and the run is fatal exactly when that attempt fails. -/
theorem readOneshotSeedWrite_once (cfg : Config) (write : Nat → Option String)
    (hk : knownDatabase cfg.Database) :
    (readOneshotSeedWrite cfg write).attempts = 1 ∧
    ((readOneshotSeedWrite cfg write).fatal = true ↔ (write 0).isSome = true) := by
  have hdb : cfg.Database = "etcdv2" ∨ cfg.Database = "etcdv3" ∨
      (cfg.Database = "zookeeper" ∨ cfg.Database = "zetcd") ∨
      (cfg.Database = "consul" ∨ cfg.Database = "cetcd") := by
    rcases hk with h | h | h | h | h | h <;> simp [h]
  simp [readOneshotSeedWrite, hdb]

/-- The read-oneshot seed write at a write whose first attempt fails. -/
theorem readOneshotSeedWrite_once_witness :
    (readOneshotSeedWrite (configFor "consul" 1 false false) failsOnce).attempts = 1 ∧
    ((readOneshotSeedWrite (configFor "consul" 1 false false) failsOnce).fatal = true ↔
      (failsOnce 0).isSome = true) :=
  readOneshotSeedWrite_once (configFor "consul" 1 false false) failsOnce (by decide)

/-! ## Properties of the reports -/

/-- C18, evaluated at a `Stats` with 2 requests per second: the
`REQUESTS-PER-SECOND` column holds 2000, a thousand times the value that
`printStats` prints for the same `Stats`. -/
theorem summary_RPS_times_1000 :
    columnValue (saveDataLatencyDistributionSummary { statsOfLats [] with RPS := 2 })
      "REQUESTS-PER-SECOND" = some 2000 ∧
    printStatsRPS { statsOfLats [] with RPS := 2 } = 2 := by
  constructor
  · simp [columnValue, saveDataLatencyDistributionSummary, statsOfLats, List.find?]
    norm_num
  · rfl

theorem wrapInt64_add_sub (x : Int) (h0 : -(2 ^ 63) ≤ x) (h1 : x < 2 ^ 63) :
    wrapInt64 (wrapInt64 (x + 10) - 10) = x := by
  unfold wrapInt64; omega

theorem emitRows_step (rm : Int → Option Int) (max : Int) (fuel : Nat) (cur : Int) :
    emitRows rm max (fuel + 1) cur =
      if wrapInt64 (wrapInt64 (cur + 10) - 10) = max then some [(cur, (rm cur).getD 0)]
      else (emitRows rm max fuel (wrapInt64 (cur + 10))).map
        fun rows => (cur, (rm cur).getD 0) :: rows := by
  simp only [emitRows]
  cases rm cur <;> rfl

theorem emitRows_rows (rm : Int → Option Int) (max : Int) (hmax : max < 2 ^ 63) :
    ∀ (n : Nat) (cur : Int) (fuel : Nat), -(2 ^ 63) ≤ cur → cur + 10 * n = max →
      n + 1 ≤ fuel →
      emitRows rm max fuel cur =
        some ((List.range (n + 1)).map fun k : Nat =>
          (cur + 10 * k, (rm (cur + 10 * k)).getD 0)) := by
  intro n
  induction n with
  | zero =>
    intro cur fuel hcur hn hfuel
    obtain ⟨f, rfl⟩ : ∃ f, fuel = f + 1 := ⟨fuel - 1, by omega⟩
    have hc : cur = max := by simpa using hn
    subst hc
    rw [emitRows_step, wrapInt64_add_sub cur hcur hmax, if_pos rfl]
    simp [List.range_succ]
  | succ n ih =>
    intro cur fuel hcur hn hfuel
    obtain ⟨f, rfl⟩ : ∃ f, fuel = f + 1 := ⟨fuel - 1, by omega⟩
    have hlt : cur + 10 < 2 ^ 63 := by push_cast at hn; omega
    have hne : cur ≠ max := by push_cast at hn; omega
    have hw : wrapInt64 (cur + 10) = cur + 10 := wrapInt64_of_range _ (by omega) hlt
    have hrec := ih (cur + 10) f (by omega) (by push_cast at hn ⊢; omega) (by omega)
    rw [emitRows_step, wrapInt64_add_sub cur hcur (by omega), if_neg hne, hw, hrec,
      Option.map_some', List.range_succ_eq_map (n + 1)]
    simp only [List.map_cons, List.map_map, Option.some.injEq, List.cons.injEq]
    refine ⟨by simp, ?_⟩
    apply List.map_congr_left
    intro k _
    simp only [Function.comp, Nat.succ_eq_add_one]
    push_cast
    have : cur + 10 + 10 * (k : Int) = cur + 10 * ((k : Int) + 1) := by ring
    rw [this]

theorem emitRows_odd (rm : Int → Option Int) :
    ∀ (fuel : Nat) (cur : Int), cur % 2 = 1 → emitRows rm (-100000) fuel cur = none := by
  intro fuel
  induction fuel with
  | zero => intro cur _; rfl
  | succ f ih =>
    intro cur hodd
    have h1 : wrapInt64 (cur + 10) % 2 = 1 := by unfold wrapInt64; omega
    have h2 : wrapInt64 (wrapInt64 (cur + 10) - 10) ≠ -100000 := by
      unfold wrapInt64; omega
    rw [emitRows_step, if_neg h2, ih _ h1]
    rfl

theorem Buckets.add_rm (b : Buckets) (v k : Int) :
    (b.add v).rm k = if k = v then some ((b.rm v).getD 0 + 1) else b.rm k := by
  unfold Buckets.add
  cases h : b.rm v <;> simp

theorem foldl_add_rm (vs : List Int) (b : Buckets) (k : Int) :
    (vs.foldl Buckets.add b).rm k =
      if vs.count k = 0 then b.rm k else some ((b.rm k).getD 0 + (vs.count k : Int)) := by
  induction vs generalizing b with
  | nil => simp
  | cons v rest ih =>
    rw [List.foldl_cons, ih, Buckets.add_rm]
    by_cases hkv : k = v
    · subst hkv
      simp only [if_true, List.count_cons_self, Nat.add_one_ne_zero, if_false, Option.getD_some]
      by_cases hc : rest.count k = 0
      · simp [hc]
      · simp only [hc, if_false, Option.some.injEq]
        push_cast
        ring
    · have hvk : ¬ (v == k) = true := by simpa using fun e : v = k => hkv e.symm
      simp [hkv, List.count_cons, hvk]

theorem foldl_add_min (vs : List Int) (b : Buckets) :
    (vs.foldl Buckets.add b).min ≤ b.min ∧
    (∀ v ∈ vs, (vs.foldl Buckets.add b).min ≤ v) ∧
    ((vs.foldl Buckets.add b).min = b.min ∨ (vs.foldl Buckets.add b).min ∈ vs) := by
  induction vs generalizing b with
  | nil => simp
  | cons v rest ih =>
    obtain ⟨h1, h2, h3⟩ := ih (b.add v)
    have hmin : (b.add v).min = if b.min > v then v else b.min := rfl
    rw [List.foldl_cons]
    refine ⟨?_, ?_, ?_⟩
    · rw [hmin] at h1; split_ifs at h1 <;> omega
    · intro w hw
      rcases List.mem_cons.mp hw with rfl | hw
      · rw [hmin] at h1; split_ifs at h1 <;> omega
      · exact h2 w hw
    · rcases h3 with h3 | h3
      · rw [hmin] at h3
        split_ifs at h3
        · exact Or.inr (by rw [h3]; exact List.mem_cons_self _ _)
        · exact Or.inl h3
      · exact Or.inr (List.mem_cons_of_mem _ h3)

theorem foldl_add_max (vs : List Int) (b : Buckets) :
    b.max ≤ (vs.foldl Buckets.add b).max ∧
    (∀ v ∈ vs, v ≤ (vs.foldl Buckets.add b).max) ∧
    ((vs.foldl Buckets.add b).max = b.max ∨ (vs.foldl Buckets.add b).max ∈ vs) := by
  induction vs generalizing b with
  | nil => simp
  | cons v rest ih =>
    obtain ⟨h1, h2, h3⟩ := ih (b.add v)
    have hmax : (b.add v).max = if b.max < v then v else b.max := rfl
    rw [List.foldl_cons]
    refine ⟨?_, ?_, ?_⟩
    · rw [hmax] at h1; split_ifs at h1 <;> omega
    · intro w hw
      rcases List.mem_cons.mp hw with rfl | hw
      · rw [hmax] at h1; split_ifs at h1 <;> omega
      · exact h2 w hw
    · rcases h3 with h3 | h3
      · rw [hmax] at h3
        split_ifs at h3
        · exact Or.inr (by rw [h3]; exact List.mem_cons_self _ _)
        · exact Or.inl h3
      · exact Or.inr (List.mem_cons_of_mem _ h3)

theorem collectBuckets_eq (bucket : ℚ → Int) (lats : List ℚ) :
    collectBuckets bucket lats = (lats.map bucket).foldl Buckets.add Buckets.init := by
  unfold collectBuckets
  rw [List.foldl_map]

/-- C16, evaluated at the empty latency list: whatever the fuel, the row loop of
`saveDataLatencyDistributionAll` has not left, so no histogram is produced.  The
label starts at `math.MaxInt64`, which is odd, moves in steps of 10 with
wrap-around and never meets the even `max = -100000`. -/
theorem saveDataLatencyDistributionAll_empty_diverges (bucket : ℚ → Int) (fuel : Nat) :
    saveDataLatencyDistributionAll bucket fuel (statsOfLats []) = none := by
  have h : (2 ^ 63 - 1 : Int) % 2 = 1 := by decide
  exact emitRows_odd _ fuel _ h

theorem collectBuckets_min_max (bucket : ℚ → Int) (lats : List ℚ) (lo hi : Int)
    (hrange : ∀ l ∈ lats, -100000 ≤ bucket l ∧ bucket l < 2 ^ 63)
    (hlo : lo ∈ lats.map bucket) (hlo' : ∀ l ∈ lats, lo ≤ bucket l)
    (hhi : hi ∈ lats.map bucket) (hhi' : ∀ l ∈ lats, bucket l ≤ hi) :
    (collectBuckets bucket lats).min = lo ∧ (collectBuckets bucket lats).max = hi := by
  obtain ⟨llo, hllo, rfl⟩ := List.mem_map.mp hlo
  obtain ⟨lhi, hlhi, rfl⟩ := List.mem_map.mp hhi
  have hvs : ∀ v ∈ lats.map bucket, bucket llo ≤ v ∧ v ≤ bucket lhi := by
    intro v hv
    obtain ⟨l, hl, rfl⟩ := List.mem_map.mp hv
    exact ⟨hlo' l hl, hhi' l hl⟩
  obtain ⟨_, m2, m3⟩ := foldl_add_min (lats.map bucket) Buckets.init
  obtain ⟨_, x2, x3⟩ := foldl_add_max (lats.map bucket) Buckets.init
  have hinit_min : Buckets.init.min = 2 ^ 63 - 1 := rfl
  have hinit_max : Buckets.init.max = -100000 := rfl
  rw [collectBuckets_eq]
  constructor
  · have hle := m2 _ hlo
    rcases m3 with h | h
    · rw [hinit_min] at h
      have := (hrange llo hllo).2
      omega
    · have := (hvs _ h).1
      omega
  · have hge := x2 _ hhi
    rcases x3 with h | h
    · rw [hinit_max] at h
      have := (hrange lhi hlhi).1
      omega
    · have := (hvs _ h).2
      omega

theorem collectBuckets_count (bucket : ℚ → Int) (lats : List ℚ) (k : Int) :
    ((collectBuckets bucket lats).rm k).getD 0 = ((lats.map bucket).count k : Int) := by
  rw [collectBuckets_eq, foldl_add_rm]
  by_cases hc : (lats.map bucket).count k = 0
  · simp [hc, Buckets.init]
  · simp [hc, Buckets.init]

theorem span_eq (lo hi : Int) (hle : lo ≤ hi) (hdvd : (10 : Int) ∣ hi - lo) :
    lo + 10 * (((hi - lo) / 10).toNat : Int) = hi := by
  rw [Int.toNat_of_nonneg (Int.ediv_nonneg (by omega) (by omega)), Int.mul_ediv_cancel' hdvd]
  ring

/-- C17: for a non-empty latency list whose buckets are multiples of 10, lie in
the `int64` range and are at least -100000, with smallest bucket `lo` and
largest bucket `hi`, the histogram rows are labelled `lo, lo+10, ..., hi` in
that order, `(hi-lo)/10 + 1` rows, and the count of each row is the number of
latencies in that bucket, 0 for a bucket without latency. -/
theorem saveDataLatencyDistributionAll_rows (bucket : ℚ → Int) (st : Stats) (lo hi : Int)
    (fuel : Nat)
    (h10 : ∀ l ∈ st.Lats, 10 ∣ bucket l)
    (hrange : ∀ l ∈ st.Lats, -100000 ≤ bucket l ∧ bucket l < 2 ^ 63)
    (hlo : lo ∈ st.Lats.map bucket) (hlo' : ∀ l ∈ st.Lats, lo ≤ bucket l)
    (hhi : hi ∈ st.Lats.map bucket) (hhi' : ∀ l ∈ st.Lats, bucket l ≤ hi)
    (hfuel : ((hi - lo) / 10).toNat + 1 ≤ fuel) :
    saveDataLatencyDistributionAll bucket fuel st =
      some ((List.range (((hi - lo) / 10).toNat + 1)).map fun k : Nat =>
        (lo + 10 * k, ((st.Lats.map bucket).count (lo + 10 * k) : Int))) := by
  obtain ⟨hmin, hmax⟩ := collectBuckets_min_max bucket st.Lats lo hi hrange hlo hlo' hhi hhi'
  obtain ⟨llo, hllo, hllo'⟩ := List.mem_map.mp hlo
  obtain ⟨lhi, hlhi, hlhi'⟩ := List.mem_map.mp hhi
  have hle : lo ≤ hi := by rw [← hllo']; exact hhi' llo hllo
  have hdvd : (10 : Int) ∣ hi - lo := by
    rw [← hllo', ← hlhi']
    exact dvd_sub (h10 lhi hlhi) (h10 llo hllo)
  have hlo_range : -(2 ^ 63) ≤ lo := by
    have := (hrange llo hllo).1
    omega
  have hhi_range : hi < 2 ^ 63 := by rw [← hlhi']; exact (hrange lhi hlhi).2
  unfold saveDataLatencyDistributionAll
  simp only [hmin, hmax]
  rw [emitRows_rows _ _ hhi_range _ _ fuel hlo_range (span_eq lo hi hle hdvd) hfuel]
  congr 1
  apply List.map_congr_left
  intro k _
  rw [collectBuckets_count]

/-- Witness of C17: the buckets 120, 100, 120 give the rows 100, 110 and 120
with the counts 1, 0 and 2. -/
theorem saveDataLatencyDistributionAll_rows_witness :
    saveDataLatencyDistributionAll (fun lt => (lt * 100).floor * 10) 3
        (statsOfLats [125 / 1000, 1 / 10, 12 / 100]) =
      some [(100, 1), (110, 0), (120, 2)] := by
  have h := saveDataLatencyDistributionAll_rows (fun lt => (lt * 100).floor * 10)
    (statsOfLats [125 / 1000, 1 / 10, 12 / 100]) 100 120 3
    (by intro l _; exact Dvd.intro_left _ rfl)
    (by
      intro l hl
      simp only [statsOfLats, List.mem_cons, List.mem_singleton, List.not_mem_nil,
        or_false] at hl
      rcases hl with rfl | rfl | rfl <;> norm_num [Rat.floor_def'])
    (by norm_num [statsOfLats, Rat.floor_def'])
    (by
      intro l hl
      simp only [statsOfLats, List.mem_cons, List.mem_singleton, List.not_mem_nil,
        or_false] at hl
      rcases hl with rfl | rfl | rfl <;> norm_num [Rat.floor_def'])
    (by norm_num [statsOfLats, Rat.floor_def'])
    (by
      intro l hl
      simp only [statsOfLats, List.mem_cons, List.mem_singleton, List.not_mem_nil,
        or_false] at hl
      rcases hl with rfl | rfl | rfl <;> norm_num [Rat.floor_def'])
    (by decide)
  rw [h]
  norm_num [statsOfLats, Rat.floor_def']
  decide

theorem sum_indicator_range (k0 m : Nat) :
    ((List.range m).map fun k : Nat => if k = k0 then (1 : Int) else 0).sum =
      if k0 < m then 1 else 0 := by
  induction m with
  | zero => simp
  | succ m ih =>
    rw [List.range_succ, List.map_append, List.sum_append, ih]
    by_cases h1 : k0 < m
    · have : m ≠ k0 := by omega
      simp [h1, this, Nat.lt_succ_of_lt h1]
    · by_cases h2 : m = k0
      · subst h2; simp
      · have : ¬ k0 < m + 1 := by omega
        simp [h1, h2, this]

theorem sum_count_range (lo : Int) (m : Nat) (vs : List Int)
    (h : ∀ v ∈ vs, ∃ k : Nat, k < m ∧ v = lo + 10 * k) :
    ((List.range m).map fun k : Nat => (vs.count (lo + 10 * k) : Int)).sum = vs.length := by
  induction vs with
  | nil => simp
  | cons v rest ih =>
    obtain ⟨k0, hk0, rfl⟩ := h _ (List.mem_cons_self _ _)
    have hrest := ih (fun w hw => h w (List.mem_cons_of_mem _ hw))
    have hsplit : ∀ k : Nat, (((lo + 10 * (k0 : Int)) :: rest).count (lo + 10 * k) : Int) =
        (rest.count (lo + 10 * k) : Int) + if k = k0 then 1 else 0 := by
      intro k
      rw [List.count_cons]
      by_cases hk : k = k0
      · subst hk; simp
      · have : ¬ (lo + 10 * (k0 : Int) = lo + 10 * (k : Int)) := by omega
        simp [hk, this]
    simp only [hsplit, List.sum_map_add, hrest, sum_indicator_range, hk0, if_true,
      List.length_cons]
    push_cast
    ring

/-- For a non-empty latency list (under the conditions of the row theorem) the
histogram is produced and its `COUNT` column sums to the number of latencies. -/
theorem saveDataLatencyDistributionAll_count_sum (bucket : ℚ → Int) (st : Stats) (lo hi : Int)
    (fuel : Nat)
    (h10 : ∀ l ∈ st.Lats, 10 ∣ bucket l)
    (hrange : ∀ l ∈ st.Lats, -100000 ≤ bucket l ∧ bucket l < 2 ^ 63)
    (hlo : lo ∈ st.Lats.map bucket) (hlo' : ∀ l ∈ st.Lats, lo ≤ bucket l)
    (hhi : hi ∈ st.Lats.map bucket) (hhi' : ∀ l ∈ st.Lats, bucket l ≤ hi)
    (hfuel : ((hi - lo) / 10).toNat + 1 ≤ fuel) :
    ∃ rows, saveDataLatencyDistributionAll bucket fuel st = some rows ∧
      (rows.map Prod.snd).sum = st.Lats.length := by
  obtain ⟨hmin, hmax⟩ := collectBuckets_min_max bucket st.Lats lo hi hrange hlo hlo' hhi hhi'
  obtain ⟨llo, hllo, hllo'⟩ := List.mem_map.mp hlo
  obtain ⟨lhi, hlhi, hlhi'⟩ := List.mem_map.mp hhi
  have hle : lo ≤ hi := by rw [← hllo']; exact hhi' llo hllo
  have hdvd : (10 : Int) ∣ hi - lo := by
    rw [← hllo', ← hlhi']
    exact dvd_sub (h10 lhi hlhi) (h10 llo hllo)
  have hlo_range : -(2 ^ 63) ≤ lo := by
    have := (hrange llo hllo).1
    omega
  have hhi_range : hi < 2 ^ 63 := by rw [← hlhi']; exact (hrange lhi hlhi).2
  have hspan := span_eq lo hi hle hdvd
  refine ⟨(List.range (((hi - lo) / 10).toNat + 1)).map fun k : Nat =>
    (lo + 10 * k, ((collectBuckets bucket st.Lats).rm (lo + 10 * k)).getD 0), ?_, ?_⟩
  · unfold saveDataLatencyDistributionAll
    simp only [hmin, hmax]
    exact emitRows_rows _ _ hhi_range _ _ fuel hlo_range hspan hfuel
  · simp only [List.map_map, Function.comp, collectBuckets_count]
    have hall : ∀ v ∈ st.Lats.map bucket,
        ∃ k : Nat, k < ((hi - lo) / 10).toNat + 1 ∧ v = lo + 10 * k := by
      intro v hv
      obtain ⟨l, hl, rfl⟩ := List.mem_map.mp hv
      have h1 := hlo' l hl
      have h2 := hhi' l hl
      have hd : (10 : Int) ∣ bucket l - lo := by
        rw [← hllo']
        exact dvd_sub (h10 l hl) (h10 llo hllo)
      have hv := span_eq lo (bucket l) h1 hd
      refine ⟨((bucket l - lo) / 10).toNat, ?_, hv.symm⟩
      omega
    have hsum := sum_count_range lo _ _ hall
    rw [List.length_map] at hsum
    exact hsum

/-! ## Properties of the write phase -/

theorem newWriteHandlers_ok (cfg : Config) (call : Nat) (hc : 0 ≤ cfg.Step2.Clients) :
    newWriteHandlers cfg call =
      some ({ call := call, len := cfg.Step2.Clients },
        if cfg.Database = "etcdv3" ∨ cfg.Database = "zookeeper" ∨ cfg.Database = "zetcd" then
          some call
        else none) := by
  unfold newWriteHandlers
  rw [if_neg (by omega)]

theorem makeChan_ok (n : Int) (hn : 0 ≤ n) : makeChan n = some { capacity := n, queue := [] } := by
  unfold makeChan
  rw [if_neg (by omega)]

/-- C21: in the elastic write phase with `TotalRequests > 0` the loop condition
`reqCompleted >= cfg.Step2.TotalRequests` is false at the first test, so the
phase starts no batch at all: it builds the first handler set, calls
`finishReports` and blocks there, `b.reportDone` being nil. -/
theorem writePhase_elastic_runs_no_batch (gen : Config → List ChanEvent)
    (rh : request → Option String) (bcastReq : Nat → Option String) (cfg : Config)
    (fuel : Nat) (hmax : cfg.Step2.ConnectionsClientsMax ≠ 0)
    (hT : 0 < cfg.Step2.TotalRequests) (hc : 0 ≤ cfg.Step2.Clients) :
    (writePhase gen rh bcastReq cfg (fuel + 1)).map (fun r => (r.trace, r.outcome)) =
      some ([.newWriteHandlers 0 cfg.Step2.Clients, .finishReports], .blocked) := by
  have hc1 : ¬ cfg.Step2.Clients < 0 := by omega
  have hT1 : ¬ cfg.Step2.TotalRequests ≤ 0 := by omega
  simp [writePhase, hmax, newWriteHandlers, newBenchmark, makeChan, hc1, elasticLoop, hT1,
    benchmark.finishReports, Run.after]

theorem writePhase_elastic_runs_no_batch_witness :
    (writePhase (fun _ => []) (fun _ => none) (fun _ => none)
        (elasticConfig "etcdv3" 300000 50 50 200) 4).map (fun r => (r.trace, r.outcome)) =
      some ([.newWriteHandlers 0 50, .finishReports], .blocked) :=
  writePhase_elastic_runs_no_batch _ _ _ (elasticConfig "etcdv3" 300000 50 50 200) 3
    (by decide) (by decide) (by decide)

/-- C22, amended: with `ConnectionsClientsMax = 0` and a non-negative `Clients`
the write phase is one session: one handler set, one `startRequests` whose generator runs on the configured
`TotalRequests`, the teardown of that set if it has one, and one
`finishReports`; no `bcastReq` and no `reset`.  For a handled database, at least
one client and `TotalRequests = 100000` the generator sends 100000 requests,
all of them recorded, and the bar reaches 100000. -/
theorem writePhase_single_session (sequentialKey : Int → Int → String)
    (sameKey : Int → String) (vals : values) (rh : request → Option String)
    (bcastReq : Nat → Option String) (cfg : Config) (fuel : Nat)
    (hmax : cfg.Step2.ConnectionsClientsMax = 0) (hc : 0 ≤ cfg.Step2.Clients) :
    ∃ r, writePhase (fun c => generateWrites sequentialKey sameKey c vals) rh bcastReq cfg
        fuel = some r ∧
      r.outcome = .returned none ∧
      r.trace = [.newWriteHandlers 0 cfg.Step2.Clients,
          .startRequests 0 cfg.Step2.Clients cfg.Step2.TotalRequests] ++
        (if cfg.Database = "etcdv3" ∨ cfg.Database = "zookeeper" ∨ cfg.Database = "zetcd"
          then [.reqDone 0] else []) ++ [.finishReports] ∧
      (knownDatabase cfg.Database → cfg.Step2.TotalRequests = 100000 →
        (sentRequests (generateWrites sequentialKey sameKey cfg vals)).length = 100000 ∧
        (0 < cfg.Step2.Clients →
          ∃ b, r.session = some b ∧ b.report.length = 100000 ∧ b.stats = some b.report ∧
            b.bar.current = 100000)) := by
  have hc1 : ¬ cfg.Step2.Clients < 0 := by omega
  have hlen : knownDatabase cfg.Database → cfg.Step2.TotalRequests = 100000 →
      (sentRequests (generateWrites sequentialKey sameKey cfg vals)).length = 100000 := by
    intro hk hT
    rw [sentRequests_generateWrites, filterMap_all_some]
    · simp [hT]
    · intro i _
      exact writeRequest_isSome sequentialKey sameKey cfg vals i hk
  by_cases hdone : cfg.Database = "etcdv3" ∨ cfg.Database = "zookeeper" ∨
      cfg.Database = "zetcd"
  · refine ⟨_, by simp only [writePhase, hmax, if_true, newWriteHandlers, hc1, if_false, hdone,
      generateReport, newBenchmark, makeChan, Option.map_some', benchmark.startRequests,
      benchmark.waitRequestsEnd, benchmark.finishReports, Run.after]; rfl, ?_, ?_, ?_⟩
    · rfl
    · simp [hdone]
    · intro hk hT
      refine ⟨hlen hk hT, fun hpos => ⟨_, rfl, ?_, ?_, ?_⟩⟩
      · simp [batchResults, not_le.mpr hpos, hlen hk hT]
      · simp
      · simp [batchResults, not_le.mpr hpos, hlen hk hT, wrapInt64]
  · refine ⟨_, by simp only [writePhase, hmax, if_true, newWriteHandlers, hc1, if_false, hdone,
      generateReport, newBenchmark, makeChan, Option.map_some', benchmark.startRequests,
      benchmark.waitRequestsEnd, benchmark.finishReports, Run.after]; rfl, ?_, ?_, ?_⟩
    · rfl
    · simp [hdone]
    · intro hk hT
      refine ⟨hlen hk hT, fun hpos => ⟨_, rfl, ?_, ?_, ?_⟩⟩
      · simp [batchResults, not_le.mpr hpos, hlen hk hT]
      · simp
      · simp [batchResults, not_le.mpr hpos, hlen hk hT, wrapInt64]

/-- C24: `reset` with a non-negative `clientsN` replaces the handler set, the
teardown callback, the generator and the in-flight channel, which becomes a
fresh empty channel of capacity `clientsN`, and leaves the aggregator with its
recorded results, the stats, the progress bar, the stored configuration and
`reportDone` as they were. -/
theorem reset_frame (b : benchmark) (clientsN : Int) (reqHandlers : Handlers)
    (reqDone : Option Nat) (reqGen : Config) (hn : 0 ≤ clientsN) :
    ∃ b1, b.reset clientsN reqHandlers reqDone reqGen = some b1 ∧
      b1.reqHandlers = reqHandlers ∧ b1.reqDone = reqDone ∧ b1.reqGen = reqGen ∧
      b1.inflightReqs = { capacity := clientsN, queue := [] } ∧
      b1.report = b.report ∧ b1.stats = b.stats ∧ b1.bar = b.bar ∧ b1.cfg = b.cfg ∧
      b1.reportDone = b.reportDone := by
  refine ⟨_, by unfold benchmark.reset; rw [makeChan_ok _ hn]; rfl, ?_⟩
  simp

theorem reset_frame_witness :
    ∃ b1, sampleBenchmark.reset 100 { call := 1, len := 100 } (some 1)
        (elasticConfig "etcdv3" 100000 100 50 200) = some b1 ∧
      b1.reqHandlers = { call := 1, len := 100 } ∧ b1.reqDone = some 1 ∧
      b1.reqGen = elasticConfig "etcdv3" 100000 100 50 200 ∧
      b1.inflightReqs = { capacity := 100, queue := [] } ∧
      b1.report = sampleBenchmark.report ∧ b1.stats = sampleBenchmark.stats ∧
      b1.bar = sampleBenchmark.bar ∧ b1.cfg = sampleBenchmark.cfg ∧
      b1.reportDone = sampleBenchmark.reportDone :=
  reset_frame sampleBenchmark 100 { call := 1, len := 100 } (some 1)
    (elasticConfig "etcdv3" 100000 100 50 200) (by decide)

theorem writePhase_single_session_witness :
    ∃ r, writePhase (fun c => generateWrites sampleSequentialKey sampleSameKey c sampleValues)
        (fun _ => none) (fun _ => none) (elasticConfig "etcdv3" 100000 50 50 0) 0 = some r ∧
      r.outcome = .returned none ∧
      r.trace = [.newWriteHandlers 0 50, .startRequests 0 50 100000] ++
        (if ("etcdv3" : String) = "etcdv3" ∨ ("etcdv3" : String) = "zookeeper" ∨
            ("etcdv3" : String) = "zetcd"
          then [.reqDone 0] else []) ++ [.finishReports] ∧
      (knownDatabase "etcdv3" → (100000 : Int) = 100000 →
        (sentRequests (generateWrites sampleSequentialKey sampleSameKey
          (elasticConfig "etcdv3" 100000 50 50 0) sampleValues)).length = 100000 ∧
        ((0 : Int) < 50 →
          ∃ b, r.session = some b ∧ b.report.length = 100000 ∧ b.stats = some b.report ∧
            b.bar.current = 100000)) :=
  writePhase_single_session sampleSequentialKey sampleSameKey sampleValues (fun _ => none)
    (fun _ => none) (elasticConfig "etcdv3" 100000 50 50 0) 0 (by decide) (by decide)

theorem nextClients_le_max (c delta max : Int) : nextClients c delta max ≤ max := by
  unfold nextClients
  simp only []
  split_ifs with h
  · exact le_refl _
  · omega

theorem nextClients_eq_min (c delta max : Int) (h0 : -(2 ^ 63) ≤ c + delta)
    (h1 : c + delta < 2 ^ 63) : nextClients c delta max = min (c + delta) max := by
  unfold nextClients
  simp only []
  rw [wrapInt64_of_range _ h0 h1]
  split_ifs with h
  · rw [min_eq_right (by omega)]
  · rw [min_eq_left (by omega)]

theorem nextClients_ge (x delta max : Int) (hd : 0 ≤ delta) (hlo : -(2 ^ 63) ≤ x)
    (hx : x ≤ max) (hhi : max + delta < 2 ^ 63) : x ≤ nextClients x delta max := by
  rw [nextClients_eq_min _ _ _ (by omega) (by omega)]
  exact le_min (by omega) hx

theorem iterate_nextClients_range (c delta max : Int) (hd : 0 ≤ delta) (hlo : -(2 ^ 63) ≤ c)
    (hc : c ≤ max) (hhi : max + delta < 2 ^ 63) (k : Nat) :
    c ≤ (fun x => nextClients x delta max)^[k] c ∧
      (fun x => nextClients x delta max)^[k] c ≤ max := by
  induction k with
  | zero => exact ⟨le_refl _, hc⟩
  | succ n ih =>
    rw [Function.iterate_succ_apply']
    refine ⟨?_, nextClients_le_max _ _ _⟩
    exact le_trans ih.1 (nextClients_ge _ _ _ hd (by omega) ih.2 hhi)

/-- C23, as stated, fails when the addition overflows: at concurrency 50 with
`ConnectionsClientsDelta = 2^63 - 1` and `ConnectionsClientsMax = 200` the
update leaves the wrapped sum `-9223372036854775759`, which is not
`min (c + delta) max = 200` and lies below the concurrency before the update,
although `delta ≥ 0` and `50 ≤ 200`; the next `newWriteHandlers` then panics. -/
theorem nextClients_wraps_below_start :
    (advanceClients (elasticConfig "etcdv3" 300000 50 9223372036854775807 200)).Step2.Clients =
        -9223372036854775759 ∧
      nextClients 50 9223372036854775807 200 ≠ min (50 + 9223372036854775807) 200 ∧
      nextClients 50 9223372036854775807 200 < 50 ∧
      newWriteHandlers
        (advanceClients (elasticConfig "etcdv3" 300000 50 9223372036854775807 200)) 1 = none := by
  decide

/-- C23, amended: the update of the elastic loop sets the concurrency to the
wrapped sum `c + delta` capped at `max`, so it never exceeds `max`; when
`c + delta` is within the 64-bit range it is `min (c + delta) max`; and when
`delta ≥ 0`, the start is at most `max` and `max + delta` is within range, the
concurrencies of successive batches are non-decreasing and at most `max`. -/
theorem nextClients_capped (copied : Config) (c delta max : Int) :
    (advanceClients copied).Step2.Clients =
        nextClients copied.Step2.Clients copied.Step2.ConnectionsClientsDelta
          copied.Step2.ConnectionsClientsMax ∧
      nextClients c delta max ≤ max ∧
      (-(2 ^ 63) ≤ c + delta → c + delta < 2 ^ 63 →
        nextClients c delta max = min (c + delta) max) ∧
      (0 ≤ delta → -(2 ^ 63) ≤ c → c ≤ max → max + delta < 2 ^ 63 →
        ∀ k : Nat,
          (fun x => nextClients x delta max)^[k + 1] c =
              min ((fun x => nextClients x delta max)^[k] c + delta) max ∧
            (fun x => nextClients x delta max)^[k] c ≤
              (fun x => nextClients x delta max)^[k + 1] c ∧
            (fun x => nextClients x delta max)^[k + 1] c ≤ max) := by
  refine ⟨rfl, nextClients_le_max _ _ _, nextClients_eq_min _ _ _, ?_⟩
  intro hd hlo hc hhi k
  have hk := iterate_nextClients_range c delta max hd hlo hc hhi k
  have hmin := nextClients_eq_min ((fun x => nextClients x delta max)^[k] c) delta max
    (by omega) (by omega)
  rw [Function.iterate_succ_apply']
  refine ⟨hmin, ?_, nextClients_le_max _ _ _⟩
  rw [hmin]
  exact le_min (by omega) hk.2

theorem nextClients_capped_witness :
    nextClients 150 100 200 ≤ 200 ∧ nextClients 50 50 200 = min (50 + 50) 200 ∧
      (fun x => nextClients x 50 200)^[2] 50 ≤ (fun x => nextClients x 50 200)^[2 + 1] 50 :=
  ⟨(nextClients_capped (elasticConfig "etcdv3" 300000 50 50 200) 150 100 200).2.1,
   (nextClients_capped (elasticConfig "etcdv3" 300000 50 50 200) 50 50 200).2.2.1
     (by decide) (by decide),
   ((nextClients_capped (elasticConfig "etcdv3" 300000 50 50 200) 50 50 200).2.2.2
     (by decide) (by decide) (by decide) (by decide) 2).2.1⟩

theorem sentRequests_generateWrites_unknown (sequentialKey : Int → Int → String)
    (sameKey : Int → String) (cfg : Config) (vals : values)
    (hk : ¬ knownDatabase cfg.Database) :
    sentRequests (generateWrites sequentialKey sameKey cfg vals) = [] := by
  rw [sentRequests_generateWrites, List.filterMap_eq_nil_iff]
  intro i _
  exact writeRequest_none sequentialKey sameKey cfg vals i hk

/-- C22, as stated, fails: with `ConnectionsClientsMax = 0`,
`TotalRequests = 100000` and a database name that no `switch` case handles, the
phase still runs its one session, but the generator sends no request and
nothing is recorded. -/
theorem writePhase_unknown_database_generates_nothing :
    (elasticConfig "mysql" 100000 50 0 0).Step2.ConnectionsClientsMax = 0 ∧
      (elasticConfig "mysql" 100000 50 0 0).Step2.TotalRequests = 100000 ∧
      sentRequests (generateWrites sampleSequentialKey sampleSameKey
        (elasticConfig "mysql" 100000 50 0 0) sampleValues) = [] ∧
      (writePhase (fun c => generateWrites sampleSequentialKey sampleSameKey c sampleValues)
          (fun _ => none) (fun _ => none) (elasticConfig "mysql" 100000 50 0 0) 0).map
          (fun r => (r.trace, r.outcome, r.session.map fun b => b.report)) =
        some ([.newWriteHandlers 0 50, .startRequests 0 50 100000, .finishReports],
          .returned none, some []) := by
  have hs := sentRequests_generateWrites_unknown sampleSequentialKey sampleSameKey
    (elasticConfig "mysql" 100000 50 0 0) sampleValues (by decide)
  refine ⟨rfl, rfl, hs, ?_⟩
  simp only [writePhase, elasticConfig, if_true, newWriteHandlers, generateReport, newBenchmark,
    makeChan, Option.map_some', benchmark.startRequests, benchmark.waitRequestsEnd,
    benchmark.finishReports, Run.after, batchResults]
  simp only [elasticConfig] at hs
  simp [hs]

/-- C36: when the database name is none of etcdv2, etcdv3, zookeeper, zetcd,
consul and cetcd, `generateReads` and `generateWrites` send no request,
whatever `TotalRequests` is, and perform exactly one event, the `close` of the
channel. -/
theorem generate_unknown_database_only_closes (sequentialKey : Int → Int → String)
    (sameKey : Int → String) (cfg : Config) (vals : values) (key : String)
    (hk : ¬ knownDatabase cfg.Database) :
    generateReads cfg key = [ChanEvent.close] ∧
      generateWrites sequentialKey sameKey cfg vals = [ChanEvent.close] ∧
      sentRequests (generateReads cfg key) = [] ∧
      sentRequests (generateWrites sequentialKey sameKey cfg vals) = [] := by
  have hr : ((List.range cfg.Step2.TotalRequests.toNat).filterMap fun _ =>
      readRequest cfg key) = [] := by
    rw [List.filterMap_eq_nil_iff]
    intro i _
    exact readRequest_none cfg key hk
  have hw : (List.range cfg.Step2.TotalRequests.toNat).filterMap
      (writeRequest sequentialKey sameKey cfg vals) = [] := by
    rw [List.filterMap_eq_nil_iff]
    intro i _
    exact writeRequest_none sequentialKey sameKey cfg vals i hk
  have e1 : generateReads cfg key = [ChanEvent.close] := by
    rw [generateReads_eq, hr]; rfl
  have e2 : generateWrites sequentialKey sameKey cfg vals = [ChanEvent.close] := by
    rw [generateWrites_eq, hw]; rfl
  refine ⟨e1, e2, ?_, ?_⟩
  · rw [e1]; rfl
  · rw [e2]; rfl

theorem generate_unknown_database_only_closes_witness :
    generateReads (configFor "mysql" 1000000 false false) "a" = [ChanEvent.close] ∧
      generateWrites sampleSequentialKey sampleSameKey (configFor "mysql" 1000000 false false)
        sampleValues = [ChanEvent.close] ∧
      sentRequests (generateReads (configFor "mysql" 1000000 false false) "a") = [] ∧
      sentRequests (generateWrites sampleSequentialKey sampleSameKey
        (configFor "mysql" 1000000 false false) sampleValues) = [] :=
  generate_unknown_database_only_closes sampleSequentialKey sampleSameKey
    (configFor "mysql" 1000000 false false) sampleValues "a" (by decide)

theorem slash_append_ne_empty (k : String) : "/" ++ k ≠ "" := by
  intro h
  have h1 := congrArg String.length h
  rw [String.length_append] at h1
  have h2 : "/".length = 1 := by decide
  have h3 : "".length = 0 := by decide
  omega

theorem etcdv2Op_zero_iff (k v : String) :
    ({ key := k, value := v } : etcdv2Op) = {} ↔ k = "" ∧ v = "" := by
  constructor
  · intro h
    injection h with h1 h2
    exact ⟨h1, h2⟩
  · rintro ⟨rfl, rfl⟩
    rfl

theorem zkOp_zero_iff (k : String) (v : Bytes) (s : Bool) :
    ({ key := k, value := v, staleRead := s } : zkOp) = {} ↔ k = "" ∧ v = [] ∧ s = false := by
  constructor
  · intro h
    injection h with h1 h2 h3
    exact ⟨h1, h2, h3⟩
  · rintro ⟨rfl, rfl, rfl⟩
    rfl

theorem consulOp_zero_iff (k : String) (v : Bytes) (s : Bool) :
    ({ key := k, value := v, staleRead := s } : consulOp) = {} ↔
      k = "" ∧ v = [] ∧ s = false := by
  constructor
  · intro h
    injection h with h1 h2 h3
    exact ⟨h1, h2, h3⟩
  · rintro ⟨rfl, rfl, rfl⟩
    rfl

theorem readRequest_populated (cfg : Config) (key : String) (r : request)
    (h : readRequest cfg key = some r) :
    knownDatabase cfg.Database ∧
      (cfg.Database = "etcdv2" → r.populated = [.etcdv2Op] ∨ r.populated = []) ∧
      (cfg.Database = "etcdv3" → r.populated = [.etcdv3Op]) ∧
      (cfg.Database = "zookeeper" ∨ cfg.Database = "zetcd" →
        r.populated = [.zkOp] ∨ r.populated = []) ∧
      (cfg.Database = "consul" ∨ cfg.Database = "cetcd" →
        r.populated = [.consulOp] ∨ r.populated = []) ∧
      (r.populated = [] → key = "") := by
  by_cases hk : knownDatabase cfg.Database
  · refine ⟨hk, ?_⟩
    unfold readRequest at h
    rcases hk with hd | hd | hd | hd | hd | hd <;>
      simp only [hd, String.reduceEq, if_true, if_false, or_true, true_or, or_false, false_or,
        Option.some.injEq] at h <;>
      subst h <;>
      by_cases hkey : key = "" <;>
      cases hs : cfg.Step2.StaleRead <;>
      simp [hd, request.populated, hkey, etcdv2Op_zero_iff, zkOp_zero_iff, consulOp_zero_iff]
  · rw [readRequest_none cfg key hk] at h
    cases h

theorem writeRequest_populated (sequentialKey : Int → Int → String) (sameKey : Int → String)
    (cfg : Config) (vals : values) (i : Nat) (r : request)
    (h : writeRequest sequentialKey sameKey cfg vals i = some r) :
    knownDatabase cfg.Database ∧
      (cfg.Database = "etcdv2" → r.populated = [.etcdv2Op] ∨ r.populated = []) ∧
      (cfg.Database = "etcdv3" → r.populated = [.etcdv3Op]) ∧
      (cfg.Database = "zookeeper" ∨ cfg.Database = "zetcd" → r.populated = [.zkOp]) ∧
      (cfg.Database = "consul" ∨ cfg.Database = "cetcd" →
        r.populated = [.consulOp] ∨ r.populated = []) ∧
      (r.populated = [] → writeKey sequentialKey sameKey cfg i = "") := by
  by_cases hk : knownDatabase cfg.Database
  · refine ⟨hk, ?_⟩
    unfold writeRequest at h
    rcases hk with hd | hd | hd | hd | hd | hd <;>
      simp only [hd, String.reduceEq, if_true, if_false, or_true, true_or, or_false, false_or,
        Option.some.injEq] at h <;>
      subst h <;>
      by_cases hkey : writeKey sequentialKey sameKey cfg i = "" <;>
      simp [hd, request.populated, hkey, etcdv2Op_zero_iff, zkOp_zero_iff, consulOp_zero_iff,
        slash_append_ne_empty] <;>
      tauto
  · rw [writeRequest_none sequentialKey sameKey cfg vals i hk] at h
    cases h

/-- C31, as stated, fails for an empty key: every request that `generateReads`
sends for etcdv2 or for consul with the key `""` is the zero request, in which
no operation field is populated. -/
theorem generateReads_empty_key_populates_nothing :
    sentRequests (generateReads (configFor "etcdv2" 2 false false) "") = [{}, {}] ∧
      sentRequests (generateReads (configFor "consul" 1 false false) "") = [{}] ∧
      ({} : request).populated = [] := by
  decide

/-- C31, amended: a request is sent only for the six handled databases, and in
every request that `generateReads` or `generateWrites` sends no operation field
other than the one of the configured database is populated (`etcdv2Op` for
etcdv2, `etcdv3Op` for etcdv3, `zkOp` for zookeeper and zetcd, `consulOp` for
consul and cetcd).  That field is populated for etcdv3 always, and for the
zookeeper and zetcd writes always; a request of `generateReads` with no
populated field has the empty key, and a request of `generateWrites` with no
populated field has an empty write key. -/
theorem generate_one_variant (sequentialKey : Int → Int → String) (sameKey : Int → String)
    (cfg : Config) (vals : values) (key : String) (r : request)
    (hr : r ∈ sentRequests (generateReads cfg key) ∨
      r ∈ sentRequests (generateWrites sequentialKey sameKey cfg vals)) :
    knownDatabase cfg.Database ∧
      (cfg.Database = "etcdv2" → r.populated = [.etcdv2Op] ∨ r.populated = []) ∧
      (cfg.Database = "etcdv3" → r.populated = [.etcdv3Op]) ∧
      (cfg.Database = "zookeeper" ∨ cfg.Database = "zetcd" →
        r.populated = [.zkOp] ∨ r.populated = []) ∧
      (cfg.Database = "consul" ∨ cfg.Database = "cetcd" →
        r.populated = [.consulOp] ∨ r.populated = []) ∧
      (r ∈ sentRequests (generateReads cfg key) → r.populated = [] → key = "") ∧
      (r ∈ sentRequests (generateWrites sequentialKey sameKey cfg vals) →
        (cfg.Database = "zookeeper" ∨ cfg.Database = "zetcd" → r.populated = [.zkOp]) ∧
        (r.populated = [] →
          ∃ i : Nat, i < cfg.Step2.TotalRequests.toNat ∧
            writeKey sequentialKey sameKey cfg i = "")) := by
  have hread : r ∈ sentRequests (generateReads cfg key) → readRequest cfg key = some r := by
    intro hm
    rw [sentRequests_generateReads, List.mem_filterMap] at hm
    obtain ⟨_, _, h⟩ := hm
    exact h
  have hwrite : r ∈ sentRequests (generateWrites sequentialKey sameKey cfg vals) →
      ∃ i : Nat, i < cfg.Step2.TotalRequests.toNat ∧
        writeRequest sequentialKey sameKey cfg vals i = some r := by
    intro hm
    rw [sentRequests_generateWrites, List.mem_filterMap] at hm
    obtain ⟨i, hi, h⟩ := hm
    exact ⟨i, List.mem_range.mp hi, h⟩
  have hfirst : knownDatabase cfg.Database ∧
      (cfg.Database = "etcdv2" → r.populated = [.etcdv2Op] ∨ r.populated = []) ∧
      (cfg.Database = "etcdv3" → r.populated = [.etcdv3Op]) ∧
      (cfg.Database = "zookeeper" ∨ cfg.Database = "zetcd" →
        r.populated = [.zkOp] ∨ r.populated = []) ∧
      (cfg.Database = "consul" ∨ cfg.Database = "cetcd" →
        r.populated = [.consulOp] ∨ r.populated = []) := by
    rcases hr with hr | hr
    · obtain ⟨h1, h2, h3, h4, h5, _⟩ := readRequest_populated cfg key r (hread hr)
      exact ⟨h1, h2, h3, h4, h5⟩
    · obtain ⟨i, _, h⟩ := hwrite hr
      obtain ⟨h1, h2, h3, h4, h5, _⟩ :=
        writeRequest_populated sequentialKey sameKey cfg vals i r h
      exact ⟨h1, h2, h3, fun hd => Or.inl (h4 hd), h5⟩
  obtain ⟨h1, h2, h3, h4, h5⟩ := hfirst
  refine ⟨h1, h2, h3, h4, h5, ?_, ?_⟩
  · intro hm
    exact (readRequest_populated cfg key r (hread hm)).2.2.2.2.2
  · intro hm
    obtain ⟨i, hi, h⟩ := hwrite hm
    have hw := writeRequest_populated sequentialKey sameKey cfg vals i r h
    exact ⟨hw.2.2.2.1, fun he => ⟨i, hi, hw.2.2.2.2.2 he⟩⟩

theorem generate_one_variant_witness :
    knownDatabase "consul" ∧
      (request.populated { consulOp := { key := "a" } } = [Variant.consulOp] ∨
        request.populated { consulOp := { key := "a" } } = []) ∧
      (request.populated { consulOp := { key := "a" } } = [] → "a" = "") :=
  ⟨(generate_one_variant sampleSequentialKey sampleSameKey (configFor "consul" 2 false false)
      sampleValues "a" { consulOp := { key := "a" } } (Or.inl (by decide))).1,
    (generate_one_variant sampleSequentialKey sampleSameKey (configFor "consul" 2 false false)
      sampleValues "a" { consulOp := { key := "a" } } (Or.inl (by decide))).2.2.2.2.1
      (Or.inl rfl),
    (generate_one_variant sampleSequentialKey sampleSameKey (configFor "consul" 2 false false)
      sampleValues "a" { consulOp := { key := "a" } } (Or.inl (by decide))).2.2.2.2.2.1
      (by decide)⟩

theorem emitRows_short (rm : Int → Option Int) (max : Int) (hmax : max < 2 ^ 63) :
    ∀ (fuel n : Nat) (cur : Int), -(2 ^ 63) ≤ cur → cur + 10 * n = max → fuel ≤ n →
      emitRows rm max fuel cur = none := by
  intro fuel
  induction fuel with
  | zero => intro n cur _ _ _; rfl
  | succ f ih =>
    intro n cur hcur hn hf
    obtain ⟨m, rfl⟩ : ∃ m, n = m + 1 := ⟨n - 1, by omega⟩
    have hne : cur ≠ max := by push_cast at hn; omega
    have hw : wrapInt64 (cur + 10) = cur + 10 := by
      apply wrapInt64_of_range <;> push_cast at hn <;> omega
    rw [emitRows_step, wrapInt64_add_sub cur hcur (by push_cast at hn; omega), if_neg hne, hw,
      ih m (cur + 10) (by omega) (by push_cast at hn ⊢; omega) (by omega)]
    rfl

/-- C34: for a non-empty latency list whose buckets are multiples of 10, lie in
the `int64` range and are at least -100000, with smallest bucket `lo` and
largest bucket `hi`, one has `lo ≤ hi`, the label started at `lo` meets `hi`
after `(hi - lo) / 10` steps of 10, and the row loop leaves in its iteration
number `(hi - lo) / 10 + 1`: with fewer iterations allowed it has not left, and
with that many it has emitted that many rows. -/
theorem saveDataLatencyDistributionAll_iterations (bucket : ℚ → Int) (st : Stats)
    (lo hi : Int) (fuel : Nat)
    (h10 : ∀ l ∈ st.Lats, 10 ∣ bucket l)
    (hrange : ∀ l ∈ st.Lats, -100000 ≤ bucket l ∧ bucket l < 2 ^ 63)
    (hlo : lo ∈ st.Lats.map bucket) (hlo' : ∀ l ∈ st.Lats, lo ≤ bucket l)
    (hhi : hi ∈ st.Lats.map bucket) (hhi' : ∀ l ∈ st.Lats, bucket l ≤ hi) :
    lo ≤ hi ∧ lo + 10 * (((hi - lo) / 10).toNat : Int) = hi ∧
      (fuel < ((hi - lo) / 10).toNat + 1 →
        saveDataLatencyDistributionAll bucket fuel st = none) ∧
      (((hi - lo) / 10).toNat + 1 ≤ fuel →
        ∃ rows, saveDataLatencyDistributionAll bucket fuel st = some rows ∧
          rows.length = ((hi - lo) / 10).toNat + 1) := by
  obtain ⟨hmin, hmax⟩ := collectBuckets_min_max bucket st.Lats lo hi hrange hlo hlo' hhi hhi'
  obtain ⟨llo, hllo, hllo'⟩ := List.mem_map.mp hlo
  obtain ⟨lhi, hlhi, hlhi'⟩ := List.mem_map.mp hhi
  have hle : lo ≤ hi := by rw [← hllo']; exact hhi' llo hllo
  have hdvd : (10 : Int) ∣ hi - lo := by
    rw [← hllo', ← hlhi']
    exact dvd_sub (h10 lhi hlhi) (h10 llo hllo)
  have hlo_range : -(2 ^ 63) ≤ lo := by
    have := (hrange llo hllo).1
    omega
  have hhi_range : hi < 2 ^ 63 := by rw [← hlhi']; exact (hrange lhi hlhi).2
  have hspan := span_eq lo hi hle hdvd
  refine ⟨hle, hspan, ?_, ?_⟩
  · intro hf
    unfold saveDataLatencyDistributionAll
    simp only [hmin, hmax]
    exact emitRows_short _ _ hhi_range fuel _ lo hlo_range hspan (by omega)
  · intro hf
    unfold saveDataLatencyDistributionAll
    simp only [hmin, hmax]
    rw [emitRows_rows _ _ hhi_range _ _ fuel hlo_range hspan hf]
    exact ⟨_, rfl, by simp⟩

theorem saveDataLatencyDistributionAll_iterations_witness :
    saveDataLatencyDistributionAll (fun lt => (lt * 100).floor * 10) 2
        (statsOfLats [125 / 1000, 1 / 10, 12 / 100]) = none ∧
      ∃ rows, saveDataLatencyDistributionAll (fun lt => (lt * 100).floor * 10) 3
          (statsOfLats [125 / 1000, 1 / 10, 12 / 100]) = some rows ∧
        rows.length = (((120 : Int) - 100) / 10).toNat + 1 := by
  have hyp : (∀ l ∈ (statsOfLats [125 / 1000, 1 / 10, 12 / 100]).Lats,
        (10 : Int) ∣ (l * 100).floor * 10) ∧
      (∀ l ∈ (statsOfLats [125 / 1000, 1 / 10, 12 / 100]).Lats,
        -100000 ≤ (l * 100).floor * 10 ∧ (l * 100).floor * 10 < 2 ^ 63) ∧
      (∀ l ∈ (statsOfLats [125 / 1000, 1 / 10, 12 / 100]).Lats, 100 ≤ (l * 100).floor * 10) ∧
      (∀ l ∈ (statsOfLats [125 / 1000, 1 / 10, 12 / 100]).Lats,
        (l * 100).floor * 10 ≤ 120) := by
    refine ⟨fun l _ => Dvd.intro_left _ rfl, ?_, ?_, ?_⟩ <;>
      · intro l hl
        simp only [statsOfLats, List.mem_cons, List.mem_singleton, List.not_mem_nil,
          or_false] at hl
        rcases hl with rfl | rfl | rfl <;> norm_num [Rat.floor_def']
  have hlo : (100 : Int) ∈ (statsOfLats [125 / 1000, 1 / 10, 12 / 100]).Lats.map
      (fun lt => (lt * 100).floor * 10) := by norm_num [statsOfLats, Rat.floor_def']
  have hhi : (120 : Int) ∈ (statsOfLats [125 / 1000, 1 / 10, 12 / 100]).Lats.map
      (fun lt => (lt * 100).floor * 10) := by norm_num [statsOfLats, Rat.floor_def']
  exact ⟨(saveDataLatencyDistributionAll_iterations (fun lt => (lt * 100).floor * 10)
      (statsOfLats [125 / 1000, 1 / 10, 12 / 100]) 100 120 2 hyp.1 hyp.2.1 hlo hyp.2.2.1 hhi
      hyp.2.2.2).2.2.1 (by decide),
    (saveDataLatencyDistributionAll_iterations (fun lt => (lt * 100).floor * 10)
      (statsOfLats [125 / 1000, 1 / 10, 12 / 100]) 100 120 3 hyp.1 hyp.2.1 hlo hyp.2.2.1 hhi
      hyp.2.2.2).2.2.2 (by decide)⟩

theorem waitRequestsEnd_events (gen : Config → List ChanEvent) (rh : request → Option String)
    (b : benchmark) :
    (b.waitRequestsEnd gen rh).1 =
      match b.reqDone with
      | some call => [.reqDone call]
      | none => [] := by
  unfold benchmark.waitRequestsEnd
  cases b.reqDone <;> rfl

theorem waitRequestsEnd_control (gen : Config → List ChanEvent) (rh : request → Option String)
    (b : benchmark) :
    (b.waitRequestsEnd gen rh).2.reqHandlers = b.reqHandlers ∧
      (b.waitRequestsEnd gen rh).2.reqGen = b.reqGen ∧
      (b.waitRequestsEnd gen rh).2.reqDone = b.reqDone ∧
      (b.waitRequestsEnd gen rh).2.reportDone = b.reportDone := by
  unfold benchmark.waitRequestsEnd
  cases b.reqDone <;> exact ⟨rfl, rfl, rfl, rfl⟩

theorem elasticLoop_step (gen : Config → List ChanEvent) (rh : request → Option String)
    (bcastReq : Nat → Option String) (cfg : Config) (fuel iter : Nat) (copied : Config)
    (b : benchmark) (reqCompleted : Int) (r : Run)
    (h : elasticLoop gen rh bcastReq cfg (fuel + 1) iter copied b reqCompleted = some r) :
    (¬ reqCompleted ≥ cfg.Step2.TotalRequests ∧ r = b.finishReports) ∨
      (reqCompleted ≥ cfg.Step2.TotalRequests ∧ ∃ err, bcastReq iter = some err ∧
        r = { trace := [.bcastReq copied.Step2.Clients], outcome := .returned (some err),
              session := some b }) ∨
      (reqCompleted ≥ cfg.Step2.TotalRequests ∧ bcastReq iter = none ∧
        r.outcome = .panicked) ∨
      (reqCompleted ≥ cfg.Step2.TotalRequests ∧ bcastReq iter = none ∧
        ∃ b1 r0, b1.reqHandlers = { call := iter + 1, len := (advanceClients copied).Step2.Clients } ∧
          b1.reqGen = advanceClients copied ∧
          b1.reqDone = (if hasTeardown copied.Database then some (iter + 1) else none) ∧
          b1.reportDone = true ∧
          elasticLoop gen rh bcastReq cfg fuel (iter + 1) (advanceClients copied) b1
            (wrapInt64 (reqCompleted + 100000)) = some r0 ∧
          r = r0.after (iterationEvents iter copied b)) := by
  rw [elasticLoop] at h
  by_cases hc : reqCompleted ≥ cfg.Step2.TotalRequests
  · rw [if_pos hc] at h
    cases hb : bcastReq iter with
    | some err =>
      simp only [hb] at h
      exact Or.inr (Or.inl ⟨hc, err, rfl, (Option.some.inj h).symm⟩)
    | none =>
      simp only [hb] at h
      cases hn : newWriteHandlers (advanceClients copied) (iter + 1) with
      | none =>
        simp only [hn] at h
        exact Or.inr (Or.inr (Or.inl ⟨hc, rfl, by rw [← Option.some.inj h]⟩))
      | some hd =>
        obtain ⟨hs, done⟩ := hd
        simp only [hn] at h
        have hcl : ¬ (advanceClients copied).Step2.Clients < 0 := by
          intro hneg
          simp [newWriteHandlers, hneg] at hn
        have hn' := hn
        simp only [newWriteHandlers, if_neg hcl, Option.some.injEq, Prod.mk.injEq] at hn'
        obtain ⟨hhs, hdone⟩ := hn'
        cases hr : (b.startRequests.2.waitRequestsEnd gen rh).2.reset
            (advanceClients copied).Step2.Clients hs done (advanceClients copied) with
        | none =>
          simp only [hr] at h
          exact Or.inr (Or.inr (Or.inl ⟨hc, rfl, by rw [← Option.some.inj h]⟩))
        | some b1 =>
          simp only [hr] at h
          cases h0 : elasticLoop gen rh bcastReq cfg fuel (iter + 1) (advanceClients copied) b1
              (wrapInt64 (reqCompleted + 100000)) with
          | none => simp [h0] at h
          | some r0 =>
            simp only [h0, Option.map_some', Option.some.injEq] at h
            refine Or.inr (Or.inr (Or.inr ⟨hc, rfl, b1, r0, ?_, ?_, ?_, ?_, h0, ?_⟩))
            · simp only [benchmark.reset, makeChan, if_neg hcl, Option.map_some',
                Option.some.injEq] at hr
              rw [← hr, ← hhs]
            · simp only [benchmark.reset, makeChan, if_neg hcl, Option.map_some',
                Option.some.injEq] at hr
              rw [← hr]
            · simp only [benchmark.reset, makeChan, if_neg hcl, Option.map_some',
                Option.some.injEq] at hr
              rw [← hr, ← hdone]
              rfl
            · simp only [benchmark.reset, makeChan, if_neg hcl, Option.map_some',
                Option.some.injEq] at hr
              rw [← hr]
              exact (waitRequestsEnd_control gen rh _).2.2.2
            · rw [← h]
              simp only [iterationEvents, waitRequestsEnd_events, benchmark.startRequests]
              cases b.reqDone <;> rfl
  · rw [if_neg hc] at h
    exact Or.inl ⟨hc, (Option.some.inj h).symm⟩

theorem finishReports_observed (b : benchmark) :
    b.finishReports.trace = [.finishReports] ∧
      (b.finishReports.outcome = .returned none ∨ b.finishReports.outcome = .blocked) := by
  unfold benchmark.finishReports
  split_ifs
  · exact ⟨rfl, Or.inl rfl⟩
  · exact ⟨rfl, Or.inr rfl⟩

theorem iterationEvents_counts (iter : Nat) (copied : Config) (b : benchmark) :
    (iterationEvents iter copied b).countP PhaseEvent.isStartRequests = 1 ∧
      (iterationEvents iter copied b).countP PhaseEvent.isReset = 1 ∧
      (iterationEvents iter copied b).countP PhaseEvent.isBcastReq = 1 ∧
      (iterationEvents iter copied b).countP PhaseEvent.isFinishReports = 0 := by
  unfold iterationEvents
  cases b.reqDone <;> exact ⟨rfl, rfl, rfl, rfl⟩

theorem elasticLoop_error (gen : Config → List ChanEvent) (rh : request → Option String)
    (bcastReq : Nat → Option String) (cfg : Config) :
    ∀ (fuel iter : Nat) (copied : Config) (b : benchmark) (reqCompleted : Int) (r : Run),
      elasticLoop gen rh bcastReq cfg fuel iter copied b reqCompleted = some r →
      ∀ err, r.outcome = .returned (some err) →
        ∃ n c pre, bcastReq (iter + n) = some err ∧
          (∀ j, iter ≤ j → j < iter + n → bcastReq j = none) ∧
          r.trace = pre ++ [.bcastReq c] ∧
          pre.countP PhaseEvent.isStartRequests = n ∧ pre.countP PhaseEvent.isReset = n ∧
          pre.countP PhaseEvent.isBcastReq = n ∧ pre.countP PhaseEvent.isFinishReports = 0 := by
  intro fuel
  induction fuel with
  | zero => intro iter copied b rc r h; simp [elasticLoop] at h
  | succ f ih =>
    intro iter copied b rc r h err herr
    rcases elasticLoop_step gen rh bcastReq cfg f iter copied b rc r h with
      ⟨_, hr⟩ | ⟨_, e, he, hr⟩ | ⟨_, _, hp⟩ | ⟨_, hnone, b1, r0, _, _, _, _, h0, hr⟩
    · rw [hr] at herr
      rcases (finishReports_observed b).2 with h1 | h1 <;> rw [h1] at herr <;> cases herr
    · rw [hr] at herr ⊢
      simp only [PhaseEnd.returned.injEq, Option.some.injEq] at herr
      subst herr
      exact ⟨0, copied.Step2.Clients, [], he, fun j h1 h2 => absurd h2 (by omega), rfl, rfl,
        rfl, rfl, rfl⟩
    · rw [hp] at herr; cases herr
    · have herr0 : r0.outcome = .returned (some err) := by rw [hr] at herr; exact herr
      obtain ⟨n, c, pre, hb, hbefore, htrace, c1, c2, c3, c4⟩ := ih (iter + 1) _ b1 _ r0 h0 err herr0
      obtain ⟨e1, e2, e3, e4⟩ := iterationEvents_counts iter copied b
      refine ⟨n + 1, c, iterationEvents iter copied b ++ pre, ?_, ?_, ?_, ?_, ?_, ?_, ?_⟩
      · rw [← hb]; congr 1; omega
      · intro j h1 h2
        by_cases hj : j = iter
        · rw [hj]; exact hnone
        · exact hbefore j (by omega) (by omega)
      · rw [hr]
        simp only [Run.after, htrace, List.append_assoc]
      · rw [List.countP_append, e1, c1]; omega
      · rw [List.countP_append, e2, c2]; omega
      · rw [List.countP_append, e3, c3]; omega
      · rw [List.countP_append, e4, c4]

theorem observed_after (evs : List PhaseEvent) (r : Run) :
    (r.after evs).observed = (evs ++ r.observed.1, r.observed.2) := rfl

theorem map_observed_after (evs : List PhaseEvent) (x : Option Run) :
    (x.map (Run.after evs)).map Run.observed =
      (x.map Run.observed).map fun o => (evs ++ o.1, o.2) := by
  cases x <;> rfl

theorem finishReports_sameControl (b b' : benchmark) (h : sameControl b b') :
    b.finishReports.observed = b'.finishReports.observed := by
  obtain ⟨_, _, _, h4⟩ := h
  unfold benchmark.finishReports Run.observed
  rw [h4]
  split_ifs <;> rfl

theorem elasticLoop_handler_independent (gen : Config → List ChanEvent)
    (rh rh' : request → Option String) (bcastReq : Nat → Option String) (cfg : Config) :
    ∀ (fuel iter : Nat) (copied : Config) (b b' : benchmark) (reqCompleted : Int),
      sameControl b b' →
      (elasticLoop gen rh bcastReq cfg fuel iter copied b reqCompleted).map Run.observed =
        (elasticLoop gen rh' bcastReq cfg fuel iter copied b' reqCompleted).map
          Run.observed := by
  intro fuel
  induction fuel with
  | zero => intro iter copied b b' rc _; rfl
  | succ f ih =>
    intro iter copied b b' rc hsame
    obtain ⟨h1, h2, h3, h4⟩ := hsame
    rw [elasticLoop, elasticLoop]
    by_cases hc : rc ≥ cfg.Step2.TotalRequests
    · rw [if_pos hc, if_pos hc]
      cases hb : bcastReq iter with
      | some err => rfl
      | none =>
        simp only []
        have hev : b.startRequests.1 ++ (b.startRequests.2.waitRequestsEnd gen rh).1 =
            b'.startRequests.1 ++ (b'.startRequests.2.waitRequestsEnd gen rh').1 := by
          simp only [waitRequestsEnd_events, benchmark.startRequests, h1, h2, h3]
        rw [hev]
        cases hn : newWriteHandlers (advanceClients copied) (iter + 1) with
        | none => rfl
        | some hd =>
          obtain ⟨hs, done⟩ := hd
          simp only []
          by_cases hcl : (advanceClients copied).Step2.Clients < 0
          · simp only [benchmark.reset, makeChan, if_pos hcl, Option.map_none']
            rfl
          · simp only [benchmark.reset, makeChan, if_neg hcl, Option.map_some']
            rw [map_observed_after, map_observed_after]
            congr 1
            apply ih
            refine ⟨rfl, rfl, rfl, ?_⟩
            show (b.startRequests.2.waitRequestsEnd gen rh).2.reportDone =
              (b'.startRequests.2.waitRequestsEnd gen rh').2.reportDone
            rw [(waitRequestsEnd_control gen rh _).2.2.2,
              (waitRequestsEnd_control gen rh' _).2.2.2]
            rfl
    · rw [if_neg hc, if_neg hc]
      exact congrArg some (finishReports_sameControl b b' ⟨h1, h2, h3, h4⟩)

theorem iterationEvents_sets (iter : Nat) (copied : Config) (b : benchmark)
    (hb : b.reqDone = some iter) :
    (iterationEvents iter copied b).filterMap PhaseEvent.built = [iter + 1] ∧
      (iterationEvents iter copied b).filterMap PhaseEvent.tornDown = [iter] := by
  unfold iterationEvents
  rw [hb]
  exact ⟨rfl, rfl⟩

theorem elasticLoop_teardown (gen : Config → List ChanEvent) (rh : request → Option String)
    (bcastReq : Nat → Option String) (cfg : Config) :
    ∀ (fuel iter : Nat) (copied : Config) (b : benchmark) (reqCompleted : Int) (r : Run),
      hasTeardown copied.Database → b.reqDone = some iter →
      elasticLoop gen rh bcastReq cfg fuel iter copied b reqCompleted = some r →
      r.outcome ≠ .panicked →
      ∃ n, r.trace.filterMap PhaseEvent.built = List.range' (iter + 1) n ∧
        r.trace.filterMap PhaseEvent.tornDown = List.range' iter n := by
  intro fuel
  induction fuel with
  | zero => intro iter copied b rc r _ _ h; simp [elasticLoop] at h
  | succ f ih =>
    intro iter copied b rc r hdb hb h hout
    rcases elasticLoop_step gen rh bcastReq cfg f iter copied b rc r h with
      ⟨_, hr⟩ | ⟨_, e, he, hr⟩ | ⟨_, _, hp⟩ | ⟨_, hnone, b1, r0, _, _, hd1, _, h0, hr⟩
    · refine ⟨0, ?_, ?_⟩ <;> rw [hr, (finishReports_observed b).1] <;> rfl
    · refine ⟨0, ?_, ?_⟩ <;> rw [hr] <;> rfl
    · exact absurd hp hout
    · rw [if_pos hdb] at hd1
      have hout0 : r0.outcome ≠ .panicked := by rw [hr] at hout; exact hout
      obtain ⟨n, hn1, hn2⟩ := ih (iter + 1) (advanceClients copied) b1 _ r0 hdb hd1 h0 hout0
      obtain ⟨e1, e2⟩ := iterationEvents_sets iter copied b hb
      refine ⟨n + 1, ?_, ?_⟩
      · rw [hr]
        simp only [Run.after, List.filterMap_append, e1, hn1]
        rw [List.range'_succ]
        rfl
      · rw [hr]
        simp only [Run.after, List.filterMap_append, e2, hn2]
        rw [List.range'_succ]
        rfl

theorem writePhase_elastic (gen : Config → List ChanEvent) (rh : request → Option String)
    (bcastReq : Nat → Option String) (cfg : Config) (fuel : Nat) (r : Run)
    (hmax : cfg.Step2.ConnectionsClientsMax ≠ 0)
    (h : writePhase gen rh bcastReq cfg fuel = some r) :
    r.outcome = .panicked ∨
      ∃ copied b r0, copied.Database = cfg.Database ∧
        b.reqDone = (if hasTeardown cfg.Database then some 0 else none) ∧
        elasticLoop gen rh bcastReq cfg fuel 0 copied b 0 = some r0 ∧
        r = r0.after [.newWriteHandlers 0 cfg.Step2.Clients] := by
  unfold writePhase at h
  rw [if_neg hmax] at h
  simp only [] at h
  by_cases hcl : cfg.Step2.Clients < 0
  · simp only [newWriteHandlers, if_pos hcl] at h
    exact Or.inl (by rw [← Option.some.inj h])
  · simp only [newWriteHandlers, if_neg hcl, newBenchmark, makeChan, Option.map_some'] at h
    cases h0 : elasticLoop gen rh bcastReq cfg fuel 0
        { cfg with Step2 := { cfg.Step2 with TotalRequests := 100000 } }
        { cfg := { cfg with Step2 := { cfg.Step2 with TotalRequests := 100000 } }
          bar := { Total := 100000, current := 0, finished := false }
          report := []
          reportDone := false
          stats := none
          reqHandlers := { call := 0, len := cfg.Step2.Clients }
          reqGen := { cfg with Step2 := { cfg.Step2 with TotalRequests := 100000 } }
          reqDone := if cfg.Database = "etcdv3" ∨ cfg.Database = "zookeeper" ∨
            cfg.Database = "zetcd" then some 0 else none
          inflightReqs := { capacity := cfg.Step2.Clients, queue := [] } } 0 with
    | none =>
      rw [show elasticLoop gen rh bcastReq cfg fuel 0 _ _ 0 = none from h0] at h
      cases h
    | some r0 =>
      rw [show elasticLoop gen rh bcastReq cfg fuel 0 _ _ 0 = some r0 from h0] at h
      refine Or.inr ⟨_, _, r0, ?_, ?_, h0, (Option.some.inj h).symm⟩
      · rfl
      · rfl

theorem generateReport_observed (gen : Config → List ChanEvent)
    (rh : request → Option String) (cfg : Config) (hs : Handlers) (done : Option Nat)
    (reqGen : Config) (hcl : ¬ cfg.Step2.Clients < 0) :
    (generateReport gen rh cfg hs done reqGen).observed =
      (.startRequests hs.call hs.len reqGen.Step2.TotalRequests ::
        ((match done with
          | some call => [.reqDone call]
          | none => []) ++ [.finishReports]), .returned none) := by
  unfold generateReport newBenchmark makeChan
  rw [if_neg hcl]
  cases done <;> rfl

theorem writePhase_single_observed (gen : Config → List ChanEvent)
    (rh : request → Option String) (bcastReq : Nat → Option String) (cfg : Config)
    (fuel : Nat) (hmax : cfg.Step2.ConnectionsClientsMax = 0) :
    (writePhase gen rh bcastReq cfg fuel).map Run.observed =
      if cfg.Step2.Clients < 0 then some ([], .panicked)
      else some (.newWriteHandlers 0 cfg.Step2.Clients ::
        .startRequests 0 cfg.Step2.Clients cfg.Step2.TotalRequests ::
        ((match (if cfg.Database = "etcdv3" ∨ cfg.Database = "zookeeper" ∨
              cfg.Database = "zetcd" then some 0 else none : Option Nat) with
          | some call => [.reqDone call]
          | none => []) ++ [.finishReports]), .returned none) := by
  unfold writePhase
  rw [if_pos hmax]
  by_cases hcl : cfg.Step2.Clients < 0
  · simp only [newWriteHandlers, if_pos hcl]
    rfl
  · simp only [newWriteHandlers, if_neg hcl, Option.map_some', observed_after,
      generateReport_observed gen rh cfg _ _ cfg hcl]
    rfl

theorem newWriteHandlers_event_counts (c : Int) (pre : List PhaseEvent) :
    (PhaseEvent.newWriteHandlers 0 c :: pre).countP PhaseEvent.isStartRequests =
        pre.countP PhaseEvent.isStartRequests ∧
      (PhaseEvent.newWriteHandlers 0 c :: pre).countP PhaseEvent.isReset =
        pre.countP PhaseEvent.isReset ∧
      (PhaseEvent.newWriteHandlers 0 c :: pre).countP PhaseEvent.isBcastReq =
        pre.countP PhaseEvent.isBcastReq ∧
      (PhaseEvent.newWriteHandlers 0 c :: pre).countP PhaseEvent.isFinishReports =
        pre.countP PhaseEvent.isFinishReports := by
  refine ⟨?_, ?_, ?_, ?_⟩ <;> exact List.countP_cons_of_neg _ _ (by simp [PhaseEvent.isStartRequests, PhaseEvent.isReset, PhaseEvent.isBcastReq, PhaseEvent.isFinishReports])

theorem writePhase_handler_independent (gen : Config → List ChanEvent)
    (rh rh' : request → Option String) (bcastReq : Nat → Option String) (cfg : Config)
    (fuel : Nat) :
    (writePhase gen rh bcastReq cfg fuel).map Run.observed =
      (writePhase gen rh' bcastReq cfg fuel).map Run.observed := by
  by_cases hmax : cfg.Step2.ConnectionsClientsMax = 0
  · rw [writePhase_single_observed gen rh bcastReq cfg fuel hmax,
      writePhase_single_observed gen rh' bcastReq cfg fuel hmax]
  · unfold writePhase
    rw [if_neg hmax, if_neg hmax]
    simp only []
    by_cases hcl : cfg.Step2.Clients < 0
    · simp only [newWriteHandlers, if_pos hcl]
    · simp only [newWriteHandlers, if_neg hcl, newBenchmark, makeChan, Option.map_some']
      rw [map_observed_after, map_observed_after]
      congr 1
      exact elasticLoop_handler_independent gen rh rh' bcastReq cfg fuel 0 _ _ _ 0
        ⟨rfl, rfl, rfl, rfl⟩

/-- C32: when the write phase returns an error, it is the error of the
heartbeat broadcast of some iteration `k`, the first that fails; that broadcast
is the last call of the phase, so no batch is started in iteration `k`, no later
iteration runs and `finishReports` is never called, and before it there are
exactly `k` batches and `k` resets.  At the head of an iteration a failing
broadcast ends the loop with that error at once.  The calls made and the way the
phase ends do not depend on what the handlers return. -/
theorem writePhase_bcastReq_failure (gen : Config → List ChanEvent)
    (rh rh' : request → Option String) (bcastReq : Nat → Option String) (cfg : Config)
    (fuel : Nat) (r : Run) (h : writePhase gen rh bcastReq cfg fuel = some r) :
    (∀ err, r.outcome = .returned (some err) →
        ∃ k c pre, bcastReq k = some err ∧ (∀ j, j < k → bcastReq j = none) ∧
          r.trace = pre ++ [.bcastReq c] ∧
          pre.countP PhaseEvent.isStartRequests = k ∧ pre.countP PhaseEvent.isReset = k ∧
          pre.countP PhaseEvent.isBcastReq = k ∧
          pre.countP PhaseEvent.isFinishReports = 0) ∧
      (∀ (f iter : Nat) (copied : Config) (b : benchmark) (reqCompleted : Int) (err : String),
        reqCompleted ≥ cfg.Step2.TotalRequests → bcastReq iter = some err →
        elasticLoop gen rh bcastReq cfg (f + 1) iter copied b reqCompleted =
          some { trace := [.bcastReq copied.Step2.Clients], outcome := .returned (some err),
                 session := some b }) ∧
      (writePhase gen rh' bcastReq cfg fuel).map Run.observed = some r.observed := by
  refine ⟨?_, ?_, ?_⟩
  · intro err herr
    by_cases hmax : cfg.Step2.ConnectionsClientsMax = 0
    · have ho := writePhase_single_observed gen rh bcastReq cfg fuel hmax
      rw [h] at ho
      split_ifs at ho <;>
        · have := congrArg (fun o => o.map Prod.snd) ho
          simp only [Option.map_some', Run.observed, Option.some.injEq] at this
          rw [herr] at this
          cases this
    · rcases writePhase_elastic gen rh bcastReq cfg fuel r hmax h with hp | ⟨_, b, r0, _, _, h0, hr⟩
      · rw [hp] at herr; cases herr
      · have herr0 : r0.outcome = .returned (some err) := by rw [hr] at herr; exact herr
        obtain ⟨n, c, pre, hb, hbefore, htrace, c1, c2, c3, c4⟩ :=
          elasticLoop_error gen rh bcastReq cfg fuel 0 _ b 0 r0 h0 err herr0
        obtain ⟨e1, e2, e3, e4⟩ := newWriteHandlers_event_counts cfg.Step2.Clients pre
        refine ⟨n, c, .newWriteHandlers 0 cfg.Step2.Clients :: pre, ?_, ?_, ?_, ?_, ?_, ?_, ?_⟩
        · simpa using hb
        · intro j hj
          exact hbefore j (Nat.zero_le _) (by omega)
        · rw [hr]
          simp only [Run.after, htrace, List.singleton_append, List.cons_append,
            List.nil_append]
        · rw [e1, c1]
        · rw [e2, c2]
        · rw [e3, c3]
        · rw [e4, c4]
  · intro f iter copied b rc err hc hb
    rw [elasticLoop, if_pos hc]
    simp only [hb]
  · rw [← writePhase_handler_independent gen rh rh' bcastReq cfg fuel, h]
    rfl

theorem writePhase_bcastReq_failure_witness :
    ∃ k c pre, failsAt 1 k = some "unavailable" ∧ (∀ j, j < k → failsAt 1 j = none) ∧
      [PhaseEvent.newWriteHandlers 0 50, .bcastReq 50, .startRequests 0 50 100000, .reqDone 0,
        .newWriteHandlers 1 100, .reset 100 1, .bcastReq 100] = pre ++ [.bcastReq c] ∧
      pre.countP PhaseEvent.isStartRequests = k ∧ pre.countP PhaseEvent.isReset = k ∧
      pre.countP PhaseEvent.isBcastReq = k ∧ pre.countP PhaseEvent.isFinishReports = 0 :=
  (writePhase_bcastReq_failure (fun _ => [.send {}, .close]) (fun _ => some "timeout")
    (fun _ => none) (failsAt 1) (elasticConfig "etcdv3" 0 50 50 200) 3
    { trace := [.newWriteHandlers 0 50, .bcastReq 50, .startRequests 0 50 100000, .reqDone 0,
        .newWriteHandlers 1 100, .reset 100 1, .bcastReq 100]
      outcome := .returned (some "unavailable")
      session := some
        { cfg := elasticConfig "etcdv3" 100000 50 50 200
          bar := { Total := 100000, current := 1, finished := false }
          report := [{ Err := some "timeout" }]
          reportDone := true
          stats := none
          reqHandlers := { call := 1, len := 100 }
          reqGen := advanceClients (elasticConfig "etcdv3" 100000 50 50 200)
          reqDone := some 1
          inflightReqs := { capacity := 100, queue := [] } } }
    (by decide)).1 "unavailable" rfl

theorem wrapInt64_batches (i : Nat) (hi : i < batchesToWrap) :
    wrapInt64 (100000 * (i : Int)) = 100000 * (i : Int) := by
  unfold batchesToWrap at hi
  exact wrapInt64_of_range _ (by omega) (by omega)

theorem wrapInt64_batchesToWrap :
    wrapInt64 (100000 * (batchesToWrap : Int)) = -9223372036854751616 := by
  unfold wrapInt64 batchesToWrap
  norm_num

theorem advanceClients_range (copied : Config) (h0 : 0 ≤ copied.Step2.Clients)
    (hc : copied.Step2.Clients ≤ copied.Step2.ConnectionsClientsMax)
    (hd : 0 ≤ copied.Step2.ConnectionsClientsDelta)
    (hhi : copied.Step2.ConnectionsClientsMax + copied.Step2.ConnectionsClientsDelta < 2 ^ 63) :
    0 ≤ (advanceClients copied).Step2.Clients ∧
      (advanceClients copied).Step2.Clients ≤ (advanceClients copied).Step2.ConnectionsClientsMax ∧
      (advanceClients copied).Step2.ConnectionsClientsDelta =
        copied.Step2.ConnectionsClientsDelta ∧
      (advanceClients copied).Step2.ConnectionsClientsMax =
        copied.Step2.ConnectionsClientsMax := by
  refine ⟨?_, ?_, rfl, rfl⟩
  · exact le_trans h0 (nextClients_ge _ _ _ hd (by omega) hc hhi)
  · exact nextClients_le_max _ _ _

theorem map_after_returns (evs : List PhaseEvent) (o : Option Run)
    (h : ∃ r, o = some r ∧ r.outcome = .returned none) :
    ∃ r, o.map (Run.after evs) = some r ∧ r.outcome = .returned none := by
  obtain ⟨r, hr, ho⟩ := h
  exact ⟨r.after evs, by rw [hr]; rfl, ho⟩

theorem elasticLoop_returns_after_wrap (gen : Config → List ChanEvent)
    (rh : request → Option String) (cfg : Config)
    (hT0 : cfg.Step2.TotalRequests ≤ 0)
    (hT1 : -9223372036854751616 < cfg.Step2.TotalRequests) :
    ∀ (m iter : Nat) (copied : Config) (b : benchmark), iter + m = batchesToWrap →
      0 ≤ copied.Step2.Clients →
      copied.Step2.Clients ≤ copied.Step2.ConnectionsClientsMax →
      0 ≤ copied.Step2.ConnectionsClientsDelta →
      copied.Step2.ConnectionsClientsMax + copied.Step2.ConnectionsClientsDelta < 2 ^ 63 →
      (iter = 0 ∨ b.reportDone = true) →
      ∃ r, elasticLoop gen rh (fun _ => none) cfg (m + 1) iter copied b
          (wrapInt64 (100000 * (iter : Int))) = some r ∧ r.outcome = .returned none := by
  intro m
  induction m with
  | zero =>
    intro iter copied b hm _ _ _ _ hb
    have hiter : iter = batchesToWrap := by omega
    have hrd : b.reportDone = true := by
      rcases hb with h | h
      · rw [h] at hiter; exact absurd hiter (by decide)
      · exact h
    subst hiter
    rw [wrapInt64_batchesToWrap, elasticLoop, if_neg (by omega)]
    refine ⟨_, rfl, ?_⟩
    unfold benchmark.finishReports
    simp only [hrd, if_true]
  | succ n ih =>
    intro iter copied b hm h0 hc hd hhi _
    have hlt : iter < batchesToWrap := by omega
    obtain ⟨a0, a1, a2, a3⟩ := advanceClients_range copied h0 hc hd hhi
    have hcl : ¬ (advanceClients copied).Step2.Clients < 0 := not_lt.mpr a0
    have hnext : wrapInt64 (wrapInt64 (100000 * (iter : Int)) + 100000) =
        wrapInt64 (100000 * ((iter + 1 : Nat) : Int)) := by
      rw [wrapInt64_batches iter hlt, Nat.cast_add, Nat.cast_one, mul_add, mul_one]
    rw [elasticLoop, if_pos (by rw [wrapInt64_batches iter hlt]; omega)]
    simp only [newWriteHandlers, if_neg hcl, benchmark.reset, makeChan, Option.map_some', hnext]
    apply map_after_returns
    exact ih _ _ _ (by omega) a0 a1 (by rw [a2]; exact hd) (by rw [a2, a3]; exact hhi)
      (Or.inr (waitRequestsEnd_control gen rh b.startRequests.2).2.2.2)

theorem writePhase_returns_after_wrap (gen : Config → List ChanEvent)
    (rh : request → Option String) (cfg : Config)
    (hmax : cfg.Step2.ConnectionsClientsMax ≠ 0)
    (hT0 : cfg.Step2.TotalRequests ≤ 0)
    (hT1 : -9223372036854751616 < cfg.Step2.TotalRequests)
    (h0 : 0 ≤ cfg.Step2.Clients)
    (hc : cfg.Step2.Clients ≤ cfg.Step2.ConnectionsClientsMax)
    (hd : 0 ≤ cfg.Step2.ConnectionsClientsDelta)
    (hhi : cfg.Step2.ConnectionsClientsMax + cfg.Step2.ConnectionsClientsDelta < 2 ^ 63) :
    ∃ r, writePhase gen rh (fun _ => none) cfg (batchesToWrap + 1) = some r ∧
      r.outcome = .returned none := by
  unfold writePhase
  rw [if_neg hmax]
  simp only [newWriteHandlers, if_neg (not_lt.mpr h0), newBenchmark, makeChan,
    Option.map_some']
  apply map_after_returns
  exact elasticLoop_returns_after_wrap gen rh cfg hT0 hT1 batchesToWrap 0 _ _ (by omega)
    h0 hc hd hhi (Or.inl rfl)

theorem writePhase_elastic_fresh (gen : Config → List ChanEvent)
    (rh : request → Option String) (bcastReq : Nat → Option String) (cfg : Config)
    (fuel : Nat) (r : Run) (hmax : cfg.Step2.ConnectionsClientsMax ≠ 0)
    (h : writePhase gen rh bcastReq cfg fuel = some r) :
    r.outcome = .panicked ∨
      ∃ copied b r0, copied.Database = cfg.Database ∧
        b.reqDone = (if hasTeardown cfg.Database then some 0 else none) ∧
        b.reportDone = false ∧
        elasticLoop gen rh bcastReq cfg fuel 0 copied b 0 = some r0 ∧
        r = r0.after [.newWriteHandlers 0 cfg.Step2.Clients] := by
  unfold writePhase at h
  rw [if_neg hmax] at h
  simp only [] at h
  by_cases hcl : cfg.Step2.Clients < 0
  · simp only [newWriteHandlers, if_pos hcl] at h
    exact Or.inl (by rw [← Option.some.inj h])
  · simp only [newWriteHandlers, if_neg hcl, newBenchmark, makeChan, Option.map_some'] at h
    cases h0 : elasticLoop gen rh bcastReq cfg fuel 0
        { cfg with Step2 := { cfg.Step2 with TotalRequests := 100000 } }
        { cfg := { cfg with Step2 := { cfg.Step2 with TotalRequests := 100000 } }
          bar := { Total := 100000, current := 0, finished := false }
          report := []
          reportDone := false
          stats := none
          reqHandlers := { call := 0, len := cfg.Step2.Clients }
          reqGen := { cfg with Step2 := { cfg.Step2 with TotalRequests := 100000 } }
          reqDone := if cfg.Database = "etcdv3" ∨ cfg.Database = "zookeeper" ∨
            cfg.Database = "zetcd" then some 0 else none
          inflightReqs := { capacity := cfg.Step2.Clients, queue := [] } } 0 with
    | none =>
      rw [show elasticLoop gen rh bcastReq cfg fuel 0 _ _ 0 = none from h0] at h
      cases h
    | some r0 =>
      rw [show elasticLoop gen rh bcastReq cfg fuel 0 _ _ 0 = some r0 from h0] at h
      refine Or.inr ⟨_, _, r0, ?_, ?_, ?_, h0, (Option.some.inj h).symm⟩
      · rfl
      · rfl
      · rfl

/-- C33: in the elastic write phase on a database whose handler sets have a
teardown callback, whenever the phase returns successfully the handler sets
built are the sets `0, ..., n + 1` for some `n`, and the teardown callbacks run
are those of the sets `0, ..., n`, once each and in this order: the set built
after the last batch is not torn down.  Such a return needs
`TotalRequests ≤ 0`. -/
theorem writePhase_last_set_not_torn_down (gen : Config → List ChanEvent)
    (rh : request → Option String) (bcastReq : Nat → Option String) (cfg : Config)
    (fuel : Nat) (r : Run) (hmax : cfg.Step2.ConnectionsClientsMax ≠ 0)
    (hdb : hasTeardown cfg.Database) (h : writePhase gen rh bcastReq cfg fuel = some r)
    (hout : r.outcome = .returned none) :
    cfg.Step2.TotalRequests ≤ 0 ∧
      ∃ n, r.trace.filterMap PhaseEvent.built = List.range (n + 2) ∧
        r.trace.filterMap PhaseEvent.tornDown = List.range (n + 1) := by
  rcases writePhase_elastic_fresh gen rh bcastReq cfg fuel r hmax h with
    hp | ⟨copied, b, r0, hcd, hb, hrd, h0, hr⟩
  · rw [hout] at hp; cases hp
  · rw [if_pos hdb] at hb
    have hout0 : r0.outcome = .returned none := by rw [hr] at hout; exact hout
    cases fuel with
    | zero => simp [elasticLoop] at h0
    | succ f =>
      rcases elasticLoop_step gen rh bcastReq cfg f 0 copied b 0 r0 h0 with
        ⟨_, hf⟩ | ⟨_, e, _, he⟩ | ⟨_, _, hp⟩ | ⟨hT, _, b1, r1, _, _, hd1, _, h1, hr1⟩
      · rw [hf] at hout0
        simp [benchmark.finishReports, hrd] at hout0
      · rw [he] at hout0; cases hout0
      · rw [hout0] at hp; cases hp
      · have hdb1 : hasTeardown copied.Database := by rw [hcd]; exact hdb
        rw [if_pos hdb1] at hd1
        have hout1 : r1.outcome ≠ .panicked := by
          rw [hr1] at hout0
          intro hp
          rw [show (r1.after (iterationEvents 0 copied b)).outcome = r1.outcome from rfl,
            hp] at hout0
          cases hout0
        obtain ⟨n, hn1, hn2⟩ := elasticLoop_teardown gen rh bcastReq cfg f (0 + 1)
          (advanceClients copied) b1 _ r1 hdb1 hd1 h1 hout1
        obtain ⟨e1, e2⟩ := iterationEvents_sets 0 copied b hb
        refine ⟨hT, n, ?_, ?_⟩
        · rw [hr, hr1, List.range_eq_range', List.range'_succ, List.range'_succ]
          simp only [Run.after, List.singleton_append, List.filterMap_cons, PhaseEvent.built,
            List.filterMap_append, e1, hn1]
        · rw [hr, hr1, List.range_eq_range', List.range'_succ]
          simp only [Run.after, List.singleton_append, List.filterMap_cons, PhaseEvent.built,
            PhaseEvent.tornDown, List.filterMap_append, e2, hn2]

theorem writePhase_last_set_not_torn_down_witness :
    ∃ r, writePhase (fun c => generateWrites sampleSequentialKey sampleSameKey c sampleValues)
        (fun _ => none) (fun _ => none) (elasticConfig "etcdv3" 0 50 50 200)
        (batchesToWrap + 1) = some r ∧
      r.outcome = .returned none ∧
      (elasticConfig "etcdv3" 0 50 50 200).Step2.TotalRequests ≤ 0 ∧
      ∃ n, r.trace.filterMap PhaseEvent.built = List.range (n + 2) ∧
        r.trace.filterMap PhaseEvent.tornDown = List.range (n + 1) :=
  Exists.elim
    (writePhase_returns_after_wrap
      (fun c => generateWrites sampleSequentialKey sampleSameKey c sampleValues)
      (fun _ => none) (elasticConfig "etcdv3" 0 50 50 200) (by decide) (by decide) (by decide)
      (by decide) (by decide) (by decide) (by decide))
    (fun r hr => ⟨r, hr.1, hr.2,
      writePhase_last_set_not_torn_down
        (fun c => generateWrites sampleSequentialKey sampleSameKey c sampleValues)
        (fun _ => none) (fun _ => none) (elasticConfig "etcdv3" 0 50 50 200)
        (batchesToWrap + 1) r (by decide) (by decide) hr.1 hr.2⟩)

end Control

/-! ## Properties of the wire format of the etcd flag messages -/

namespace Pb

theorem base128Varint_lt (v : Nat) (h : v < 128) : base128Varint v = [v] := by
  unfold base128Varint
  rcases Nat.eq_zero_or_pos v with h0 | h0
  · subst h0; simp [continuationBits]
  · rw [Nat.digits_of_lt 128 v (by omega) h]; rfl

theorem base128Varint_ge (v : Nat) (h : 128 ≤ v) :
    base128Varint v = (v % 128 + 128) :: base128Varint (v / 128) := by
  unfold base128Varint
  rw [Nat.digits_def' (by norm_num) (by omega)]
  have hne : Nat.digits 128 (v / 128) ≠ [] := by
    rw [Nat.digits_ne_nil_iff_ne_zero]
    have : 1 ≤ v / 128 := (Nat.le_div_iff_mul_le (by norm_num)).mpr (by omega)
    omega
  cases hds : Nat.digits 128 (v / 128) with
  | nil => exact absurd hds hne
  | cons e ds => rfl

theorem base128Varint_length_pos (v : Nat) : 1 ≤ (base128Varint v).length := by
  rcases Nat.lt_or_ge v 128 with h | h
  · rw [base128Varint_lt v h]; simp
  · rw [base128Varint_ge v h]; simp

theorem base128Varint_length_le (k : Nat) : ∀ v : Nat, v < 128 ^ (k + 1) →
    (base128Varint v).length ≤ k + 1 := by
  induction k with
  | zero =>
    intro v hv
    rw [base128Varint_lt v (by simpa using hv)]; simp
  | succ n ih =>
    intro v hv
    rcases Nat.lt_or_ge v 128 with h | h
    · rw [base128Varint_lt v h]; simp
    · rw [base128Varint_ge v h]
      have : v / 128 < 128 ^ (n + 1) := by
        rw [Nat.div_lt_iff_lt_mul (by norm_num)]
        calc v < 128 ^ (n + 1 + 1) := hv
          _ = 128 ^ (n + 1) * 128 := by ring
      have := ih (v / 128) this
      simp only [List.length_cons]
      omega

theorem toUint64_lt (x : Int) : toUint64 x < 2 ^ 64 := by
  unfold toUint64
  have h1 : 0 ≤ x % 2 ^ 64 := Int.emod_nonneg _ (by norm_num)
  have h2 : x % 2 ^ 64 < 2 ^ 64 := Int.emod_lt_of_pos _ (by norm_num)
  omega

theorem sovLoop_eq (fuel : Nat) : ∀ (x : Nat) (n : Int), x < 128 ^ (fuel + 1) →
    sovLoop (fuel + 1) x n = some (n + (base128Varint x).length) := by
  induction fuel with
  | zero =>
    intro x n hx
    have hx1 : x < 128 := by simpa using hx
    have hz : x >>> 7 = 0 := by rw [Nat.shiftRight_eq_div_pow]; omega
    simp [sovLoop, hz, base128Varint_lt x hx1]
  | succ k ih =>
    intro x n hx
    rw [sovLoop]
    rcases Nat.lt_or_ge x 128 with h | h
    · have hz : x >>> 7 = 0 := by rw [Nat.shiftRight_eq_div_pow]; omega
      simp [hz, base128Varint_lt x h]
    · have hz : x >>> 7 = x / 128 := by rw [Nat.shiftRight_eq_div_pow]
      have hnz : x / 128 ≠ 0 := by
        have : 1 ≤ x / 128 := (Nat.le_div_iff_mul_le (by norm_num)).mpr (by omega)
        omega
      have hlt : x / 128 < 128 ^ (k + 1) := by
        rw [Nat.div_lt_iff_lt_mul (by norm_num)]
        calc x < 128 ^ (k + 1 + 1) := hx
          _ = 128 ^ (k + 1) * 128 := by ring
      rw [hz, if_neg hnz, ih _ _ hlt, base128Varint_ge x h]
      simp only [List.length_cons, Nat.cast_add, Nat.cast_one]
      congr 1
      ring

theorem sovFlagEtcd_eq (x : Nat) (hx : x < 2 ^ 64) :
    sovFlagEtcd x = some ((base128Varint x).length : Int) := by
  unfold sovFlagEtcd
  rw [sovLoop_eq 63 x 0 (lt_of_lt_of_le hx (by norm_num))]
  simp

theorem and_0x7f (v : Nat) : v &&& 0x7f = v % 128 :=
  Nat.and_pow_two_sub_one_eq_mod v 7

theorem or_0x80 (d : Nat) (hd : d < 128) : d ||| 0x80 = d + 128 := by
  have h := Nat.mul_add_lt_is_or (show d < 2 ^ 7 from hd) 1
  rw [Nat.lor_comm]
  simpa [Nat.add_comm] using h.symm

theorem continuation_byte (v : Nat) : ((v &&& 0x7f) ||| 0x80) % 256 = v % 128 + 128 := by
  rw [and_0x7f, or_0x80 _ (Nat.mod_lt _ (by norm_num))]
  omega

theorem setByte_append (pre : List Nat) (z : Nat) (post : List Nat) (b : Nat) :
    setByte (pre ++ z :: post) pre.length b = some (pre ++ b :: post) := by
  unfold setByte
  rw [if_pos (by simp)]
  simp

theorem encodeVarintLoop_eq (fuel : Nat) : ∀ (v : Nat) (pre zs post : List Nat),
    v < 128 ^ (fuel + 1) → zs.length = (base128Varint v).length →
    ((pre.length + zs.length : Nat) : Int) < 2 ^ 63 →
    encodeVarintLoop (fuel + 1) (pre ++ zs ++ post) pre.length v =
      some (pre ++ base128Varint v ++ post, ((pre.length + zs.length : Nat) : Int)) := by
  induction fuel with
  | zero =>
    intro v pre zs post hv hzs hlen
    have hv1 : v < 128 := by simpa using hv
    rw [base128Varint_lt v hv1] at hzs ⊢
    obtain ⟨z, rfl⟩ := List.length_eq_one.mp hzs
    have hw : wrapInt64 ((pre.length : Int) + 1) = ((pre.length + 1 : Nat) : Int) := by
      rw [wrapInt64_of_range] <;> simp at hlen ⊢ <;> omega
    simp only [encodeVarintLoop, List.append_assoc, List.singleton_append]
    rw [if_neg (by simp; omega), setByte_append, Nat.mod_eq_of_lt (by omega), hw]
    simp
  | succ k ih =>
    intro v pre zs post hv hzs hlen
    rcases Nat.lt_or_ge v 128 with h | h
    · rw [base128Varint_lt v h] at hzs ⊢
      obtain ⟨z, rfl⟩ := List.length_eq_one.mp hzs
      have hw : wrapInt64 ((pre.length : Int) + 1) = ((pre.length + 1 : Nat) : Int) := by
        rw [wrapInt64_of_range] <;> simp at hlen ⊢ <;> omega
      rw [encodeVarintLoop]
      simp only [List.append_assoc, List.singleton_append]
      rw [if_neg (by simp; omega), setByte_append, Nat.mod_eq_of_lt (by omega), hw]
      simp
    · rw [base128Varint_ge v h] at hzs ⊢
      obtain ⟨z, zs1, rfl⟩ : ∃ z zs1, zs = z :: zs1 := by
        cases zs with
        | nil => simp at hzs
        | cons z zs1 => exact ⟨z, zs1, rfl⟩
      have hzs1 : zs1.length = (base128Varint (v / 128)).length := by simpa using hzs
      have hlt : v / 128 < 128 ^ (k + 1) := by
        rw [Nat.div_lt_iff_lt_mul (by norm_num)]
        calc v < 128 ^ (k + 1 + 1) := hv
          _ = 128 ^ (k + 1) * 128 := by ring
      have hw : wrapInt64 ((pre.length : Int) + 1) =
          (((pre ++ [v % 128 + 128]).length : Nat) : Int) := by
        rw [wrapInt64_of_range] <;> simp at hlen ⊢ <;> omega
      have hlen1 : (((pre ++ [v % 128 + 128]).length + zs1.length : Nat) : Int) < 2 ^ 63 := by
        simp at hlen ⊢; omega
      have := ih (v / 128) (pre ++ [v % 128 + 128]) zs1 post hlt hzs1 hlen1
      rw [encodeVarintLoop]
      simp only [List.append_assoc, List.cons_append]
      rw [if_pos (by simp; omega), setByte_append, continuation_byte, hw,
        Nat.shiftRight_eq_div_pow]
      simp only [List.append_assoc, List.singleton_append, List.cons_append,
        List.nil_append] at this
      simp only [] 
      rw [show v / 2 ^ 7 = v / 128 from rfl, this]
      simp
      omega

theorem fieldBytes_length_le (tag : Nat) (x : Int) : (fieldBytes tag x).length ≤ 11 := by
  unfold fieldBytes
  split_ifs
  · simp
  · have := base128Varint_length_le 9 (toUint64 x)
      (lt_of_lt_of_le (toUint64_lt x) (by norm_num))
    simp only [List.length_cons]
    omega

theorem marshalField_eq (tag : Nat) (x : Int) (pre zs post : List Nat)
    (hzs : zs.length = (fieldBytes tag x).length)
    (hlen : ((pre.length + zs.length : Nat) : Int) < 2 ^ 63) :
    marshalField tag x (pre ++ zs ++ post) pre.length =
      some (pre ++ fieldBytes tag x ++ post, ((pre.length + zs.length : Nat) : Int)) := by
  unfold marshalField fieldBytes at *
  by_cases hx : x = 0
  · simp only [hx, if_true, List.length_nil, List.length_eq_zero] at hzs
    subst hzs
    simp [hx]
  · simp only [hx, if_false, List.length_cons] at hzs
    obtain ⟨z, zs1, rfl⟩ : ∃ z zs1, zs = z :: zs1 := by
      cases zs with
      | nil => simp at hzs
      | cons z zs1 => exact ⟨z, zs1, rfl⟩
    have hzs1 : zs1.length = (base128Varint (toUint64 x)).length := by simpa using hzs
    have hw : wrapInt64 ((pre.length : Int) + 1) = (((pre ++ [tag]).length : Nat) : Int) := by
      rw [wrapInt64_of_range] <;> simp at hlen ⊢ <;> omega
    have hlen1 : (((pre ++ [tag]).length + zs1.length : Nat) : Int) < 2 ^ 63 := by
      simp at hlen ⊢; omega
    have := encodeVarintLoop_eq 63 (toUint64 x) (pre ++ [tag]) zs1 post
      (lt_of_lt_of_le (toUint64_lt x) (by norm_num)) hzs1 hlen1
    simp only [List.append_assoc, List.singleton_append, List.cons_append,
      List.nil_append] at this
    rw [if_pos hx, if_neg hx]
    simp only [List.append_assoc, List.cons_append]
    rw [setByte_append, Option.some_bind, hw]
    unfold encodeVarintFlagEtcd
    rw [this]
    simp
    omega

theorem marshalToFields_eq (snapshotCount quotaSizeBytes : Int) (dAtA : List Nat)
    (h : dAtA.length = (fieldBytes 0x8 snapshotCount ++ fieldBytes 0x10 quotaSizeBytes).length) :
    marshalToFields snapshotCount quotaSizeBytes dAtA =
      some (fieldBytes 0x8 snapshotCount ++ fieldBytes 0x10 quotaSizeBytes,
        (dAtA.length : Int)) := by
  have h1 := fieldBytes_length_le 0x8 snapshotCount
  have h2 := fieldBytes_length_le 0x10 quotaSizeBytes
  rw [List.length_append] at h
  obtain ⟨zs1, zs2, rfl, hz1, hz2⟩ : ∃ zs1 zs2, dAtA = zs1 ++ zs2 ∧
      zs1.length = (fieldBytes 0x8 snapshotCount).length ∧
      zs2.length = (fieldBytes 0x10 quotaSizeBytes).length := by
    refine ⟨dAtA.take (fieldBytes 0x8 snapshotCount).length,
      dAtA.drop (fieldBytes 0x8 snapshotCount).length, (List.take_append_drop _ _).symm, ?_, ?_⟩
    · rw [List.length_take]; omega
    · rw [List.length_drop]; omega
  unfold marshalToFields
  have e1 := marshalField_eq 0x8 snapshotCount [] zs1 zs2 hz1 (by simp; omega)
  simp only [List.nil_append, List.length_nil, Nat.zero_add, Nat.cast_zero] at e1
  have e1' : marshalField 0x8 snapshotCount (zs1 ++ zs2) 0 =
      some (fieldBytes 0x8 snapshotCount ++ zs2, (zs1.length : Int)) := by
    simpa using e1
  rw [e1', Option.some_bind]
  have e2 := marshalField_eq 0x10 quotaSizeBytes (fieldBytes 0x8 snapshotCount) zs2 [] hz2
    (by simp; omega)
  simp only [List.append_nil] at e2
  simp only []
  rw [← hz1] at e2
  rw [e2]
  simp [hz1]

theorem sizeFields_eq (snapshotCount quotaSizeBytes : Int) :
    sizeFields snapshotCount quotaSizeBytes =
      some (((fieldBytes 0x8 snapshotCount ++ fieldBytes 0x10 quotaSizeBytes).length : Nat) :
        Int) := by
  unfold sizeFields fieldBytes
  by_cases h1 : snapshotCount = 0 <;> by_cases h2 : quotaSizeBytes = 0 <;>
    simp [h1, h2, sovFlagEtcd_eq _ (toUint64_lt _)] <;> ring

theorem marshalFields_eq (snapshotCount quotaSizeBytes : Int) :
    marshalFields snapshotCount quotaSizeBytes =
      some (fieldBytes 0x8 snapshotCount ++ fieldBytes 0x10 quotaSizeBytes) := by
  unfold marshalFields
  rw [sizeFields_eq, Option.some_bind]
  unfold makeBytes
  rw [if_neg (by omega), Option.some_bind, Int.toNat_ofNat,
    marshalToFields_eq _ _ _ (by simp), Option.some_bind]
  unfold sliceTo
  simp
  omega

theorem accumulate_eq (acc b shift : Nat) (hacc : acc < 2 ^ shift)
    (hb : b % 128 * 2 ^ shift < 2 ^ 64) :
    acc ||| (((b &&& 0x7F) <<< shift) % 2 ^ 64) = acc + b % 128 * 2 ^ shift := by
  rw [show (0x7F : Nat) = 0x7f from rfl, and_0x7f, Nat.shiftLeft_eq, Nat.mod_eq_of_lt hb,
    Nat.lor_comm, Nat.mul_comm, ← Nat.mul_add_lt_is_or hacc, Nat.add_comm]

theorem getElem?_at_length (pre : List Nat) (b : Nat) (rest : List Nat) :
    (pre ++ b :: rest)[pre.length]? = some b := by
  rw [List.getElem?_append_right (le_refl _)]
  simp

theorem wrapInt64_succ (n : Nat) (l : Int) (h1 : (n : Int) < l) (h2 : l < 2 ^ 63) :
    wrapInt64 ((n : Int) + 1) = ((n + 1 : Nat) : Int) := by
  rw [wrapInt64_of_range] <;> push_cast <;> omega

theorem shift_add_seven (w shift : Nat) (hw : w < 2 ^ (64 - shift)) (h : 128 ≤ w) :
    shift + 7 < 64 := by
  by_contra hcon
  have h1 : 2 ^ (64 - shift) ≤ 2 ^ 7 :=
    Nat.pow_le_pow_right (by norm_num) (Nat.sub_le_of_le_add (by
      have := Nat.not_lt.mp hcon
      calc 64 ≤ shift + 7 := this
        _ = 7 + shift := Nat.add_comm _ _))
  have h2 : w < 2 ^ 7 := lt_of_lt_of_le hw h1
  exact absurd h2 (not_lt.mpr (by simpa using h))

theorem div_lt_pow (w shift : Nat) (hs7 : shift + 7 < 64) (hw : w < 2 ^ (64 - shift)) :
    w / 128 < 2 ^ (64 - (shift + 7)) := by
  rw [Nat.div_lt_iff_lt_mul (by norm_num)]
  have e : 64 - shift = 64 - (shift + 7) + 7 := by
    clear hw; omega
  calc w < 2 ^ (64 - shift) := hw
    _ = 2 ^ (64 - (shift + 7)) * 128 := by rw [e, pow_add]; norm_num

theorem low_mul_lt (w shift : Nat) (hs : shift < 64) (hw : w < 2 ^ (64 - shift)) :
    w * 2 ^ shift < 2 ^ 64 := by
  have e : 64 = 64 - shift + shift := by
    clear hw; omega
  calc w * 2 ^ shift < 2 ^ (64 - shift) * 2 ^ shift :=
        Nat.mul_lt_mul_of_pos_right hw (by positivity)
    _ = 2 ^ 64 := by rw [← pow_add, ← e]

theorem digit_mul_lt (d shift : Nat) (hd : d < 128) (hs7 : shift + 7 ≤ 64) :
    d * 2 ^ shift < 2 ^ 64 := by
  calc d * 2 ^ shift < 2 ^ 7 * 2 ^ shift :=
        Nat.mul_lt_mul_of_pos_right (by simpa using hd) (by positivity)
    _ = 2 ^ (7 + shift) := by rw [← pow_add]
    _ ≤ 2 ^ 64 := Nat.pow_le_pow_right (by norm_num) (by omega)

theorem acc_add_lt (acc d shift : Nat) (hacc : acc < 2 ^ shift) (hd : d < 128) :
    acc + d * 2 ^ shift < 2 ^ (shift + 7) := by
  have h1 : d * 2 ^ shift ≤ 127 * 2 ^ shift := Nat.mul_le_mul_right _ (by omega)
  have h2 : 2 ^ (shift + 7) = 128 * 2 ^ shift := by rw [pow_add]; ring
  rw [h2]
  generalize 2 ^ shift = p at *
  omega

theorem recompose (acc w shift : Nat) :
    acc + w % 128 * 2 ^ shift + w / 128 * 2 ^ (shift + 7) = acc + w * 2 ^ shift := by
  have h2 : 2 ^ (shift + 7) = 128 * 2 ^ shift := by rw [pow_add]; ring
  have h3 := Nat.div_add_mod w 128
  rw [h2]
  calc acc + w % 128 * 2 ^ shift + w / 128 * (128 * 2 ^ shift)
      = acc + (128 * (w / 128) + w % 128) * 2 ^ shift := by ring
    _ = acc + w * 2 ^ shift := by rw [h3]

theorem varintLoop_varint (dAtA : List Nat) (l : Int) (hl : l = dAtA.length)
    (hlen : l < 2 ^ 63) (fuel : Nat) :
    ∀ (w shift acc : Nat) (pre post : List Nat), dAtA = pre ++ base128Varint w ++ post →
      (base128Varint w).length ≤ fuel → shift < 64 → w < 2 ^ (64 - shift) → acc < 2 ^ shift →
      varintLoop dAtA l fuel shift pre.length acc =
        .ok (((pre.length + (base128Varint w).length : Nat) : Int), acc + w * 2 ^ shift) := by
  induction fuel with
  | zero =>
    intro w shift acc pre post _ hf
    have := base128Varint_length_pos w
    omega
  | succ k ih =>
    intro w shift acc pre post hd hf hs hw hacc
    have c1 : ¬ shift ≥ 64 := not_le.mpr hs
    have c3 : (0 : Int) ≤ pre.length := Int.natCast_nonneg _
    rcases Nat.lt_or_ge w 128 with h | h
    · rw [base128Varint_lt w h] at hd hf ⊢
      have hget : dAtA[pre.length]? = some w := by
        rw [hd, List.append_assoc]; exact getElem?_at_length _ _ _
      have hlt : (pre.length : Int) < l := by
        have : pre.length < dAtA.length := by rw [hd]; simp
        rw [hl]; exact_mod_cast this
      have hb : w % 128 * 2 ^ shift < 2 ^ 64 := by
        rw [Nat.mod_eq_of_lt h]; exact low_mul_lt w shift hs hw
      have hw1 := wrapInt64_succ pre.length l hlt hlen
      rw [varintLoop]
      rw [if_neg c1, if_neg (not_le.mpr hlt), if_pos c3, Int.toNat_ofNat, hget]
      simp only []
      rw [if_pos (show w < 0x80 from h), accumulate_eq _ _ _ hacc hb, Nat.mod_eq_of_lt h, hw1]
      rfl
    · rw [base128Varint_ge w h] at hd hf ⊢
      have hget : dAtA[pre.length]? = some (w % 128 + 128) := by
        rw [hd, List.append_assoc]; exact getElem?_at_length _ _ _
      have hlt : (pre.length : Int) < l := by
        have : pre.length < dAtA.length := by rw [hd]; simp
        rw [hl]; exact_mod_cast this
      have hs7 := shift_add_seven w shift hw h
      have hmod : (w % 128 + 128) % 128 = w % 128 := by
        clear hw hacc; omega
      have hb : (w % 128 + 128) % 128 * 2 ^ shift < 2 ^ 64 := by
        rw [hmod]
        exact digit_mul_lt _ _ (Nat.mod_lt _ (by norm_num)) (le_of_lt hs7)
      have hw1 : wrapInt64 ((pre.length : Int) + 1) =
          (((pre ++ [w % 128 + 128]).length : Nat) : Int) := by
        rw [wrapInt64_succ pre.length l hlt hlen]; simp
      have hw' := div_lt_pow w shift hs7 hw
      have hacc' := acc_add_lt acc (w % 128) shift hacc (Nat.mod_lt _ (by norm_num))
      have hf' : (base128Varint (w / 128)).length ≤ k := by
        simp only [List.length_cons] at hf
        exact Nat.le_of_succ_le_succ hf
      have := ih (w / 128) (shift + 7) (acc + w % 128 * 2 ^ shift) (pre ++ [w % 128 + 128]) post
        (by rw [hd]; simp) hf' hs7 hw' hacc'
      have hnb : ¬ w % 128 + 128 < 0x80 := by
        clear hw hacc hw' hacc' hb; omega
      rw [varintLoop]
      rw [if_neg c1, if_neg (not_le.mpr hlt), if_pos c3, Int.toNat_ofNat, hget]
      simp only []
      have e : (pre ++ [w % 128 + 128]).length + (base128Varint (w / 128)).length =
          pre.length + ((w % 128 + 128) :: base128Varint (w / 128)).length := by
        simp only [List.length_append, List.length_cons, List.length_nil]
        ring
      rw [if_neg hnb, accumulate_eq _ _ _ hacc hb, hmod, hw1, this, recompose, e]

theorem toInt64_toUint64 (x : Int) (h0 : -(2 ^ 63) ≤ x) (h1 : x < 2 ^ 63) :
    toInt64 (toUint64 x) = x := by
  unfold toInt64 toUint64 wrapInt64
  have h2 : 0 ≤ x % 2 ^ 64 := Int.emod_nonneg _ (by norm_num)
  rw [Int.toNat_of_nonneg h2]
  omega

theorem varintLoop_truncated (dAtA : List Nat) (l : Int) (hl : l = dAtA.length)
    (hlen : l < 2 ^ 63) (fuel : Nat) :
    ∀ (w shift acc : Nat) (pre p : List Nat), dAtA = pre ++ p → p <+: base128Varint w →
      p ≠ base128Varint w → p.length < fuel → shift < 64 → w < 2 ^ (64 - shift) →
      varintLoop dAtA l fuel shift pre.length acc = .error .ErrUnexpectedEOF := by
  induction fuel with
  | zero => intro w shift acc pre p _ _ _ hf; exact absurd hf (Nat.not_lt_zero _)
  | succ k ih =>
    intro w shift acc pre p hd hp hne hf hs hw
    have c1 : ¬ shift ≥ 64 := not_le.mpr hs
    have c3 : (0 : Int) ≤ pre.length := Int.natCast_nonneg _
    cases p with
    | nil =>
      have hge : (pre.length : Int) ≥ l := by
        rw [hl, hd]; simp
      rw [varintLoop, if_neg c1, if_pos hge]
    | cons b p1 =>
      have hge : 128 ≤ w := by
        by_contra hcon
        rw [base128Varint_lt w (not_le.mp hcon)] at hp hne
        cases p1 with
        | nil => exact hne (List.IsPrefix.eq_of_length hp (by simp))
        | cons c p2 =>
          have := List.IsPrefix.length_le hp
          simp at this
      rw [base128Varint_ge w hge] at hp hne
      obtain ⟨hb, hp1⟩ := List.cons_prefix_cons.mp hp
      have hne1 : p1 ≠ base128Varint (w / 128) := by
        intro hcon; apply hne; rw [hb, hcon]
      have hget : dAtA[pre.length]? = some (w % 128 + 128) := by
        rw [hd, hb]; exact getElem?_at_length _ _ _
      have hlt : (pre.length : Int) < l := by
        have : pre.length < dAtA.length := by rw [hd]; simp
        rw [hl]; exact_mod_cast this
      have hs7 := shift_add_seven w shift hw hge
      have hw' := div_lt_pow w shift hs7 hw
      have hw1 : wrapInt64 ((pre.length : Int) + 1) =
          (((pre ++ [w % 128 + 128]).length : Nat) : Int) := by
        rw [wrapInt64_succ pre.length l hlt hlen]; simp
      have hnb : ¬ w % 128 + 128 < 0x80 := by
        clear hw hw'; omega
      have hf' : p1.length < k := by
        simp only [List.length_cons] at hf
        exact Nat.lt_of_succ_lt_succ hf
      rw [varintLoop]
      rw [if_neg c1, if_neg (not_le.mpr hlt), if_pos c3, Int.toNat_ofNat, hget]
      simp only []
      rw [if_neg hnb, hw1]
      exact ih (w / 128) (shift + 7) _ (pre ++ [w % 128 + 128]) p1 (by rw [hd, hb]; simp) hp1
        hne1 hf' hs7 hw'

theorem readVarint_tag (dAtA : List Nat) (l : Int) (hl : l = dAtA.length) (hlen : l < 2 ^ 63)
    (tag : Nat) (htag : tag < 128) (pre post : List Nat) (hd : dAtA = pre ++ tag :: post) :
    readVarint dAtA l pre.length = .ok (((pre.length + 1 : Nat) : Int), tag) := by
  have hv := base128Varint_lt tag htag
  have h := varintLoop_varint dAtA l hl hlen 11 tag 0 0 pre post
    (by rw [hv, hd]; simp) (by rw [hv]; simp) (by norm_num)
    (lt_of_lt_of_le htag (by norm_num)) (by norm_num)
  rw [hv] at h
  unfold readVarint
  rw [h]
  simp

theorem readVarint_value (dAtA : List Nat) (l : Int) (hl : l = dAtA.length)
    (hlen : l < 2 ^ 63) (v : Nat) (hv : v < 2 ^ 64) (pre post : List Nat)
    (hd : dAtA = pre ++ base128Varint v ++ post) :
    readVarint dAtA l pre.length =
      .ok (((pre.length + (base128Varint v).length : Nat) : Int), v) := by
  have hle : (base128Varint v).length ≤ 11 :=
    le_trans (base128Varint_length_le 9 v (lt_of_lt_of_le hv (by norm_num))) (by norm_num)
  have h := varintLoop_varint dAtA l hl hlen 11 v 0 0 pre post hd hle (by norm_num)
    (by simpa using hv) (by norm_num)
  unfold readVarint
  rw [h]
  simp

theorem readVarint_truncated (dAtA : List Nat) (l : Int) (hl : l = dAtA.length)
    (hlen : l < 2 ^ 63) (v : Nat) (hv : v < 2 ^ 64) (pre p : List Nat) (hd : dAtA = pre ++ p)
    (hp : p <+: base128Varint v) (hne : p ≠ base128Varint v) :
    readVarint dAtA l pre.length = .error .ErrUnexpectedEOF := by
  have hle : (base128Varint v).length ≤ 10 :=
    base128Varint_length_le 9 v (lt_of_lt_of_le hv (by norm_num))
  have hplen : p.length < 11 := lt_of_le_of_lt (le_trans (List.IsPrefix.length_le hp) hle)
    (by norm_num)
  exact varintLoop_truncated dAtA l hl hlen 11 v 0 0 pre p hd hp hne hplen (by norm_num)
    (by simpa using hv)

theorem field_tag (tag : Nat) (htag : tag = 0x8 ∨ tag = 0x10) :
    ¬ tag &&& 0x7 = 4 ∧ ¬ toInt32 (tag >>> 3) ≤ 0 ∧ tag &&& 0x7 = 0 ∧
      (tag = 0x8 → toInt32 (tag >>> 3) = 1) ∧
      (tag = 0x10 → ¬ toInt32 (tag >>> 3) = 1 ∧ toInt32 (tag >>> 3) = 2) := by
  rcases htag with rfl | rfl <;> decide

theorem unmarshalLoop_field (skipFuel : Nat) (dAtA : List Nat) (l : Int)
    (hl : l = dAtA.length) (hlen : l < 2 ^ 63) (tag : Nat) (htag : tag = 0x8 ∨ tag = 0x10)
    (v : Nat) (hv : v < 2 ^ 64) (pre post : List Nat)
    (hd : dAtA = pre ++ tag :: base128Varint v ++ post) (fuel : Nat) (m : Int × Int) :
    unmarshalLoop skipFuel dAtA l (fuel + 1) pre.length m =
      unmarshalLoop skipFuel dAtA l fuel
        (((pre.length + 1 + (base128Varint v).length : Nat) : Int)) (storeField tag v m) := by
  have hlt : (pre.length : Int) < l := by
    have : pre.length < dAtA.length := by rw [hd]; simp
    rw [hl]; exact_mod_cast this
  have ht : tag < 128 := by rcases htag with rfl | rfl <;> norm_num
  have h1 := readVarint_tag dAtA l hl hlen tag ht pre (base128Varint v ++ post)
    (by rw [hd]; simp)
  have h2 := readVarint_value dAtA l hl hlen v hv (pre ++ [tag]) post (by rw [hd]; simp)
  rw [List.length_append, List.length_singleton] at h2
  obtain ⟨t1, t2, t3, t4, t5⟩ := field_tag tag htag
  rw [unmarshalLoop, if_pos hlt]
  simp only [h1]
  rw [if_neg t1, if_neg t2]
  rcases htag with rfl | rfl
  · rw [if_pos (t4 rfl), if_neg (not_not.mpr t3)]
    simp only [h2, storeField, if_true]
  · rw [if_neg (t5 rfl).1, if_pos (t5 rfl).2, if_neg (not_not.mpr t3)]
    simp only [h2, storeField]
    rw [if_neg (by decide)]

theorem unmarshalLoop_truncated (skipFuel : Nat) (dAtA : List Nat) (l : Int)
    (hl : l = dAtA.length) (hlen : l < 2 ^ 63) (tag : Nat) (htag : tag = 0x8 ∨ tag = 0x10)
    (v : Nat) (hv : v < 2 ^ 64) (pre p : List Nat) (hd : dAtA = pre ++ tag :: p)
    (hp : p <+: base128Varint v) (hne : p ≠ base128Varint v) (fuel : Nat) (m : Int × Int) :
    unmarshalLoop skipFuel dAtA l (fuel + 1) pre.length m = some (.error .ErrUnexpectedEOF) := by
  have hlt : (pre.length : Int) < l := by
    have : pre.length < dAtA.length := by rw [hd]; simp
    rw [hl]; exact_mod_cast this
  have ht : tag < 128 := by rcases htag with rfl | rfl <;> norm_num
  have h1 := readVarint_tag dAtA l hl hlen tag ht pre p hd
  have h2 := readVarint_truncated dAtA l hl hlen v hv (pre ++ [tag]) p (by rw [hd]; simp) hp hne
  rw [List.length_append, List.length_singleton] at h2
  obtain ⟨t1, t2, t3, t4, t5⟩ := field_tag tag htag
  rw [unmarshalLoop, if_pos hlt]
  simp only [h1]
  rw [if_neg t1, if_neg t2]
  rcases htag with rfl | rfl
  · rw [if_pos (t4 rfl), if_neg (not_not.mpr t3)]
    simp only [h2]
  · rw [if_neg (t5 rfl).1, if_pos (t5 rfl).2, if_neg (not_not.mpr t3)]
    simp only [h2]

theorem unmarshalLoop_end (skipFuel : Nat) (dAtA : List Nat) (l : Int) (fuel : Nat)
    (m : Int × Int) : unmarshalLoop skipFuel dAtA l (fuel + 1) l m = some (.ok m) := by
  rw [unmarshalLoop, if_neg (lt_irrefl _), if_neg (lt_irrefl _)]

theorem length_lt_of_le (dAtA : List Nat) (h : dAtA.length ≤ 64) :
    ((dAtA.length : Nat) : Int) < 2 ^ 63 := by
  have : ((dAtA.length : Nat) : Int) ≤ 64 := by exact_mod_cast h
  exact lt_of_le_of_lt this (by norm_num)

theorem unmarshalFields_nil (n : Nat) (m : Int × Int) :
    unmarshalFields (n + 1) m [] = some (.ok m) := by
  unfold unmarshalFields
  exact unmarshalLoop_end _ _ _ _ _

theorem unmarshalFields_one (n : Nat) (m : Int × Int) (tag : Nat)
    (htag : tag = 0x8 ∨ tag = 0x10) (v : Nat) (hv : v < 2 ^ 64) :
    unmarshalFields (n + 2) m (tag :: base128Varint v) = some (.ok (storeField tag v m)) := by
  have hle := base128Varint_length_le 9 v (lt_of_lt_of_le hv (by norm_num))
  have hlen := length_lt_of_le (tag :: base128Varint v) (by simp; omega)
  unfold unmarshalFields
  have h := unmarshalLoop_field (n + 2) (tag :: base128Varint v) _ rfl hlen tag htag v hv [] []
    (by simp) (n + 1) m
  have e : (((([] : List Nat).length + 1 + (base128Varint v).length : Nat)) : Int) =
      (((tag :: base128Varint v).length : Nat) : Int) := by
    simp only [List.length_nil, List.length_cons]; congr 1; ring
  rw [e] at h
  exact h.trans (unmarshalLoop_end _ _ _ _ _)

theorem unmarshalFields_two (n : Nat) (m : Int × Int) (v1 v2 : Nat) (hv1 : v1 < 2 ^ 64)
    (hv2 : v2 < 2 ^ 64) :
    unmarshalFields (n + 3) m (0x8 :: base128Varint v1 ++ 0x10 :: base128Varint v2) =
      some (.ok (storeField 0x10 v2 (storeField 0x8 v1 m))) := by
  have hle1 := base128Varint_length_le 9 v1 (lt_of_lt_of_le hv1 (by norm_num))
  have hle2 := base128Varint_length_le 9 v2 (lt_of_lt_of_le hv2 (by norm_num))
  have hlen := length_lt_of_le (0x8 :: base128Varint v1 ++ 0x10 :: base128Varint v2)
    (by simp; omega)
  unfold unmarshalFields
  have h1 := unmarshalLoop_field (n + 3) (0x8 :: base128Varint v1 ++ 0x10 :: base128Varint v2)
    _ rfl hlen 0x8 (Or.inl rfl) v1 hv1 [] (0x10 :: base128Varint v2) (by simp) (n + 2) m
  have e1 : (((([] : List Nat).length + 1 + (base128Varint v1).length : Nat)) : Int) =
      (((0x8 :: base128Varint v1).length : Nat) : Int) := by
    simp only [List.length_nil, List.length_cons]; congr 1; ring
  rw [e1] at h1
  have h2 := unmarshalLoop_field (n + 3) (0x8 :: base128Varint v1 ++ 0x10 :: base128Varint v2)
    _ rfl hlen 0x10 (Or.inr rfl) v2 hv2 (0x8 :: base128Varint v1) [] (by simp) (n + 1)
    (storeField 0x8 v1 m)
  have e2 : ((((0x8 :: base128Varint v1).length + 1 + (base128Varint v2).length : Nat)) : Int) =
      (((0x8 :: base128Varint v1 ++ 0x10 :: base128Varint v2).length : Nat) : Int) := by
    simp only [List.length_append, List.length_cons]; congr 1; ring
  rw [e2] at h2
  exact h1.trans (h2.trans (unmarshalLoop_end _ _ _ _ _))

theorem unmarshalFields_truncated_one (n : Nat) (m : Int × Int) (tag : Nat)
    (htag : tag = 0x8 ∨ tag = 0x10) (v : Nat) (hv : v < 2 ^ 64) (p : List Nat)
    (hp : p <+: base128Varint v) (hne : p ≠ base128Varint v) :
    unmarshalFields (n + 1) m (tag :: p) = some (.error .ErrUnexpectedEOF) := by
  have hle := base128Varint_length_le 9 v (lt_of_lt_of_le hv (by norm_num))
  have hpl := List.IsPrefix.length_le hp
  have hlen := length_lt_of_le (tag :: p) (by simp; omega)
  unfold unmarshalFields
  exact unmarshalLoop_truncated (n + 1) (tag :: p) _ rfl hlen tag htag v hv [] p (by simp) hp
    hne n m

theorem unmarshalFields_truncated_two (n : Nat) (m : Int × Int) (v1 v2 : Nat)
    (hv1 : v1 < 2 ^ 64) (hv2 : v2 < 2 ^ 64) (p : List Nat) (hp : p <+: base128Varint v2)
    (hne : p ≠ base128Varint v2) :
    unmarshalFields (n + 2) m (0x8 :: base128Varint v1 ++ 0x10 :: p) =
      some (.error .ErrUnexpectedEOF) := by
  have hle1 := base128Varint_length_le 9 v1 (lt_of_lt_of_le hv1 (by norm_num))
  have hle2 := base128Varint_length_le 9 v2 (lt_of_lt_of_le hv2 (by norm_num))
  have hpl := List.IsPrefix.length_le hp
  have hlen := length_lt_of_le (0x8 :: base128Varint v1 ++ 0x10 :: p) (by simp; omega)
  unfold unmarshalFields
  have h1 := unmarshalLoop_field (n + 2) (0x8 :: base128Varint v1 ++ 0x10 :: p)
    _ rfl hlen 0x8 (Or.inl rfl) v1 hv1 [] (0x10 :: p) (by simp) (n + 1) m
  have e1 : (((([] : List Nat).length + 1 + (base128Varint v1).length : Nat)) : Int) =
      (((0x8 :: base128Varint v1).length : Nat) : Int) := by
    simp only [List.length_nil, List.length_cons]; congr 1; ring
  rw [e1] at h1
  exact h1.trans (unmarshalLoop_truncated (n + 2) (0x8 :: base128Varint v1 ++ 0x10 :: p) _ rfl
    hlen 0x10 (Or.inr rfl) v2 hv2 (0x8 :: base128Varint v1) p (by simp) hp hne n _)

theorem storeField_snapshot (x : Int) (h0 : -(2 ^ 63) ≤ x) (h1 : x < 2 ^ 63) (m : Int × Int) :
    storeField 0x8 (toUint64 x) m = (x, m.2) := by
  unfold storeField
  rw [if_pos rfl, toInt64_toUint64 x h0 h1]

theorem storeField_quota (x : Int) (h0 : -(2 ^ 63) ≤ x) (h1 : x < 2 ^ 63) (m : Int × Int) :
    storeField 0x10 (toUint64 x) m = (m.1, x) := by
  unfold storeField
  rw [if_neg (by decide), toInt64_toUint64 x h0 h1]

theorem unmarshalFields_marshal (snapshotCount quotaSizeBytes : Int)
    (hs0 : -(2 ^ 63) ≤ snapshotCount) (hs1 : snapshotCount < 2 ^ 63)
    (hq0 : -(2 ^ 63) ≤ quotaSizeBytes) (hq1 : quotaSizeBytes < 2 ^ 63) (n : Nat) :
    unmarshalFields (n + 3) (0, 0)
        (fieldBytes 0x8 snapshotCount ++ fieldBytes 0x10 quotaSizeBytes) =
      some (.ok (snapshotCount, quotaSizeBytes)) := by
  unfold fieldBytes
  by_cases h1 : snapshotCount = 0 <;> by_cases h2 : quotaSizeBytes = 0
  · rw [if_pos h1, if_pos h2, h1, h2]
    exact unmarshalFields_nil _ _
  · rw [if_pos h1, if_neg h2, List.nil_append,
      unmarshalFields_one (n + 1) _ _ (Or.inr rfl) _ (toUint64_lt _),
      storeField_quota _ hq0 hq1, h1]
  · rw [if_neg h1, if_pos h2, List.append_nil,
      unmarshalFields_one (n + 1) _ _ (Or.inl rfl) _ (toUint64_lt _),
      storeField_snapshot _ hs0 hs1, h2]
  · rw [if_neg h1, if_neg h2,
      unmarshalFields_two n _ _ _ (toUint64_lt _) (toUint64_lt _),
      storeField_snapshot _ hs0 hs1, storeField_quota _ hq0 hq1]

/-- C25: for each of the three message types and every message with `int64`
fields, `Marshal` returns a byte string, and `Unmarshal` of it into the zero
message returns no error and yields the message. -/
theorem Marshal_Unmarshal_roundtrip (snapshotCount quotaSizeBytes : Int)
    (hs0 : -(2 ^ 63) ≤ snapshotCount) (hs1 : snapshotCount < 2 ^ 63)
    (hq0 : -(2 ^ 63) ≤ quotaSizeBytes) (hq1 : quotaSizeBytes < 2 ^ 63) (fuel : Nat) :
    (∃ dAtA, Flag_Etcd_Tip.Marshal ⟨snapshotCount, quotaSizeBytes⟩ = some dAtA ∧
        Flag_Etcd_Tip.Unmarshal (fuel + 3) ⟨0, 0⟩ dAtA =
          some (.ok ⟨snapshotCount, quotaSizeBytes⟩)) ∧
      (∃ dAtA, Flag_Etcd_V3_2.Marshal ⟨snapshotCount, quotaSizeBytes⟩ = some dAtA ∧
        Flag_Etcd_V3_2.Unmarshal (fuel + 3) ⟨0, 0⟩ dAtA =
          some (.ok ⟨snapshotCount, quotaSizeBytes⟩)) ∧
      (∃ dAtA, Flag_Etcd_V3_3.Marshal ⟨snapshotCount, quotaSizeBytes⟩ = some dAtA ∧
        Flag_Etcd_V3_3.Unmarshal (fuel + 3) ⟨0, 0⟩ dAtA =
          some (.ok ⟨snapshotCount, quotaSizeBytes⟩)) := by
  have h := unmarshalFields_marshal snapshotCount quotaSizeBytes hs0 hs1 hq0 hq1 fuel
  refine ⟨⟨_, marshalFields_eq _ _, ?_⟩, ⟨_, marshalFields_eq _ _, ?_⟩,
    ⟨_, marshalFields_eq _ _, ?_⟩⟩
  · unfold Flag_Etcd_Tip.Unmarshal; rw [h]; rfl
  · unfold Flag_Etcd_V3_2.Unmarshal; rw [h]; rfl
  · unfold Flag_Etcd_V3_3.Unmarshal; rw [h]; rfl

theorem Marshal_Unmarshal_roundtrip_witness :
    (∃ dAtA, Flag_Etcd_Tip.Marshal ⟨-1, 8000000000⟩ = some dAtA ∧
        Flag_Etcd_Tip.Unmarshal (0 + 3) ⟨0, 0⟩ dAtA = some (.ok ⟨-1, 8000000000⟩)) ∧
      (∃ dAtA, Flag_Etcd_V3_2.Marshal ⟨-1, 8000000000⟩ = some dAtA ∧
        Flag_Etcd_V3_2.Unmarshal (0 + 3) ⟨0, 0⟩ dAtA = some (.ok ⟨-1, 8000000000⟩)) ∧
      (∃ dAtA, Flag_Etcd_V3_3.Marshal ⟨-1, 8000000000⟩ = some dAtA ∧
        Flag_Etcd_V3_3.Unmarshal (0 + 3) ⟨0, 0⟩ dAtA = some (.ok ⟨-1, 8000000000⟩)) :=
  Marshal_Unmarshal_roundtrip (-1) 8000000000 (by decide) (by decide) (by decide) (by decide) 0

/-- C26: on the 12-byte input `hugeLengthInput` the skip of the unknown field
returns `2 ^ 63 - 1`, the sum `iNdEx + skippy` wraps to `-(2 ^ 63) + 1`, which
passes the test against `l`, and the next iteration indexes the input at that
negative index: `Unmarshal` panics, for each of the three message types. -/
theorem Unmarshal_huge_length_panics (fuel : Nat) :
    Flag_Etcd_Tip.Unmarshal (fuel + 3) ⟨0, 0⟩ hugeLengthInput =
        some (.panic (.indexOutOfRange (-9223372036854775807))) ∧
      Flag_Etcd_V3_2.Unmarshal (fuel + 3) ⟨0, 0⟩ hugeLengthInput =
        some (.panic (.indexOutOfRange (-9223372036854775807))) ∧
      Flag_Etcd_V3_3.Unmarshal (fuel + 3) ⟨0, 0⟩ hugeLengthInput =
        some (.panic (.indexOutOfRange (-9223372036854775807))) :=
  ⟨rfl, rfl, rfl⟩

theorem unmarshalFields_first (snapshotCount : Int) (hs0 : -(2 ^ 63) ≤ snapshotCount)
    (hs1 : snapshotCount < 2 ^ 63) (n : Nat) :
    unmarshalFields (n + 3) (0, 0) (fieldBytes 0x8 snapshotCount) =
      some (.ok (snapshotCount, 0)) := by
  have h := unmarshalFields_marshal snapshotCount 0 hs0 hs1 (by norm_num) (by norm_num) n
  have e : fieldBytes 0x10 0 = [] := by unfold fieldBytes; rw [if_pos rfl]
  rw [e, List.append_nil] at h
  exact h

theorem unmarshalFields_proper (snapshotCount quotaSizeBytes : Int)
    (hs0 : -(2 ^ 63) ≤ snapshotCount) (hs1 : snapshotCount < 2 ^ 63) (p : List Nat) (n : Nat)
    (hp : p <+: fieldBytes 0x8 snapshotCount ++ fieldBytes 0x10 quotaSizeBytes)
    (hne : p ≠ fieldBytes 0x8 snapshotCount ++ fieldBytes 0x10 quotaSizeBytes) :
    unmarshalFields (n + 3) (0, 0) p =
      if p = [] then some (.ok (0, 0))
      else if p = fieldBytes 0x8 snapshotCount then some (.ok (snapshotCount, 0))
      else some (.error .ErrUnexpectedEOF) := by
  by_cases hnil : p = []
  · rw [if_pos hnil, hnil]
    exact unmarshalFields_nil _ _
  rw [if_neg hnil]
  by_cases hfirst : p = fieldBytes 0x8 snapshotCount
  · rw [if_pos hfirst, hfirst]
    exact unmarshalFields_first snapshotCount hs0 hs1 n
  rw [if_neg hfirst]
  obtain ⟨s, hs⟩ := hp
  rcases List.append_eq_append_iff.mp hs with ⟨a, hf1, _⟩ | ⟨c, hpc, hf2⟩
  · -- `p` ends inside the first field
    have ha : a ≠ [] := by
      intro h; apply hfirst; rw [hf1, h, List.append_nil]
    unfold fieldBytes at hf1
    by_cases h1 : snapshotCount = 0
    · rw [if_pos h1] at hf1
      exact absurd (List.append_eq_nil.mp hf1.symm).1 hnil
    · rw [if_neg h1] at hf1
      cases p with
      | nil => exact absurd rfl hnil
      | cons b p1 =>
        rw [List.cons_append] at hf1
        obtain ⟨hb, hp1⟩ := List.cons.inj hf1
        have hpre : p1 <+: base128Varint (toUint64 snapshotCount) := ⟨a, hp1.symm⟩
        have hne1 : p1 ≠ base128Varint (toUint64 snapshotCount) := by
          intro h
          rw [h] at hp1
          exact ha (List.self_eq_append_right.mp hp1)
        rw [← hb]
        exact unmarshalFields_truncated_one (n + 2) _ _ (Or.inl rfl) _ (toUint64_lt _) p1 hpre
          hne1
  · -- `p` ends inside the second field
    have hc : c ≠ [] := by
      intro h; apply hfirst; rw [hpc, h, List.append_nil]
    have hs1' : s ≠ [] := by
      intro h; apply hne; rw [hpc, hf2, h, List.append_nil]
    unfold fieldBytes at hf2
    by_cases h2 : quotaSizeBytes = 0
    · rw [if_pos h2] at hf2
      exact absurd (List.append_eq_nil.mp hf2.symm).1 hc
    · rw [if_neg h2] at hf2
      cases c with
      | nil => exact absurd rfl hc
      | cons b c1 =>
        rw [List.cons_append] at hf2
        obtain ⟨hb, hc1⟩ := List.cons.inj hf2
        have hpre : c1 <+: base128Varint (toUint64 quotaSizeBytes) := ⟨s, hc1.symm⟩
        have hne1 : c1 ≠ base128Varint (toUint64 quotaSizeBytes) := by
          intro h
          rw [h] at hc1
          exact hs1' (List.self_eq_append_right.mp hc1)
        rw [hpc, ← hb]
        unfold fieldBytes
        by_cases h1 : snapshotCount = 0
        · rw [if_pos h1, List.nil_append]
          exact unmarshalFields_truncated_one (n + 2) _ _ (Or.inr rfl) _ (toUint64_lt _) c1
            hpre hne1
        · rw [if_neg h1]
          exact unmarshalFields_truncated_two (n + 1) _ _ _ (toUint64_lt _) (toUint64_lt _) c1
            hpre hne1

theorem encodeVarintFlagEtcd_eq (v : Nat) (hv : v < 2 ^ 64) (pre zs post : List Nat)
    (hzs : zs.length = (base128Varint v).length)
    (hlen : ((pre.length + zs.length : Nat) : Int) < 2 ^ 63) :
    encodeVarintFlagEtcd (pre ++ zs ++ post) pre.length v =
      some (pre ++ base128Varint v ++ post, ((pre.length + zs.length : Nat) : Int)) :=
  encodeVarintLoop_eq 63 v pre zs post (lt_of_lt_of_le hv (by norm_num)) hzs hlen

/-- C27: for each of the three message types `Size` is the length of what
`Marshal` returns, and `MarshalTo` on any buffer of that length returns that
count with every write in range; for a `uint64` `v`, `sovFlagEtcd v` is between
1 and 10, and `encodeVarintFlagEtcd` at `offset` in a buffer with that many
bytes left rewrites exactly those bytes and returns `offset + sovFlagEtcd v`. -/
theorem Size_eq_length_Marshal (snapshotCount quotaSizeBytes : Int) (buf : List Nat) (v : Nat)
    (pre zs post : List Nat) :
    (∃ dAtA, Flag_Etcd_Tip.Marshal ⟨snapshotCount, quotaSizeBytes⟩ = some dAtA ∧
        Flag_Etcd_Tip.Size ⟨snapshotCount, quotaSizeBytes⟩ = some (dAtA.length : Int) ∧
        (buf.length = dAtA.length →
          Flag_Etcd_Tip.MarshalTo ⟨snapshotCount, quotaSizeBytes⟩ buf =
            some (dAtA, (dAtA.length : Int)))) ∧
      (∃ dAtA, Flag_Etcd_V3_2.Marshal ⟨snapshotCount, quotaSizeBytes⟩ = some dAtA ∧
        Flag_Etcd_V3_2.Size ⟨snapshotCount, quotaSizeBytes⟩ = some (dAtA.length : Int) ∧
        (buf.length = dAtA.length →
          Flag_Etcd_V3_2.MarshalTo ⟨snapshotCount, quotaSizeBytes⟩ buf =
            some (dAtA, (dAtA.length : Int)))) ∧
      (∃ dAtA, Flag_Etcd_V3_3.Marshal ⟨snapshotCount, quotaSizeBytes⟩ = some dAtA ∧
        Flag_Etcd_V3_3.Size ⟨snapshotCount, quotaSizeBytes⟩ = some (dAtA.length : Int) ∧
        (buf.length = dAtA.length →
          Flag_Etcd_V3_3.MarshalTo ⟨snapshotCount, quotaSizeBytes⟩ buf =
            some (dAtA, (dAtA.length : Int)))) ∧
      (v < 2 ^ 64 →
        ∃ s : Nat, sovFlagEtcd v = some (s : Int) ∧ 1 ≤ s ∧ s ≤ 10 ∧
          (zs.length = s → ((pre.length + s : Nat) : Int) < 2 ^ 63 →
            ∃ bytes : List Nat, bytes.length = s ∧
              encodeVarintFlagEtcd (pre ++ zs ++ post) pre.length v =
                some (pre ++ bytes ++ post, ((pre.length + s : Nat) : Int)))) := by
  have hm : ∀ b : List Nat,
      b.length = (fieldBytes 0x8 snapshotCount ++ fieldBytes 0x10 quotaSizeBytes).length →
      marshalToFields snapshotCount quotaSizeBytes b =
        some (fieldBytes 0x8 snapshotCount ++ fieldBytes 0x10 quotaSizeBytes,
          ((fieldBytes 0x8 snapshotCount ++ fieldBytes 0x10 quotaSizeBytes).length : Int)) := by
    intro b hb
    rw [marshalToFields_eq _ _ b hb, hb]
  refine ⟨⟨_, marshalFields_eq _ _, sizeFields_eq _ _, hm buf⟩,
    ⟨_, marshalFields_eq _ _, sizeFields_eq _ _, hm buf⟩,
    ⟨_, marshalFields_eq _ _, sizeFields_eq _ _, hm buf⟩, ?_⟩
  intro hv
  refine ⟨(base128Varint v).length, sovFlagEtcd_eq v hv, base128Varint_length_pos v,
    base128Varint_length_le 9 v (lt_of_lt_of_le hv (by norm_num)), ?_⟩
  intro hzs hlen
  refine ⟨base128Varint v, rfl, ?_⟩
  rw [encodeVarintFlagEtcd_eq v hv pre zs post hzs (by rw [hzs]; exact hlen), hzs]

theorem Size_eq_length_Marshal_witness :
    ∃ s : Nat, sovFlagEtcd 300 = some (s : Int) ∧ 1 ≤ s ∧ s ≤ 10 ∧
      (([0, 0] : List Nat).length = s → (((([7] : List Nat).length + s : Nat)) : Int) < 2 ^ 63 →
        ∃ bytes : List Nat, bytes.length = s ∧
          encodeVarintFlagEtcd ([7] ++ [0, 0] ++ [9]) (([7] : List Nat).length) 300 =
            some ([7] ++ bytes ++ [9], (((([7] : List Nat).length + s : Nat)) : Int))) :=
  (Size_eq_length_Marshal 1 300 [0, 0, 0, 0, 0] 300 [7] [0, 0] [9]).2.2.2 (by decide)

/-- C28: `Marshal` of an etcd flag message returns, for a non-zero
`SnapshotCount`, the tag byte `0x08` and the base-128 varint of it as `uint64`,
followed, for a non-zero `QuotaSizeBytes`, by the tag byte `0x10` and the varint
of it; a zero field contributes nothing, the zero message gives the empty
string, and the three message types give the same bytes. -/
theorem Marshal_bytes (snapshotCount quotaSizeBytes : Int) :
    Flag_Etcd_Tip.Marshal ⟨snapshotCount, quotaSizeBytes⟩ =
        some ((if snapshotCount = 0 then []
            else 0x08 :: base128Varint (toUint64 snapshotCount)) ++
          (if quotaSizeBytes = 0 then []
            else 0x10 :: base128Varint (toUint64 quotaSizeBytes))) ∧
      Flag_Etcd_V3_2.Marshal ⟨snapshotCount, quotaSizeBytes⟩ =
        Flag_Etcd_Tip.Marshal ⟨snapshotCount, quotaSizeBytes⟩ ∧
      Flag_Etcd_V3_3.Marshal ⟨snapshotCount, quotaSizeBytes⟩ =
        Flag_Etcd_Tip.Marshal ⟨snapshotCount, quotaSizeBytes⟩ ∧
      Flag_Etcd_Tip.Marshal ⟨0, 0⟩ = some [] ∧
      base128Varint 1 = [0x01] ∧ base128Varint 300 = [0xAC, 0x02] ∧
      base128Varint (toUint64 (-1)) =
        [0xFF, 0xFF, 0xFF, 0xFF, 0xFF, 0xFF, 0xFF, 0xFF, 0xFF, 0x01] := by
  refine ⟨marshalFields_eq _ _, rfl, rfl, by decide, base128Varint_lt 1 (by norm_num), ?_, ?_⟩
  · rw [base128Varint_ge 300 (by norm_num), base128Varint_lt (300 / 128) (by norm_num)]
  · have e : toUint64 (-1) = 18446744073709551615 := by decide
    rw [e]
    iterate 9 rw [base128Varint_ge _ (by norm_num)]
    rw [base128Varint_lt _ (by norm_num)]

/-- C29: for a proper prefix `p` of what `Marshal` returns, `Unmarshal` returns
no error exactly when `p` is empty or is the complete first field, and
`io.ErrUnexpectedEOF` for every other `p`, that is when `p` ends after a tag
byte or inside a varint; for each of the three message types. -/
theorem Unmarshal_truncated (snapshotCount quotaSizeBytes : Int)
    (hs0 : -(2 ^ 63) ≤ snapshotCount) (hs1 : snapshotCount < 2 ^ 63) (p dAtA : List Nat)
    (fuel : Nat) (hp : p <+: dAtA) (hne : p ≠ dAtA) :
    (Flag_Etcd_Tip.Marshal ⟨snapshotCount, quotaSizeBytes⟩ = some dAtA →
        Flag_Etcd_Tip.Unmarshal (fuel + 3) ⟨0, 0⟩ p =
          if p = [] then some (.ok ⟨0, 0⟩)
          else if p = fieldBytes 0x08 snapshotCount then some (.ok ⟨snapshotCount, 0⟩)
          else some (.error .ErrUnexpectedEOF)) ∧
      (Flag_Etcd_V3_2.Marshal ⟨snapshotCount, quotaSizeBytes⟩ = some dAtA →
        Flag_Etcd_V3_2.Unmarshal (fuel + 3) ⟨0, 0⟩ p =
          if p = [] then some (.ok ⟨0, 0⟩)
          else if p = fieldBytes 0x08 snapshotCount then some (.ok ⟨snapshotCount, 0⟩)
          else some (.error .ErrUnexpectedEOF)) ∧
      (Flag_Etcd_V3_3.Marshal ⟨snapshotCount, quotaSizeBytes⟩ = some dAtA →
        Flag_Etcd_V3_3.Unmarshal (fuel + 3) ⟨0, 0⟩ p =
          if p = [] then some (.ok ⟨0, 0⟩)
          else if p = fieldBytes 0x08 snapshotCount then some (.ok ⟨snapshotCount, 0⟩)
          else some (.error .ErrUnexpectedEOF)) := by
  have key : marshalFields snapshotCount quotaSizeBytes = some dAtA →
      unmarshalFields (fuel + 3) (0, 0) p =
        if p = [] then some (.ok (0, 0))
        else if p = fieldBytes 0x08 snapshotCount then some (.ok (snapshotCount, 0))
        else some (.error .ErrUnexpectedEOF) := by
    intro hm
    rw [marshalFields_eq] at hm
    have hd := Option.some.inj hm
    rw [← hd] at hp hne
    exact unmarshalFields_proper snapshotCount quotaSizeBytes hs0 hs1 p fuel hp hne
  refine ⟨fun hm => ?_, fun hm => ?_, fun hm => ?_⟩
  · unfold Flag_Etcd_Tip.Unmarshal
    rw [key hm]
    split_ifs <;> rfl
  · unfold Flag_Etcd_V3_2.Unmarshal
    rw [key hm]
    split_ifs <;> rfl
  · unfold Flag_Etcd_V3_3.Unmarshal
    rw [key hm]
    split_ifs <;> rfl

theorem Unmarshal_truncated_witness :
    Flag_Etcd_Tip.Unmarshal (0 + 3) ⟨0, 0⟩ [0x08, 0xAC] =
      if ([0x08, 0xAC] : List Nat) = [] then some (.ok ⟨0, 0⟩)
      else if [0x08, 0xAC] = fieldBytes 0x08 300 then some (.ok ⟨300, 0⟩)
      else some (.error .ErrUnexpectedEOF) :=
  (Unmarshal_truncated 300 5 (by decide) (by decide) [0x08, 0xAC] [0x08, 0xAC, 0x02, 0x10, 0x05]
    0 ⟨[0x02, 0x10, 0x05], rfl⟩ (by decide)).1 (by decide)

end Pb

end Dbtester
